import Mathlib

/-!
# Verification of `convert_to_fraction.h` (`cvt_2_fraction::toFract`)

Shallow embedding of the mediant-descent float-to-fraction conversion from
`src/convert_to_fraction.h`.  The C++ code works with IEEE doubles and a
signed integer template parameter `int_type`; the embedding idealises every
`double` as an exact rational (`ℚ`) — the standard exact-arithmetic model,
matching the spec's reading "up to floating slack" — and models `int_type`
as `ℤ` together with the explicit bound `maxV` standing for
`std::numeric_limits<int_type>::max()` (the loop's own guard keeps all
constructed integers inside the bound, so unbounded `ℤ` plus the explicit
guard is faithful).  `boost::rational` normalises (divides by the gcd,
keeps the denominator positive) on every construction; `mkFrac` mirrors
that.  Debug assertions (`assert`) and `std::cerr` tracing are compiled
out / effect-free and are not part of the model.
-/

namespace Cvt2Fraction

/-- Model of `boost::rational::rational<int_type>`: a numerator/denominator
pair.  (`boost::rational` keeps the invariant `den > 0`, gcd 1; in the
embedding the invariant is proved rather than carried in the type.) -/
structure Frac where
  num : ℤ
  den : ℤ
deriving DecidableEq, Repr

/-- Model of `toFloat` (line 20): `double(frac.numerator()) / double(frac.denominator())`. -/
def toFloat (f : Frac) : ℚ := (f.num : ℚ) / (f.den : ℚ)

/-- Normalising constructor, modelling `boost::rational(n, d)`: divide both
components by their gcd and keep the denominator positive.  (`boost`
throws `bad_rational` on `d = 0`; the algorithm never constructs a zero
denominator — proved below — so that branch is left as the junk value
obtained by dividing by `gcd = 0` when `n = d = 0`.) -/
def mkFrac (n d : ℤ) : Frac :=
  if d < 0 then ⟨-(n / (Int.gcd n d : ℤ)), -(d / (Int.gcd n d : ℤ))⟩
  else ⟨n / (Int.gcd n d : ℤ), d / (Int.gcd n d : ℤ)⟩

/-- Model of `boost::rational::operator+=(int_type)` used at line 397
(`high += intPart`): adds `k` to the value, `num += k * den`.  `boost`
performs exactly this component operation (it cannot break the gcd
invariant, so it does not renormalise). -/
def addInt (f : Frac) (k : ℤ) : Frac := ⟨f.num + k * f.den, f.den⟩

/-- Model of the C++ `double -> int_type` conversion (used at lines 272,
342, 372): truncation toward zero.  (For out-of-range arguments the C++
conversion is undefined behaviour; the model totalises it as exact
truncation.) -/
def ratTrunc (q : ℚ) : ℤ := if 0 ≤ q then ⌊q⌋ else ⌈q⌉

/-- The search state: the two bracketing bounds `low` ("A") and `high`
("B") of the loop at lines 279-395. -/
structure SState where
  low : Frac
  high : Frac
deriving DecidableEq, Repr

/-- Why the loop stopped: via one of the two precision tests (lines
313-323, "Converged") or via one of the two integer-width guards (lines
337-340 and 367-370, "OverflowStopped").  Ghost information: the C++ code
returns only the fraction. -/
inductive Reason
  | converged
  | overflowStopped
deriving DecidableEq, Repr

/-- Result of one loop body execution: either the loop breaks with the
fraction that `high` holds after the break (lines 313-323 set
`high := low` before breaking in the `testLow` case), or it continues
with an updated state. -/
inductive StepRes
  | done (f : Frac) (r : Reason)
  | next (s : SState)
deriving DecidableEq, Repr

/-- Line 294: `double testLow = low.denominator() * val - low.numerator();`. -/
def testLow (rem : ℚ) (s : SState) : ℚ := (s.low.den : ℚ) * rem - (s.low.num : ℚ)

/-- Line 295: `double testHigh = high.numerator() - high.denominator() * val;`. -/
def testHigh (rem : ℚ) (s : SState) : ℚ := (s.high.num : ℚ) - (s.high.den : ℚ) * rem

/-- One iteration of the `for (;;)` loop body, lines 286-395:
the two precision tests (in source order, `testHigh` first), the
`x1 > x2` branch choice, the pre-update overflow guards, and the two
mediant updates `low = Fraction(l_num, l_denom); high = Fraction(h_num, h_denom)`. -/
def step (maxV : ℤ) (rem prec : ℚ) (s : SState) : StepRes :=
  if testHigh rem s < prec then .done s.high .converged
  else if testLow rem s < prec then .done s.low .converged
  else if testHigh rem s / testLow rem s > testLow rem s / testHigh rem s then
    if (testHigh rem s / testLow rem s + 1) * (s.low.den : ℚ) + (s.high.den : ℚ) ≥ (maxV : ℚ) then
      .done s.high .overflowStopped
    else
      .next ⟨mkFrac (ratTrunc (testHigh rem s / testLow rem s) * s.low.num + s.high.num + s.low.num)
                    (ratTrunc (testHigh rem s / testLow rem s) * s.low.den + s.high.den + s.low.den),
             mkFrac (ratTrunc (testHigh rem s / testLow rem s) * s.low.num + s.high.num)
                    (ratTrunc (testHigh rem s / testLow rem s) * s.low.den + s.high.den)⟩
  else
    if (s.low.den : ℚ) + (testLow rem s / testHigh rem s + 1) * (s.high.den : ℚ) ≥ (maxV : ℚ) then
      .done s.high .overflowStopped
    else
      .next ⟨mkFrac (s.low.num + ratTrunc (testLow rem s / testHigh rem s) * s.high.num)
                    (s.low.den + ratTrunc (testLow rem s / testHigh rem s) * s.high.den),
             mkFrac (s.low.num + ratTrunc (testLow rem s / testHigh rem s) * s.high.num + s.high.num)
                    (s.low.den + ratTrunc (testLow rem s / testHigh rem s) * s.high.den + s.high.den)⟩

/-- Lines 279-280: `low = 0/1`, `high = 1/1`. -/
def initState : SState := ⟨⟨0, 1⟩, ⟨1, 1⟩⟩

/-- The `for (;;)` loop, lines 286-395, run from state `s`.  The C++ loop
has no iteration bound; `fuel` is a modelling artifact: `none` means the
loop was still running after `fuel` iterations. -/
def loop (maxV : ℤ) (rem prec : ℚ) : ℕ → SState → Option (Frac × Reason)
  | 0, _ => none
  | fuel + 1, s =>
    match step maxV rem prec s with
    | .done f r => some (f, r)
    | .next s' => loop maxV rem prec fuel s'

/-- The state the loop holds on entry to iteration `k + 1`, i.e. after `k`
committed mediant updates, starting from `initState`; `none` once the
loop has exited within the first `k` iterations. -/
def iter (maxV : ℤ) (rem prec : ℚ) : ℕ → Option SState
  | 0 => some initState
  | k + 1 =>
    match iter maxV rem prec k with
    | some s =>
      match step maxV rem prec s with
      | .next s' => some s'
      | .done _ _ => none
    | none => none

/-- Observable outcome of `toFract`: either the thrown
`std::invalid_argument` (line 276) or the returned fraction (line 404),
tagged with the ghost stop reason. -/
inductive TOut
  | err (msg : String)
  | ok (f : Frac) (r : Reason)
deriving DecidableEq, Repr

/-- `true` iff the call returned normally (did not throw). -/
def TOut.isOk : TOut → Bool
  | .ok _ _ => true
  | .err _ => false

/-- Model of `toFract(double val, double Precision)`, lines 263-405:
truncate the integer part, guard `|val| > 1` (line 274), run the search
loop on the fractional remainder, and return `high += intPart`.
`none` is the fuel-exhaustion artifact of the model (the C++ loop would
still be running after `fuel` iterations). -/
def toFract (maxV : ℤ) (fuel : ℕ) (val prec : ℚ) : Option TOut :=
  let intPart : ℤ := ratTrunc val
  let rem : ℚ := val - (intPart : ℚ)
  if |rem| > 1 then
    some (.err "fraction cannot be larger than the maximum value of the integer type")
  else
    match loop maxV rem prec fuel initState with
    | some (f, r) => some (.ok (addInt f intPart) r)
    | none => none

/-- `n` committed loop iterations starting from state `s`: `some` of the
reached state if none of the exit conditions fired on the way, `none` if
the loop exited within the first `n` iterations.  (`iter k = stepN k`
from `initState`; the generalisation over the start state lets long runs
be verified in chunks.) -/
def stepN (maxV : ℤ) (rem prec : ℚ) : ℕ → SState → Option SState
  | 0, s => some s
  | n + 1, s =>
    match step maxV rem prec s with
    | .next s' => stepN maxV rem prec n s'
    | .done _ _ => none

/-! ## Basic facts about the building blocks -/

theorem toFloat_mk (n d : ℤ) : toFloat ⟨n, d⟩ = (n : ℚ) / (d : ℚ) := rfl

theorem ratTrunc_eq_floor {q : ℚ} (h : 0 ≤ q) : ratTrunc q = ⌊q⌋ := by
  simp [ratTrunc, h]

/-- Exact truncation leaves a fractional remainder of magnitude below 1:
the guard at line 274 can never fire in the exact model. -/
theorem abs_sub_ratTrunc_lt_one (v : ℚ) : |v - (ratTrunc v : ℚ)| < 1 := by
  rcases le_or_lt 0 v with h | h
  · rw [ratTrunc_eq_floor h, abs_of_nonneg (by simp [Int.floor_le])]
    have := Int.sub_one_lt_floor v
    linarith
  · rw [ratTrunc, if_neg (not_le.mpr h), abs_of_nonpos (by simp [Int.le_ceil])]
    have := Int.ceil_lt_add_one v
    linarith

/-- For nonnegative inputs the fractional remainder lies in `[0, 1)`. -/
theorem sub_ratTrunc_mem_Ico {v : ℚ} (h : 0 ≤ v) :
    0 ≤ v - (ratTrunc v : ℚ) ∧ v - (ratTrunc v : ℚ) < 1 := by
  rw [ratTrunc_eq_floor h]
  constructor
  · simp [Int.floor_le]
  · have := Int.sub_one_lt_floor v
    linarith

/-- A unimodular pair relation forces both fractions into lowest terms:
any common divisor of one component pair divides the determinant `1`. -/
theorem coprime_of_det {p q r s : ℤ} (h : q * r - p * s = 1) :
    Int.gcd p q = 1 ∧ Int.gcd r s = 1 := by
  constructor
  · have hq : (Int.gcd p q : ℤ) ∣ q := Int.gcd_dvd_right
    have hp : (Int.gcd p q : ℤ) ∣ p := Int.gcd_dvd_left
    have h3 : (Int.gcd p q : ℤ) ∣ 1 := h ▸ dvd_sub (hq.mul_right r) (hp.mul_right s)
    exact Nat.dvd_one.mp (Int.ofNat_dvd.mp (by exact_mod_cast h3))
  · have hr : (Int.gcd r s : ℤ) ∣ r := Int.gcd_dvd_left
    have hs : (Int.gcd r s : ℤ) ∣ s := Int.gcd_dvd_right
    have h3 : (Int.gcd r s : ℤ) ∣ 1 := h ▸ dvd_sub (hr.mul_left q) (hs.mul_left p)
    exact Nat.dvd_one.mp (Int.ofNat_dvd.mp (by exact_mod_cast h3))

/-- On a coprime pair with positive denominator, `boost`'s normalising
constructor is the identity. -/
theorem mkFrac_coprime {n d : ℤ} (hg : Int.gcd n d = 1) (hd : 0 < d) :
    mkFrac n d = ⟨n, d⟩ := by
  rw [mkFrac, if_neg (not_lt.mpr hd.le), hg]
  simp

/-- `high += intPart` shifts the value by exactly the integer part. -/
theorem toFloat_addInt (f : Frac) (k : ℤ) (h : f.den ≠ 0) :
    toFloat (addInt f k) = toFloat f + (k : ℚ) := by
  have h' : (f.den : ℚ) ≠ 0 := Int.cast_ne_zero.mpr h
  simp only [toFloat, addInt]
  push_cast
  field_simp

/-- `num += k * den` does not change the gcd of numerator and denominator. -/
theorem gcd_addInt (f : Frac) (k : ℤ) :
    Int.gcd (addInt f k).num (addInt f k).den = Int.gcd f.num f.den := by
  simp only [addInt]
  apply Nat.dvd_antisymm
  · have h1 : (Int.gcd (f.num + k * f.den) f.den : ℤ) ∣ f.num + k * f.den :=
      Int.gcd_dvd_left
    have h2 : (Int.gcd (f.num + k * f.den) f.den : ℤ) ∣ f.den := Int.gcd_dvd_right
    have h3 : (Int.gcd (f.num + k * f.den) f.den : ℤ) ∣ f.num := by
      have := dvd_sub h1 (h2.mul_left k)
      simpa using this
    exact Int.ofNat_dvd.mp (by exact_mod_cast Int.dvd_gcd h3 h2)
  · have h1 : (Int.gcd f.num f.den : ℤ) ∣ f.num := Int.gcd_dvd_left
    have h2 : (Int.gcd f.num f.den : ℤ) ∣ f.den := Int.gcd_dvd_right
    have h3 : (Int.gcd f.num f.den : ℤ) ∣ f.num + k * f.den :=
      dvd_add h1 (h2.mul_left k)
    exact Int.ofNat_dvd.mp (by exact_mod_cast Int.dvd_gcd h3 h2)

/-! ## The loop invariant

The assertions at lines 288-289 and 393-394 claim `low <= val <= high`.
`brInv` is the full invariant actually maintained by the loop in exact
arithmetic: positive denominators, bracketing of the remainder inside
`[0, 1]`, and unimodularity of the bound pair (the classical
Stern-Brocot determinant; it makes every constructed pair coprime, so
`boost`'s normalisation is the identity on them). -/

/-- The loop invariant over a state: positive denominators, value
bracketing `0 ≤ low ≤ rem ≤ high ≤ 1`, determinant 1. -/
def brInv (rem : ℚ) (s : SState) : Prop :=
  0 < s.low.den ∧ 0 < s.high.den ∧
  0 ≤ toFloat s.low ∧ toFloat s.low ≤ rem ∧ rem ≤ toFloat s.high ∧ toFloat s.high ≤ 1 ∧
  s.low.den * s.high.num - s.low.num * s.high.den = 1

instance (rem : ℚ) (s : SState) : Decidable (brInv rem s) := by
  unfold brInv
  infer_instance

theorem brInv_init {rem : ℚ} (h0 : 0 ≤ rem) (h1 : rem ≤ 1) : brInv rem initState := by
  refine ⟨one_pos, one_pos, ?_, ?_, ?_, ?_, ?_⟩ <;>
    simp [initState, toFloat_mk, h0, h1]

/-- Mediant update, `x1 > x2` branch (lines 333-362): with
`n = ⌊testHigh / testLow⌋`, the state moves to
`high' = (n*a + c)/(n*b + d)` and `low' = high' + low` componentwise.
Every property of the new raw components needed to re-establish the
invariant, shown under the branch conditions and the passed overflow
guard. -/
theorem update_high_side {maxV : ℤ} {rem prec : ℚ} {a b c d n : ℤ}
    (hb : 0 < b) (hd : 0 < d)
    (h0 : 0 ≤ (a : ℚ) / b) (hlr : (a : ℚ) / b ≤ rem)
    (hrh : rem ≤ (c : ℚ) / d) (hh1 : (c : ℚ) / d ≤ 1)
    (hdet : b * c - a * d = 1) (hp : 0 < prec)
    (hH : ¬ ((c : ℚ) - (d : ℚ) * rem < prec)) (hL : ¬ ((b : ℚ) * rem - (a : ℚ) < prec))
    (hx : ((b : ℚ) * rem - a) / ((c : ℚ) - d * rem) <
      ((c : ℚ) - (d : ℚ) * rem) / ((b : ℚ) * rem - a))
    (hg : (((c : ℚ) - (d : ℚ) * rem) / ((b : ℚ) * rem - a) + 1) * (b : ℚ) + (d : ℚ) <
      (maxV : ℚ))
    (hn : n = ⌊((c : ℚ) - (d : ℚ) * rem) / ((b : ℚ) * rem - a)⌋) :
    1 ≤ n ∧
    (d < n * b + d ∧ b < n * b + d + b) ∧
    (n * b + d < maxV ∧ n * b + d + b < maxV) ∧
    (Int.gcd (n * a + c) (n * b + d) = 1 ∧ Int.gcd (n * a + c + a) (n * b + d + b) = 1) ∧
    (n * b + d + b) * (n * a + c) - (n * a + c + a) * (n * b + d) = 1 ∧
    0 ≤ ((n * a + c + a : ℤ) : ℚ) / ((n * b + d + b : ℤ) : ℚ) ∧
    ((n * a + c + a : ℤ) : ℚ) / ((n * b + d + b : ℤ) : ℚ) ≤ rem ∧
    rem ≤ ((n * a + c : ℤ) : ℚ) / ((n * b + d : ℤ) : ℚ) ∧
    ((n * a + c : ℤ) : ℚ) / ((n * b + d : ℤ) : ℚ) ≤ 1 := by
  have hbq : (0 : ℚ) < (b : ℚ) := by exact_mod_cast hb
  have hdq : (0 : ℚ) < (d : ℚ) := by exact_mod_cast hd
  set tL : ℚ := (b : ℚ) * rem - a with htLdef
  set tH : ℚ := (c : ℚ) - (d : ℚ) * rem with htHdef
  have htL : 0 < tL := lt_of_lt_of_le hp (not_lt.mp hL)
  have htH : 0 < tH := lt_of_lt_of_le hp (not_lt.mp hH)
  have hLH : tL < tH := by
    by_contra hcon
    push_neg at hcon
    have hle1 : tH / tL ≤ 1 := (div_le_one htL).mpr hcon
    have hle2 : 1 ≤ tL / tH := (one_le_div htH).mpr hcon
    exact absurd hx (not_lt.mpr (hle1.trans hle2))
  have hx1 : 1 < tH / tL := (one_lt_div htL).mpr hLH
  have hn1 : 1 ≤ n := hn ▸ Int.le_floor.mpr (by exact_mod_cast hx1.le)
  have hnq : (n : ℚ) ≤ tH / tL := hn ▸ Int.floor_le _
  have hnq1 : tH / tL < (n : ℚ) + 1 := by
    rw [hn]
    exact_mod_cast Int.lt_floor_add_one (tH / tL)
  have hkey1 : (n : ℚ) * tL ≤ tH := by
    have h := mul_le_mul_of_nonneg_right hnq htL.le
    rwa [div_mul_cancel₀ _ htL.ne'] at h
  have hkey2 : tH < ((n : ℚ) + 1) * tL := by
    have h := mul_lt_mul_of_pos_right hnq1 htL
    rwa [div_mul_cancel₀ _ htL.ne'] at h
  have ha : 0 ≤ a := by
    by_contra hcon
    push_neg at hcon
    exact absurd h0 (not_le.mpr (div_neg_of_neg_of_pos (by exact_mod_cast hcon) hbq))
  have hr0 : 0 ≤ rem := le_trans h0 hlr
  have hc : 0 ≤ c := by
    by_contra hcon
    push_neg at hcon
    have hneg : (c : ℚ) / d < 0 := div_neg_of_neg_of_pos (by exact_mod_cast hcon) hdq
    exact absurd (hr0.trans hrh) (not_le.mpr hneg)
  have hab : a ≤ b := by
    have h1 : (a : ℚ) / b ≤ 1 := hlr.trans (hrh.trans hh1)
    have h2 := (div_le_one hbq).mp h1
    exact_mod_cast h2
  have hcd : c ≤ d := by
    have h2 := (div_le_one hdq).mp hh1
    exact_mod_cast h2
  have hnb : b ≤ n * b := le_mul_of_one_le_left hb.le hn1
  have hnbpos : 0 < n * b := lt_of_lt_of_le hb hnb
  have hna : 0 ≤ n * a := mul_nonneg (by linarith) ha
  refine ⟨hn1, ⟨by linarith, by linarith⟩, ?_, ?_, ?_, ?_, ?_, ?_, ?_⟩
  · -- new denominators stay below the width bound, thanks to the guard
    have hcast : ((n * b + d + b : ℤ) : ℚ) = ((n : ℚ) + 1) * b + d := by
      push_cast
      ring
    have hmono : ((n : ℚ) + 1) * (b : ℚ) + d ≤ (tH / tL + 1) * (b : ℚ) + d := by
      have := mul_le_mul_of_nonneg_right (add_le_add_right hnq 1) hbq.le
      linarith
    have houter : n * b + d + b < maxV := by
      have h1 : ((n * b + d + b : ℤ) : ℚ) < (maxV : ℚ) := by
        rw [hcast]
        linarith
      exact_mod_cast h1
    exact ⟨by linarith, houter⟩
  · -- both new raw pairs are coprime, via the determinant
    have hdet' : (n * b + d + b) * (n * a + c) - (n * a + c + a) * (n * b + d) = 1 := by
      have hexp : (n * b + d + b) * (n * a + c) - (n * a + c + a) * (n * b + d) =
          b * c - a * d := by ring
      rw [hexp, hdet]
    have hco := coprime_of_det hdet'
    exact ⟨hco.2, hco.1⟩
  · -- the determinant itself
    have hexp : (n * b + d + b) * (n * a + c) - (n * a + c + a) * (n * b + d) =
        b * c - a * d := by ring
    rw [hexp, hdet]
  · -- new low is nonnegative
    apply div_nonneg
    · have hz : (0 : ℤ) ≤ n * a + c + a := by linarith
      exact_mod_cast hz
    · have hz : (0 : ℤ) ≤ n * b + d + b := by linarith
      exact_mod_cast hz
  · -- new low stays at or below the remainder
    have hden : (0 : ℚ) < ((n * b + d + b : ℤ) : ℚ) := by
      have hz : (0 : ℤ) < n * b + d + b := by linarith
      exact_mod_cast hz
    rw [div_le_iff₀ hden]
    have hid : rem * ((n * b + d + b : ℤ) : ℚ) - ((n * a + c + a : ℤ) : ℚ) =
        ((n : ℚ) + 1) * tL - tH := by
      rw [htLdef, htHdef]
      push_cast
      ring
    linarith [hkey2]
  · -- the remainder stays at or below the new high
    have hden : (0 : ℚ) < ((n * b + d : ℤ) : ℚ) := by
      have hz : (0 : ℤ) < n * b + d := by linarith
      exact_mod_cast hz
    rw [le_div_iff₀ hden]
    have hid : ((n * a + c : ℤ) : ℚ) - rem * ((n * b + d : ℤ) : ℚ) =
        tH - (n : ℚ) * tL := by
      rw [htLdef, htHdef]
      push_cast
      ring
    linarith [hkey1]
  · -- new high stays at or below 1
    have hden : (0 : ℚ) < ((n * b + d : ℤ) : ℚ) := by
      have : (0 : ℤ) < n * b + d := by linarith
      exact_mod_cast this
    rw [div_le_one hden]
    have h1 : n * a + c ≤ n * b + d := by
      have := mul_le_mul_of_nonneg_left hab (by linarith : (0:ℤ) ≤ n)
      linarith
    exact_mod_cast h1

/-- Mediant update, `x2 >= x1` branch (lines 363-392): with
`n = ⌊testLow / testHigh⌋`, the state moves to
`low' = (a + n*c)/(b + n*d)` and `high' = low' + high` componentwise —
the mirror image of `update_high_side`. -/
theorem update_low_side {maxV : ℤ} {rem prec : ℚ} {a b c d n : ℤ}
    (hb : 0 < b) (hd : 0 < d)
    (h0 : 0 ≤ (a : ℚ) / b) (hlr : (a : ℚ) / b ≤ rem)
    (hrh : rem ≤ (c : ℚ) / d) (hh1 : (c : ℚ) / d ≤ 1)
    (hdet : b * c - a * d = 1) (hp : 0 < prec)
    (hH : ¬ ((c : ℚ) - (d : ℚ) * rem < prec)) (hL : ¬ ((b : ℚ) * rem - (a : ℚ) < prec))
    (hx : ¬ (((b : ℚ) * rem - a) / ((c : ℚ) - d * rem) <
      ((c : ℚ) - (d : ℚ) * rem) / ((b : ℚ) * rem - a)))
    (hg : (b : ℚ) + (((b : ℚ) * rem - a) / ((c : ℚ) - (d : ℚ) * rem) + 1) * (d : ℚ) <
      (maxV : ℤ))
    (hn : n = ⌊((b : ℚ) * rem - (a : ℚ)) / ((c : ℚ) - (d : ℚ) * rem)⌋) :
    1 ≤ n ∧
    (b < b + n * d ∧ d < b + n * d + d) ∧
    (b + n * d < maxV ∧ b + n * d + d < maxV) ∧
    (Int.gcd (a + n * c) (b + n * d) = 1 ∧ Int.gcd (a + n * c + c) (b + n * d + d) = 1) ∧
    (b + n * d) * (a + n * c + c) - (a + n * c) * (b + n * d + d) = 1 ∧
    0 ≤ ((a + n * c : ℤ) : ℚ) / ((b + n * d : ℤ) : ℚ) ∧
    ((a + n * c : ℤ) : ℚ) / ((b + n * d : ℤ) : ℚ) ≤ rem ∧
    rem ≤ ((a + n * c + c : ℤ) : ℚ) / ((b + n * d + d : ℤ) : ℚ) ∧
    ((a + n * c + c : ℤ) : ℚ) / ((b + n * d + d : ℤ) : ℚ) ≤ 1 := by
  have hbq : (0 : ℚ) < (b : ℚ) := by exact_mod_cast hb
  have hdq : (0 : ℚ) < (d : ℚ) := by exact_mod_cast hd
  set tL : ℚ := (b : ℚ) * rem - a with htLdef
  set tH : ℚ := (c : ℚ) - (d : ℚ) * rem with htHdef
  have htL : 0 < tL := lt_of_lt_of_le hp (not_lt.mp hL)
  have htH : 0 < tH := lt_of_lt_of_le hp (not_lt.mp hH)
  have hHL : tH ≤ tL := by
    by_contra hcon
    push_neg at hcon
    have hlt1 : tL / tH < 1 := (div_lt_one htH).mpr hcon
    have hlt2 : 1 < tH / tL := (one_lt_div htL).mpr hcon
    exact hx (hlt1.trans hlt2)
  have hx1 : 1 ≤ tL / tH := (one_le_div htH).mpr hHL
  have hn1 : 1 ≤ n := hn ▸ Int.le_floor.mpr (by exact_mod_cast hx1)
  have hnq : (n : ℚ) ≤ tL / tH := hn ▸ Int.floor_le _
  have hnq1 : tL / tH < (n : ℚ) + 1 := by
    rw [hn]
    exact_mod_cast Int.lt_floor_add_one (tL / tH)
  have hkey1 : (n : ℚ) * tH ≤ tL := by
    have h := mul_le_mul_of_nonneg_right hnq htH.le
    rwa [div_mul_cancel₀ _ htH.ne'] at h
  have hkey2 : tL < ((n : ℚ) + 1) * tH := by
    have h := mul_lt_mul_of_pos_right hnq1 htH
    rwa [div_mul_cancel₀ _ htH.ne'] at h
  have ha : 0 ≤ a := by
    by_contra hcon
    push_neg at hcon
    exact absurd h0 (not_le.mpr (div_neg_of_neg_of_pos (by exact_mod_cast hcon) hbq))
  have hr0 : 0 ≤ rem := le_trans h0 hlr
  have hc : 0 ≤ c := by
    by_contra hcon
    push_neg at hcon
    have hneg : (c : ℚ) / d < 0 := div_neg_of_neg_of_pos (by exact_mod_cast hcon) hdq
    exact absurd (hr0.trans hrh) (not_le.mpr hneg)
  have hab : a ≤ b := by
    have h1 : (a : ℚ) / b ≤ 1 := hlr.trans (hrh.trans hh1)
    have h2 := (div_le_one hbq).mp h1
    exact_mod_cast h2
  have hcd : c ≤ d := by
    have h2 := (div_le_one hdq).mp hh1
    exact_mod_cast h2
  have hnd : d ≤ n * d := le_mul_of_one_le_left hd.le hn1
  have hndpos : 0 < n * d := lt_of_lt_of_le hd hnd
  have hnc : 0 ≤ n * c := mul_nonneg (by linarith) hc
  refine ⟨hn1, ⟨by linarith, by linarith⟩, ?_, ?_, ?_, ?_, ?_, ?_, ?_⟩
  · -- new denominators stay below the width bound, thanks to the guard
    have hcast : ((b + n * d + d : ℤ) : ℚ) = (b : ℚ) + ((n : ℚ) + 1) * d := by
      push_cast
      ring
    have hmono : (b : ℚ) + ((n : ℚ) + 1) * (d : ℚ) ≤ (b : ℚ) + (tL / tH + 1) * (d : ℚ) := by
      have := mul_le_mul_of_nonneg_right (add_le_add_right hnq 1) hdq.le
      linarith
    have houter : b + n * d + d < maxV := by
      have h1 : ((b + n * d + d : ℤ) : ℚ) < (maxV : ℚ) := by
        rw [hcast]
        linarith
      exact_mod_cast h1
    exact ⟨by linarith, houter⟩
  · -- both new raw pairs are coprime, via the determinant
    have hdet' : (b + n * d) * (a + n * c + c) - (a + n * c) * (b + n * d + d) = 1 := by
      have hexp : (b + n * d) * (a + n * c + c) - (a + n * c) * (b + n * d + d) =
          b * c - a * d := by ring
      rw [hexp, hdet]
    have hco := coprime_of_det hdet'
    exact ⟨hco.1, hco.2⟩
  · -- the determinant itself
    have hexp : (b + n * d) * (a + n * c + c) - (a + n * c) * (b + n * d + d) =
        b * c - a * d := by ring
    rw [hexp, hdet]
  · -- new low is nonnegative
    apply div_nonneg
    · have hz : (0 : ℤ) ≤ a + n * c := by linarith
      exact_mod_cast hz
    · have hz : (0 : ℤ) ≤ b + n * d := by linarith
      exact_mod_cast hz
  · -- new low stays at or below the remainder
    have hden : (0 : ℚ) < ((b + n * d : ℤ) : ℚ) := by
      have hz : (0 : ℤ) < b + n * d := by linarith
      exact_mod_cast hz
    rw [div_le_iff₀ hden]
    have hid : rem * ((b + n * d : ℤ) : ℚ) - ((a + n * c : ℤ) : ℚ) =
        tL - (n : ℚ) * tH := by
      rw [htLdef, htHdef]
      push_cast
      ring
    linarith [hkey1]
  · -- the remainder stays at or below the new high
    have hden : (0 : ℚ) < ((b + n * d + d : ℤ) : ℚ) := by
      have hz : (0 : ℤ) < b + n * d + d := by linarith
      exact_mod_cast hz
    rw [le_div_iff₀ hden]
    have hid : ((a + n * c + c : ℤ) : ℚ) - rem * ((b + n * d + d : ℤ) : ℚ) =
        ((n : ℚ) + 1) * tH - tL := by
      rw [htLdef, htHdef]
      push_cast
      ring
    linarith [hkey2]
  · -- new high stays at or below 1
    have hden : (0 : ℚ) < ((b + n * d + d : ℤ) : ℚ) := by
      have hz : (0 : ℤ) < b + n * d + d := by linarith
      exact_mod_cast hz
    rw [div_le_one hden]
    have h1 : a + n * c + c ≤ b + n * d + d := by
      have := mul_le_mul_of_nonneg_left hcd (by linarith : (0:ℤ) ≤ n)
      linarith
    exact_mod_cast h1

/-- Invariant preservation: whenever an iteration commits a mediant
update (lines 342-392), the invariant is re-established, both
denominators strictly grow, and both new denominators stay below the
width bound (this is exactly what the guards at lines 337 and 367
enforce before the update is committed). -/
theorem step_next_strong {maxV : ℤ} {rem prec : ℚ} {s s' : SState}
    (hI : brInv rem s) (hp : 0 < prec) (h : step maxV rem prec s = .next s') :
    brInv rem s' ∧ s.low.den < s'.low.den ∧ s.high.den < s'.high.den ∧
    s'.low.den < maxV ∧ s'.high.den < maxV := by
  obtain ⟨⟨a, b⟩, ⟨c, d⟩⟩ := s
  obtain ⟨hb, hd, h0, hlr, hrh, hh1, hdet⟩ := hI
  simp only [toFloat_mk] at h0 hlr hrh hh1
  unfold step testLow testHigh at h
  dsimp only at h hb hd hdet ⊢
  split_ifs at h with h1 h2 h3 h4 h5
  · -- the x1 > x2 branch commits its update
    have htL : (0:ℚ) < (b : ℚ) * rem - (a : ℚ) := lt_of_lt_of_le hp (not_lt.mp h2)
    have htH : (0:ℚ) < (c : ℚ) - (d : ℚ) * rem := lt_of_lt_of_le hp (not_lt.mp h1)
    have hx0 : (0:ℚ) ≤ ((c : ℚ) - (d : ℚ) * rem) / ((b : ℚ) * rem - (a : ℚ)) :=
      div_nonneg htH.le htL.le
    rw [ratTrunc_eq_floor hx0] at h
    obtain ⟨hn1, ⟨hgrow1, hgrow2⟩, ⟨hm1, hm2⟩, ⟨hgcd1, hgcd2⟩, hdet', hv0, hv1, hv2, hv3⟩ :=
      update_high_side (n := ⌊((c : ℚ) - (d : ℚ) * rem) / ((b : ℚ) * rem - (a : ℚ))⌋)
        hb hd h0 hlr hrh hh1 hdet hp h1 h2 h3 (not_le.mp h4) rfl
    rw [mkFrac_coprime hgcd2 (hb.trans hgrow2), mkFrac_coprime hgcd1 (hd.trans hgrow1)] at h
    injection h with h
    subst h
    exact ⟨⟨hb.trans hgrow2, hd.trans hgrow1, hv0, hv1, hv2, hv3, hdet'⟩,
      hgrow2, hgrow1, hm2, hm1⟩
  · -- the x2 >= x1 branch commits its update
    have htL : (0:ℚ) < (b : ℚ) * rem - (a : ℚ) := lt_of_lt_of_le hp (not_lt.mp h2)
    have htH : (0:ℚ) < (c : ℚ) - (d : ℚ) * rem := lt_of_lt_of_le hp (not_lt.mp h1)
    have hx0 : (0:ℚ) ≤ ((b : ℚ) * rem - (a : ℚ)) / ((c : ℚ) - (d : ℚ) * rem) :=
      div_nonneg htL.le htH.le
    rw [ratTrunc_eq_floor hx0] at h
    obtain ⟨hn1, ⟨hgrow1, hgrow2⟩, ⟨hm1, hm2⟩, ⟨hgcd1, hgcd2⟩, hdet', hv0, hv1, hv2, hv3⟩ :=
      update_low_side (n := ⌊((b : ℚ) * rem - (a : ℚ)) / ((c : ℚ) - (d : ℚ) * rem)⌋)
        hb hd h0 hlr hrh hh1 hdet hp h1 h2 h3 (not_le.mp h5) rfl
    rw [mkFrac_coprime hgcd1 (hb.trans hgrow1), mkFrac_coprime hgcd2 (hd.trans hgrow2)] at h
    injection h with h
    subst h
    exact ⟨⟨hb.trans hgrow1, hd.trans hgrow2, hv0, hv1, hv2, hv3, hdet'⟩,
      hgrow1, hgrow2, hm1, hm2⟩

/-- Exit analysis of one iteration: the loop breaks in exactly three
ways, in source order — `testHigh < precision` returning `high`
(line 313), else `testLow < precision` returning `low` (line 318), else
one of the overflow guards returning the untouched `high`
(lines 337, 367). -/
theorem step_done_cases {maxV : ℤ} {rem prec : ℚ} {s : SState} {f : Frac} {r : Reason}
    (h : step maxV rem prec s = .done f r) :
    (testHigh rem s < prec ∧ f = s.high ∧ r = .converged) ∨
    (¬ testHigh rem s < prec ∧ testLow rem s < prec ∧ f = s.low ∧ r = .converged) ∨
    (¬ testHigh rem s < prec ∧ ¬ testLow rem s < prec ∧ f = s.high ∧ r = .overflowStopped) := by
  unfold step at h
  split_ifs at h with h1 h2 h3 h4 h5
  · injection h with hf hr
    exact Or.inl ⟨h1, hf.symm, hr.symm⟩
  · injection h with hf hr
    exact Or.inr (Or.inl ⟨h1, h2, hf.symm, hr.symm⟩)
  · injection h with hf hr
    exact Or.inr (Or.inr ⟨h1, h2, hf.symm, hr.symm⟩)
  · injection h with hf hr
    exact Or.inr (Or.inr ⟨h1, h2, hf.symm, hr.symm⟩)

/-- On entry to every iteration of the loop the invariant holds, as long
as the remainder starts inside `[0, 1]` (the situation the debug
assertions at lines 288-289 express) and the precision is positive. -/
theorem iter_brInv {maxV : ℤ} {rem prec : ℚ} (h0 : 0 ≤ rem) (h1 : rem ≤ 1)
    (hp : 0 < prec) :
    ∀ (k : ℕ) {s : SState}, iter maxV rem prec k = some s → brInv rem s
  | 0, s, h => by
    rw [iter] at h
    injection h with h
    exact h ▸ brInv_init h0 h1
  | k + 1, s, h => by
    rw [iter] at h
    cases hk : iter maxV rem prec k with
    | none => rw [hk] at h; exact Option.noConfusion h
    | some t =>
      rw [hk] at h
      simp only [] at h
      cases hstep : step maxV rem prec t with
      | done f r => rw [hstep] at h; exact Option.noConfusion h
      | next t' =>
        rw [hstep] at h
        injection h with h
        exact h ▸ (step_next_strong (iter_brInv h0 h1 hp k hk) hp hstep).1

/-- Whatever fraction the loop hands back is a bound that was live under
the invariant: positive denominator, lowest terms, and — when the exit
was one of the two precision tests — within `precision` of the
remainder. -/
theorem loop_props {maxV : ℤ} {rem prec : ℚ} :
    ∀ (fuel : ℕ) {s : SState} {f : Frac} {r : Reason}, brInv rem s → 0 < prec →
      loop maxV rem prec fuel s = some (f, r) →
      0 < f.den ∧ Int.gcd f.num f.den = 1 ∧
        (r = .converged → |toFloat f - rem| < prec)
  | 0, s, f, r, _, _, h => by rw [loop] at h; exact Option.noConfusion h
  | fuel + 1, s, f, r, hI, hp, h => by
    rw [loop] at h
    cases hstep : step maxV rem prec s with
    | next s' =>
      rw [hstep] at h
      exact loop_props fuel (step_next_strong hI hp hstep).1 hp h
    | done f' r' =>
      rw [hstep] at h
      injection h with h
      have hf : f' = f := congrArg Prod.fst h
      have hr : r' = r := congrArg Prod.snd h
      subst hf
      subst hr
      obtain ⟨hb, hd, hv0, hv1, hv2, hv3, hdet⟩ := hI
      have hgcd := coprime_of_det hdet
      have hbq : (0:ℚ) < (s.low.den : ℚ) := by exact_mod_cast hb
      have hdq : (0:ℚ) < (s.high.den : ℚ) := by exact_mod_cast hd
      rcases step_done_cases hstep with ⟨hH, hfs, _⟩ | ⟨hH, hL, hfs, _⟩ | ⟨hH, hL, hfs, hrs⟩
      · subst hfs
        refine ⟨hd, hgcd.2, fun _ => ?_⟩
        have hd1 : (1:ℚ) ≤ (s.high.den : ℚ) := by
          have : (1:ℤ) ≤ s.high.den := hd
          exact_mod_cast this
        have h00 : 0 ≤ testHigh rem s := by
          have := (le_div_iff₀ hdq).mp hv2
          unfold testHigh
          unfold toFloat at this
          linarith
        have heq : toFloat s.high - rem = testHigh rem s / (s.high.den : ℚ) := by
          unfold toFloat testHigh
          field_simp
        rw [abs_of_nonneg (sub_nonneg.mpr hv2), heq]
        exact lt_of_le_of_lt (div_le_self h00 hd1) hH
      · subst hfs
        refine ⟨hb, hgcd.1, fun _ => ?_⟩
        have hb1 : (1:ℚ) ≤ (s.low.den : ℚ) := by
          have : (1:ℤ) ≤ s.low.den := hb
          exact_mod_cast this
        have h00 : 0 ≤ testLow rem s := by
          have := (div_le_iff₀ hbq).mp hv1
          unfold testLow
          unfold toFloat at this
          linarith
        have heq : rem - toFloat s.low = testLow rem s / (s.low.den : ℚ) := by
          unfold toFloat testLow
          field_simp
          ring
        rw [abs_of_nonpos (sub_nonpos.mpr hv1), neg_sub, heq]
        exact lt_of_le_of_lt (div_le_self h00 hb1) hL
      · subst hfs
        refine ⟨hd, hgcd.2, fun hc => ?_⟩
        exact Reason.noConfusion (hrs ▸ hc)

/-- Termination: because each committed update strictly grows both
denominators while the guards keep them below `maxV`, the loop exits
within `2 * maxV` iterations from any state satisfying the invariant. -/
theorem loop_isSome {maxV : ℤ} {rem prec : ℚ} :
    ∀ (fuel : ℕ) {s : SState}, brInv rem s → 0 < prec →
      s.low.den < maxV → s.high.den < maxV →
      (2 * maxV - (s.low.den + s.high.den)).toNat ≤ fuel →
      (loop maxV rem prec fuel s).isSome = true
  | 0, s, hI, _, hl, hh, hf => by
    exfalso
    have hb : 0 < s.low.den := hI.1
    have hd : 0 < s.high.den := hI.2.1
    omega
  | fuel + 1, s, hI, hp, hl, hh, hf => by
    rw [loop]
    cases hstep : step maxV rem prec s with
    | done f r => rfl
    | next s' =>
      obtain ⟨hI', hd1, hd2, hm1, hm2⟩ := step_next_strong hI hp hstep
      exact loop_isSome fuel hI' hp hm1 hm2 (by omega)

/-- Committed iterations compose: running `m + k` committed steps is
running `m` and then `k` more from the reached state. -/
theorem stepN_chunk {maxV : ℤ} {rem prec : ℚ} :
    ∀ (m : ℕ) {s t : SState} (k : ℕ), stepN maxV rem prec m s = some t →
      stepN maxV rem prec (m + k) s = stepN maxV rem prec k t
  | 0, s, t, k, h => by
    rw [stepN] at h
    injection h with h
    rw [Nat.zero_add, h]
  | m + 1, s, t, k, h => by
    rw [stepN] at h
    rw [Nat.succ_add, stepN]
    cases hstep : step maxV rem prec s with
    | done f r => rw [hstep] at h; exact Option.noConfusion h
    | next s' =>
      rw [hstep] at h
      exact stepN_chunk m k h

/-- If the first `m` iterations all commit, the loop's behaviour with
`m + k` fuel is its behaviour with `k` fuel from the reached state. -/
theorem loop_chunk {maxV : ℤ} {rem prec : ℚ} :
    ∀ (m : ℕ) {s t : SState} (k : ℕ), stepN maxV rem prec m s = some t →
      loop maxV rem prec (m + k) s = loop maxV rem prec k t
  | 0, s, t, k, h => by
    rw [stepN] at h
    injection h with h
    rw [Nat.zero_add, h]
  | m + 1, s, t, k, h => by
    rw [stepN] at h
    rw [Nat.succ_add, loop]
    cases hstep : step maxV rem prec s with
    | done f r => rw [hstep] at h; exact Option.noConfusion h
    | next s' =>
      rw [hstep] at h
      exact loop_chunk m k h

/-- Truncation evaluated through bracketing bounds, for concrete runs:
`ratTrunc q = n` once `0 ≤ q` and `n ≤ q < n + 1`. -/
theorem ratTrunc_eq {q : ℚ} {n : ℤ} (h0 : 0 ≤ q) (h1 : (n : ℚ) ≤ q) (h2 : q < n + 1) :
    ratTrunc q = n := by
  rw [ratTrunc_eq_floor h0]
  rw [Int.floor_eq_iff]
  · exact ⟨h1, by exact_mod_cast h2⟩

/-- One-iteration evaluation, `x1 > x2` branch: the step commits the
update once the two test values are computed, the four branch conditions
are checked on them, and the constructed pairs are rewritten through the
normalising constructor. -/
theorem step_eval_next1 {maxV : ℤ} {rem prec : ℚ} {s : SState} (n : ℤ) {s' : SState}
    {tL tH : ℚ} (eL : testLow rem s = tL) (eH : testHigh rem s = tH)
    (hH : ¬ tH < prec) (hL : ¬ tL < prec)
    (hx : tL / tH < tH / tL)
    (hg : ¬ (tH / tL + 1) * (s.low.den : ℚ) + (s.high.den : ℚ) ≥ (maxV : ℚ))
    (hn : ratTrunc (tH / tL) = n)
    (h1 : mkFrac (n * s.low.num + s.high.num + s.low.num)
      (n * s.low.den + s.high.den + s.low.den) = s'.low)
    (h2 : mkFrac (n * s.low.num + s.high.num) (n * s.low.den + s.high.den) = s'.high) :
    step maxV rem prec s = .next s' := by
  unfold step
  rw [eL, eH, if_neg hH, if_neg hL, if_pos (show tH / tL > tL / tH from hx),
    if_neg hg, hn, h1, h2]

/-- One-iteration evaluation, `x2 >= x1` branch: the mirrored commit. -/
theorem step_eval_next2 {maxV : ℤ} {rem prec : ℚ} {s : SState} (n : ℤ) {s' : SState}
    {tL tH : ℚ} (eL : testLow rem s = tL) (eH : testHigh rem s = tH)
    (hH : ¬ tH < prec) (hL : ¬ tL < prec)
    (hx : ¬ tL / tH < tH / tL)
    (hg : ¬ (s.low.den : ℚ) + (tL / tH + 1) * (s.high.den : ℚ) ≥ (maxV : ℚ))
    (hn : ratTrunc (tL / tH) = n)
    (h1 : mkFrac (s.low.num + n * s.high.num) (s.low.den + n * s.high.den) = s'.low)
    (h2 : mkFrac (s.low.num + n * s.high.num + s.high.num)
      (s.low.den + n * s.high.den + s.high.den) = s'.high) :
    step maxV rem prec s = .next s' := by
  unfold step
  rw [eL, eH, if_neg hH, if_neg hL, if_neg (show ¬ tH / tL > tL / tH from hx),
    if_neg hg, hn, h1, h2]

/-- One-iteration evaluation of the `testLow` exit (lines 318-323). -/
theorem step_eval_done_low {maxV : ℤ} {rem prec : ℚ} {s : SState} {tL tH : ℚ}
    (eL : testLow rem s = tL) (eH : testHigh rem s = tH)
    (hH : ¬ tH < prec) (hL : tL < prec) :
    step maxV rem prec s = .done s.low .converged := by
  unfold step
  rw [eL, eH, if_neg hH, if_pos hL]

/-- Unfolding one committed iteration at the head of a `stepN` run. -/
theorem stepN_succ_of_step {maxV : ℤ} {rem prec : ℚ} {s s' : SState} {k : ℕ}
    {t : Option SState} (h : step maxV rem prec s = .next s')
    (h' : stepN maxV rem prec k s' = t) : stepN maxV rem prec (k + 1) s = t := by
  rw [stepN, h]
  exact h'

/-- A loop with one more unit of fuel returns as soon as the step exits. -/
theorem loop_succ_done {maxV : ℤ} {rem prec : ℚ} {s : SState} {f : Frac} {r : Reason}
    {k : ℕ} (h : step maxV rem prec s = .done f r) :
    loop maxV rem prec (k + 1) s = some (f, r) := by
  rw [loop, h]

/-- `toFract` unfolded: under exact truncation-toward-zero the `|rem| > 1`
guard at line 274 can never fire, so every call reduces to running the
loop on the fractional remainder and shifting the answer by the integer
part. -/
theorem toFract_eq_loop (maxV : ℤ) (fuel : ℕ) (val prec : ℚ) :
    toFract maxV fuel val prec =
      match loop maxV (val - (ratTrunc val : ℤ)) prec fuel initState with
      | some (f, r) => some (.ok (addInt f (ratTrunc val)) r)
      | none => none := by
  simp only [toFract]
  rw [if_neg (not_lt.mpr (abs_sub_ratTrunc_lt_one val).le)]

/-! ## The claims -/

/-- Claim C1, counterexample: the round-trip bound fails for negative
values.  At `value = -9/10`, tolerance `1/2` (both well inside range),
the search converges via the `testLow` precision test, yet the returned
fraction `0/1` misses the value by `9/10 ≥ 1/2`.  The claim as frozen
quantifies over *every* finite in-range value, so it is refuted. -/
theorem c1_counterexample :
    toFract 2147483647 10 (-9/10 : ℚ) (1/2) = some (.ok ⟨0, 1⟩ .converged) ∧
    ¬ |toFloat ⟨0, 1⟩ - (-9/10 : ℚ)| < 1/2 := by
  with_unfolding_all decide

/-- Claim C1 (amended: restricted to non-negative values, equivalently to
calls whose fractional remainder is non-negative): for every
non-negative value and positive tolerance, if the search converges
(terminates via one of the two precision tests rather than the overflow
guard), the returned fraction satisfies `|toFract(value, t).toFloat() -
value| < t`. -/
theorem c1_round_trip (maxV : ℤ) (fuel : ℕ) (v prec : ℚ) (f : Frac)
    (hv : 0 ≤ v) (hp : 0 < prec)
    (h : toFract maxV fuel v prec = some (.ok f .converged)) :
    |toFloat f - v| < prec := by
  rw [toFract_eq_loop] at h
  obtain ⟨hr0, hr1⟩ := sub_ratTrunc_mem_Ico hv
  cases hl : loop maxV (v - (ratTrunc v : ℤ)) prec fuel initState with
  | none => rw [hl] at h; exact Option.noConfusion h
  | some pr =>
    obtain ⟨g, r⟩ := pr
    rw [hl] at h
    simp only [] at h
    injection h with h
    injection h with hf hr
    obtain ⟨hgden, _, hgconv⟩ := loop_props fuel (brInv_init hr0 hr1.le) hp hl
    have hclose := hgconv hr
    rw [← hf, toFloat_addInt g (ratTrunc v) hgden.ne']
    have hrw : toFloat g + ((ratTrunc v : ℤ) : ℚ) - v =
        toFloat g - (v - ((ratTrunc v : ℤ) : ℚ)) := by ring
    rw [hrw]
    exact hclose

/-- Witness for C1's amended round-trip bound at `value = 1/3`,
tolerance `1/100`: the code returns `1/3` and the bound holds. -/
theorem c1_round_trip_witness : |toFloat ⟨1, 3⟩ - (1/3 : ℚ)| < 1/100 :=
  c1_round_trip 2147483647 10 (1/3) (1/100) ⟨1, 3⟩
    (by with_unfolding_all decide) (by with_unfolding_all decide)
    (by with_unfolding_all decide)

/-- Claim C2, counterexample: a value whose truncated integer part
*equals* `W`'s maximum representable value (here `W = int32`,
`value = 2147483647 + 1/4`) does **not** raise — the call returns
normally with `2147483647/1` — refuting the claim's "must raise" range
boundary (and with it the claimed iff). -/
theorem c2_counterexample :
    toFract 2147483647 10 ((2147483647 : ℚ) + 1/4) (1/2) =
      some (.ok ⟨2147483647, 1⟩ .converged) := by
  rw [toFract_eq_loop]
  rw [show ratTrunc ((2147483647 : ℚ) + 1/4) = 2147483647 by with_unfolding_all decide]
  rw [show (2147483647 : ℚ) + 1/4 - ((2147483647 : ℤ) : ℚ) = 1/4 by
    with_unfolding_all decide]
  rw [show loop 2147483647 (1/4) (1/2) 10 initState = some (⟨0, 1⟩, .converged) by
    with_unfolding_all decide]
  simp only [addInt]
  norm_num

/-- Claim C2 (amended): `toFract` never throws.  Its only guard (line
274) compares the post-truncation remainder against 1, which under exact
truncation-toward-zero semantics never exceeds 1 — in particular a value
whose truncated integer part equals `W`'s maximum does not raise, one
less does not raise, and no in-range value raises.  (For values whose
integer part exceeds `W`'s range the C++ conversion at line 272 is
undefined behaviour, not a checked RangeError.) -/
theorem c2_never_raises (maxV : ℤ) (fuel : ℕ) (v prec : ℚ) (o : TOut)
    (h : toFract maxV fuel v prec = some o) : o.isOk = true := by
  rw [toFract_eq_loop] at h
  cases hl : loop maxV (v - (ratTrunc v : ℤ)) prec fuel initState with
  | none => rw [hl] at h; exact Option.noConfusion h
  | some pr =>
    obtain ⟨g, r⟩ := pr
    rw [hl] at h
    simp only [] at h
    injection h with h
    rw [← h]
    rfl

/-- Evaluation of the C2 witness input, a value whose truncated integer
part is one less than `W = int32`'s maximum: the call returns normally
with `2147483646/1`. -/
theorem c2_eval_below_max :
    toFract 2147483647 10 ((2147483646 : ℚ) + 1/4) (1/2) =
      some (.ok ⟨2147483646, 1⟩ .converged) := by
  rw [toFract_eq_loop]
  rw [show ratTrunc ((2147483646 : ℚ) + 1/4) = 2147483646 by with_unfolding_all decide]
  rw [show (2147483646 : ℚ) + 1/4 - ((2147483646 : ℤ) : ℚ) = 1/4 by
    with_unfolding_all decide]
  rw [show loop 2147483647 (1/4) (1/2) 10 initState = some (⟨0, 1⟩, .converged) by
    with_unfolding_all decide]
  simp only [addInt]
  norm_num

/-- Witness for C2's amended claim at a value whose truncated integer
part is one less than `W = int32`'s maximum: the call returns normally. -/
theorem c2_never_raises_witness :
    TOut.isOk (.ok ⟨2147483646, 1⟩ .converged) = true :=
  c2_never_raises 2147483647 10 ((2147483646 : ℚ) + 1/4) (1/2)
    (.ok ⟨2147483646, 1⟩ .converged) c2_eval_below_max

/-- Component bounds that follow from the invariant: both bounds are
fractions in `[0, 1]` over positive denominators, so numerators sit in
`[0, den]`. -/
theorem brInv_num_bounds {rem : ℚ} {s : SState} (hI : brInv rem s) :
    0 ≤ s.low.num ∧ s.low.num ≤ s.low.den ∧ 0 ≤ s.high.num ∧ s.high.num ≤ s.high.den := by
  obtain ⟨hb, hd, h0, hlr, hrh, hh1, _⟩ := hI
  have hbq : (0:ℚ) < (s.low.den : ℚ) := by exact_mod_cast hb
  have hdq : (0:ℚ) < (s.high.den : ℚ) := by exact_mod_cast hd
  unfold toFloat at h0 hlr hrh hh1
  have ha : 0 ≤ s.low.num := by
    by_contra hcon
    push_neg at hcon
    exact absurd h0 (not_le.mpr (div_neg_of_neg_of_pos (by exact_mod_cast hcon) hbq))
  refine ⟨ha, ?_, ?_, ?_⟩
  · have h1 : (s.low.num : ℚ) / s.low.den ≤ 1 := hlr.trans (hrh.trans hh1)
    exact_mod_cast (div_le_one hbq).mp h1
  · have hr0 : (0:ℚ) ≤ rem := le_trans h0 hlr
    by_contra hcon
    push_neg at hcon
    have hneg : (s.high.num : ℚ) / s.high.den < 0 :=
      div_neg_of_neg_of_pos (by exact_mod_cast hcon) hdq
    exact absurd (hr0.trans hrh) (not_le.mpr hneg)
  · exact_mod_cast (div_le_one hdq).mp hh1

/-- Claim C3: the overflow guard is evaluated before committing the
mediant update.  In either branch, whenever any of the four resulting
components — inner or outer numerator or denominator, with
`n = int_type(x1)` resp. `n = int_type(x2)` — would exceed `W`'s maximum
(the code estimates this in floating point as
`(x1+1)*low.den + high.den`, resp. the symmetric form, which dominates
all four components), the loop stops immediately without applying the
update and the iteration yields the current high bound with the
OverflowStopped outcome rather than failing. -/
theorem c3_overflow_guard (maxV : ℤ) (rem prec : ℚ) (s : SState)
    (hI : brInv rem s) (hp : 0 < prec)
    (hH : ¬ testHigh rem s < prec) (hL : ¬ testLow rem s < prec) :
    (∀ n : ℤ, testLow rem s / testHigh rem s < testHigh rem s / testLow rem s →
      n = ratTrunc (testHigh rem s / testLow rem s) →
      (maxV < n * s.low.num + s.high.num ∨ maxV < n * s.low.den + s.high.den ∨
       maxV < n * s.low.num + s.high.num + s.low.num ∨
       maxV < n * s.low.den + s.high.den + s.low.den) →
      step maxV rem prec s = .done s.high .overflowStopped) ∧
    (∀ n : ℤ, ¬ (testLow rem s / testHigh rem s < testHigh rem s / testLow rem s) →
      n = ratTrunc (testLow rem s / testHigh rem s) →
      (maxV < s.low.num + n * s.high.num ∨ maxV < s.low.den + n * s.high.den ∨
       maxV < s.low.num + n * s.high.num + s.high.num ∨
       maxV < s.low.den + n * s.high.den + s.high.den) →
      step maxV rem prec s = .done s.high .overflowStopped) := by
  have hb : 0 < s.low.den := hI.1
  have hd : 0 < s.high.den := hI.2.1
  obtain ⟨ha, hab, hc, hcd⟩ := brInv_num_bounds hI
  have htL : 0 < testLow rem s := lt_of_lt_of_le hp (not_lt.mp hL)
  have htH : 0 < testHigh rem s := lt_of_lt_of_le hp (not_lt.mp hH)
  have hbq : (0:ℚ) < (s.low.den : ℚ) := by exact_mod_cast hb
  have hdq : (0:ℚ) < (s.high.den : ℚ) := by exact_mod_cast hd
  constructor
  · intro n hx hn hcomp
    rw [ratTrunc_eq_floor (div_nonneg htH.le htL.le)] at hn
    have hn1 : 1 ≤ n := by
      rw [hn]
      refine Int.le_floor.mpr ?_
      push_cast
      have hLH : testLow rem s < testHigh rem s := by
        by_contra hcon
        push_neg at hcon
        have hle1 : testHigh rem s / testLow rem s ≤ 1 := (div_le_one htL).mpr hcon
        have hle2 : 1 ≤ testLow rem s / testHigh rem s := (one_le_div htH).mpr hcon
        exact absurd hx (not_lt.mpr (hle1.trans hle2))
      exact ((one_lt_div htL).mpr hLH).le
    have hnq : (n : ℚ) ≤ testHigh rem s / testLow rem s := hn ▸ Int.floor_le _
    have hna : n * s.low.num ≤ n * s.low.den :=
      mul_le_mul_of_nonneg_left hab (by linarith)
    have houter : maxV < n * s.low.den + s.high.den + s.low.den := by
      rcases hcomp with h | h | h | h <;> linarith
    have hguard : (testHigh rem s / testLow rem s + 1) * (s.low.den : ℚ) +
        (s.high.den : ℚ) ≥ (maxV : ℚ) := by
      have h1 : ((n * s.low.den + s.high.den + s.low.den : ℤ) : ℚ) =
          ((n : ℚ) + 1) * (s.low.den : ℚ) + (s.high.den : ℚ) := by
        push_cast
        ring
      have h2 : (maxV : ℚ) < ((n * s.low.den + s.high.den + s.low.den : ℤ) : ℚ) := by
        exact_mod_cast houter
      have h3 : ((n : ℚ) + 1) * (s.low.den : ℚ) ≤
          (testHigh rem s / testLow rem s + 1) * (s.low.den : ℚ) :=
        mul_le_mul_of_nonneg_right (by linarith) hbq.le
      rw [h1] at h2
      linarith
    unfold step
    rw [if_neg hH, if_neg hL, if_pos (show testHigh rem s / testLow rem s >
      testLow rem s / testHigh rem s from hx), if_pos hguard]
  · intro n hx hn hcomp
    rw [ratTrunc_eq_floor (div_nonneg htL.le htH.le)] at hn
    have hn1 : 1 ≤ n := by
      rw [hn]
      refine Int.le_floor.mpr ?_
      push_cast
      have hHL : testHigh rem s ≤ testLow rem s := by
        by_contra hcon
        push_neg at hcon
        have hlt1 : testLow rem s / testHigh rem s < 1 := (div_lt_one htH).mpr hcon
        have hlt2 : 1 < testHigh rem s / testLow rem s := (one_lt_div htL).mpr hcon
        exact hx (hlt1.trans hlt2)
      exact (one_le_div htH).mpr hHL
    have hnq : (n : ℚ) ≤ testLow rem s / testHigh rem s := hn ▸ Int.floor_le _
    have hnc : n * s.high.num ≤ n * s.high.den :=
      mul_le_mul_of_nonneg_left hcd (by linarith)
    have houter : maxV < s.low.den + n * s.high.den + s.high.den := by
      rcases hcomp with h | h | h | h <;> linarith
    have hguard : (s.low.den : ℚ) + (testLow rem s / testHigh rem s + 1) *
        (s.high.den : ℚ) ≥ (maxV : ℚ) := by
      have h1 : ((s.low.den + n * s.high.den + s.high.den : ℤ) : ℚ) =
          (s.low.den : ℚ) + ((n : ℚ) + 1) * (s.high.den : ℚ) := by
        push_cast
        ring
      have h2 : (maxV : ℚ) < ((s.low.den + n * s.high.den + s.high.den : ℤ) : ℚ) := by
        exact_mod_cast houter
      have h3 : ((n : ℚ) + 1) * (s.high.den : ℚ) ≤
          (testLow rem s / testHigh rem s + 1) * (s.high.den : ℚ) :=
        mul_le_mul_of_nonneg_right (by linarith) hdq.le
      rw [h1] at h2
      linarith
    unfold step
    rw [if_neg hH, if_neg hL, if_neg (show ¬ testHigh rem s / testLow rem s >
      testLow rem s / testHigh rem s from hx), if_pos hguard]

/-- Witness for C3 with `W`'s maximum artificially small (`maxV = 2`), at
`rem = 2/5`: the first iteration's resulting outer denominator would be
3 > 2, and the step stops with the untouched high bound `1/1`. -/
theorem c3_overflow_guard_witness :
    step 2 (2/5) (1/100) initState = .done ⟨1, 1⟩ .overflowStopped :=
  (c3_overflow_guard 2 (2/5) (1/100) initState
      (by with_unfolding_all decide) (by with_unfolding_all decide)
      (by with_unfolding_all decide) (by with_unfolding_all decide)).1
    1 (by with_unfolding_all decide) (by with_unfolding_all decide)
    (Or.inr (Or.inr (Or.inr (by decide))))

/-- Iteration 1 of the C4 counterexample run. -/
theorem c4run0 : step 170141183460469231731687303715884105727 ((131151201344081895336534324866 : ℚ) / 212207101440105399533740733471) (1/10^60) (⟨⟨0, 1⟩, ⟨1, 1⟩⟩ : SState) = .next (⟨⟨1, 2⟩, ⟨2, 3⟩⟩ : SState) :=
  step_eval_next2 1
    (show testLow ((131151201344081895336534324866 : ℚ) / 212207101440105399533740733471) (⟨⟨0, 1⟩, ⟨1, 1⟩⟩ : SState) = ((131151201344081895336534324866 : ℚ) / 212207101440105399533740733471) by norm_num [testLow])
    (show testHigh ((131151201344081895336534324866 : ℚ) / 212207101440105399533740733471) (⟨⟨0, 1⟩, ⟨1, 1⟩⟩ : SState) = ((81055900096023504197206408605 : ℚ) / 212207101440105399533740733471) by norm_num [testHigh])
    (by norm_num) (by norm_num) (by norm_num) (by norm_num)
    (ratTrunc_eq (by norm_num) (by norm_num) (by norm_num))
    (by rw [mkFrac_coprime (by norm_num) (by norm_num)]; norm_num)
    (by rw [mkFrac_coprime (by norm_num) (by norm_num)]; norm_num)

/-- Iteration 2 of the C4 counterexample run. -/
theorem c4run1 : step 170141183460469231731687303715884105727 ((131151201344081895336534324866 : ℚ) / 212207101440105399533740733471) (1/10^60) (⟨⟨1, 2⟩, ⟨2, 3⟩⟩ : SState) = .next (⟨⟨3, 5⟩, ⟨5, 8⟩⟩ : SState) :=
  step_eval_next2 1
    (show testLow ((131151201344081895336534324866 : ℚ) / 212207101440105399533740733471) (⟨⟨1, 2⟩, ⟨2, 3⟩⟩ : SState) = ((50095301248058391139327916261 : ℚ) / 212207101440105399533740733471) by norm_num [testLow])
    (show testHigh ((131151201344081895336534324866 : ℚ) / 212207101440105399533740733471) (⟨⟨1, 2⟩, ⟨2, 3⟩⟩ : SState) = ((30960598847965113057878492344 : ℚ) / 212207101440105399533740733471) by norm_num [testHigh])
    (by norm_num) (by norm_num) (by norm_num) (by norm_num)
    (ratTrunc_eq (by norm_num) (by norm_num) (by norm_num))
    (by rw [mkFrac_coprime (by norm_num) (by norm_num)]; norm_num)
    (by rw [mkFrac_coprime (by norm_num) (by norm_num)]; norm_num)

/-- Iteration 3 of the C4 counterexample run. -/
theorem c4run2 : step 170141183460469231731687303715884105727 ((131151201344081895336534324866 : ℚ) / 212207101440105399533740733471) (1/10^60) (⟨⟨3, 5⟩, ⟨5, 8⟩⟩ : SState) = .next (⟨⟨8, 13⟩, ⟨13, 21⟩⟩ : SState) :=
  step_eval_next2 1
    (show testLow ((131151201344081895336534324866 : ℚ) / 212207101440105399533740733471) (⟨⟨3, 5⟩, ⟨5, 8⟩⟩ : SState) = ((19134702400093278081449423917 : ℚ) / 212207101440105399533740733471) by norm_num [testLow])
    (show testHigh ((131151201344081895336534324866 : ℚ) / 212207101440105399533740733471) (⟨⟨3, 5⟩, ⟨5, 8⟩⟩ : SState) = ((11825896447871834976429068427 : ℚ) / 212207101440105399533740733471) by norm_num [testHigh])
    (by norm_num) (by norm_num) (by norm_num) (by norm_num)
    (ratTrunc_eq (by norm_num) (by norm_num) (by norm_num))
    (by rw [mkFrac_coprime (by norm_num) (by norm_num)]; norm_num)
    (by rw [mkFrac_coprime (by norm_num) (by norm_num)]; norm_num)

/-- Iteration 4 of the C4 counterexample run. -/
theorem c4run3 : step 170141183460469231731687303715884105727 ((131151201344081895336534324866 : ℚ) / 212207101440105399533740733471) (1/10^60) (⟨⟨8, 13⟩, ⟨13, 21⟩⟩ : SState) = .next (⟨⟨21, 34⟩, ⟨34, 55⟩⟩ : SState) :=
  step_eval_next2 1
    (show testLow ((131151201344081895336534324866 : ℚ) / 212207101440105399533740733471) (⟨⟨8, 13⟩, ⟨13, 21⟩⟩ : SState) = ((7308805952221443105020355490 : ℚ) / 212207101440105399533740733471) by norm_num [testLow])
    (show testHigh ((131151201344081895336534324866 : ℚ) / 212207101440105399533740733471) (⟨⟨8, 13⟩, ⟨13, 21⟩⟩ : SState) = ((4517090495650391871408712937 : ℚ) / 212207101440105399533740733471) by norm_num [testHigh])
    (by norm_num) (by norm_num) (by norm_num) (by norm_num)
    (ratTrunc_eq (by norm_num) (by norm_num) (by norm_num))
    (by rw [mkFrac_coprime (by norm_num) (by norm_num)]; norm_num)
    (by rw [mkFrac_coprime (by norm_num) (by norm_num)]; norm_num)

/-- Iteration 5 of the C4 counterexample run. -/
theorem c4run4 : step 170141183460469231731687303715884105727 ((131151201344081895336534324866 : ℚ) / 212207101440105399533740733471) (1/10^60) (⟨⟨21, 34⟩, ⟨34, 55⟩⟩ : SState) = .next (⟨⟨55, 89⟩, ⟨89, 144⟩⟩ : SState) :=
  step_eval_next2 1
    (show testLow ((131151201344081895336534324866 : ℚ) / 212207101440105399533740733471) (⟨⟨21, 34⟩, ⟨34, 55⟩⟩ : SState) = ((2791715456571051233611642553 : ℚ) / 212207101440105399533740733471) by norm_num [testLow])
    (show testHigh ((131151201344081895336534324866 : ℚ) / 212207101440105399533740733471) (⟨⟨21, 34⟩, ⟨34, 55⟩⟩ : SState) = ((1725375039079340637797070384 : ℚ) / 212207101440105399533740733471) by norm_num [testHigh])
    (by norm_num) (by norm_num) (by norm_num) (by norm_num)
    (ratTrunc_eq (by norm_num) (by norm_num) (by norm_num))
    (by rw [mkFrac_coprime (by norm_num) (by norm_num)]; norm_num)
    (by rw [mkFrac_coprime (by norm_num) (by norm_num)]; norm_num)

/-- Iteration 6 of the C4 counterexample run. -/
theorem c4run5 : step 170141183460469231731687303715884105727 ((131151201344081895336534324866 : ℚ) / 212207101440105399533740733471) (1/10^60) (⟨⟨55, 89⟩, ⟨89, 144⟩⟩ : SState) = .next (⟨⟨144, 233⟩, ⟨233, 377⟩⟩ : SState) :=
  step_eval_next2 1
    (show testLow ((131151201344081895336534324866 : ℚ) / 212207101440105399533740733471) (⟨⟨55, 89⟩, ⟨89, 144⟩⟩ : SState) = ((1066340417491710595814572169 : ℚ) / 212207101440105399533740733471) by norm_num [testLow])
    (show testHigh ((131151201344081895336534324866 : ℚ) / 212207101440105399533740733471) (⟨⟨55, 89⟩, ⟨89, 144⟩⟩ : SState) = ((659034621587630041982498215 : ℚ) / 212207101440105399533740733471) by norm_num [testHigh])
    (by norm_num) (by norm_num) (by norm_num) (by norm_num)
    (ratTrunc_eq (by norm_num) (by norm_num) (by norm_num))
    (by rw [mkFrac_coprime (by norm_num) (by norm_num)]; norm_num)
    (by rw [mkFrac_coprime (by norm_num) (by norm_num)]; norm_num)

/-- Iteration 7 of the C4 counterexample run. -/
theorem c4run6 : step 170141183460469231731687303715884105727 ((131151201344081895336534324866 : ℚ) / 212207101440105399533740733471) (1/10^60) (⟨⟨144, 233⟩, ⟨233, 377⟩⟩ : SState) = .next (⟨⟨377, 610⟩, ⟨610, 987⟩⟩ : SState) :=
  step_eval_next2 1
    (show testLow ((131151201344081895336534324866 : ℚ) / 212207101440105399533740733471) (⟨⟨144, 233⟩, ⟨233, 377⟩⟩ : SState) = ((407305795904080553832073954 : ℚ) / 212207101440105399533740733471) by norm_num [testLow])
    (show testHigh ((131151201344081895336534324866 : ℚ) / 212207101440105399533740733471) (⟨⟨144, 233⟩, ⟨233, 377⟩⟩ : SState) = ((251728825683549488150424261 : ℚ) / 212207101440105399533740733471) by norm_num [testHigh])
    (by norm_num) (by norm_num) (by norm_num) (by norm_num)
    (ratTrunc_eq (by norm_num) (by norm_num) (by norm_num))
    (by rw [mkFrac_coprime (by norm_num) (by norm_num)]; norm_num)
    (by rw [mkFrac_coprime (by norm_num) (by norm_num)]; norm_num)

/-- Iteration 8 of the C4 counterexample run. -/
theorem c4run7 : step 170141183460469231731687303715884105727 ((131151201344081895336534324866 : ℚ) / 212207101440105399533740733471) (1/10^60) (⟨⟨377, 610⟩, ⟨610, 987⟩⟩ : SState) = .next (⟨⟨987, 1597⟩, ⟨1597, 2584⟩⟩ : SState) :=
  step_eval_next2 1
    (show testLow ((131151201344081895336534324866 : ℚ) / 212207101440105399533740733471) (⟨⟨377, 610⟩, ⟨610, 987⟩⟩ : SState) = ((155576970220531065681649693 : ℚ) / 212207101440105399533740733471) by norm_num [testLow])
    (show testHigh ((131151201344081895336534324866 : ℚ) / 212207101440105399533740733471) (⟨⟨377, 610⟩, ⟨610, 987⟩⟩ : SState) = ((96151855463018422468774568 : ℚ) / 212207101440105399533740733471) by norm_num [testHigh])
    (by norm_num) (by norm_num) (by norm_num) (by norm_num)
    (ratTrunc_eq (by norm_num) (by norm_num) (by norm_num))
    (by rw [mkFrac_coprime (by norm_num) (by norm_num)]; norm_num)
    (by rw [mkFrac_coprime (by norm_num) (by norm_num)]; norm_num)

/-- Iteration 9 of the C4 counterexample run. -/
theorem c4run8 : step 170141183460469231731687303715884105727 ((131151201344081895336534324866 : ℚ) / 212207101440105399533740733471) (1/10^60) (⟨⟨987, 1597⟩, ⟨1597, 2584⟩⟩ : SState) = .next (⟨⟨2584, 4181⟩, ⟨4181, 6765⟩⟩ : SState) :=
  step_eval_next2 1
    (show testLow ((131151201344081895336534324866 : ℚ) / 212207101440105399533740733471) (⟨⟨987, 1597⟩, ⟨1597, 2584⟩⟩ : SState) = ((59425114757512643212875125 : ℚ) / 212207101440105399533740733471) by norm_num [testLow])
    (show testHigh ((131151201344081895336534324866 : ℚ) / 212207101440105399533740733471) (⟨⟨987, 1597⟩, ⟨1597, 2584⟩⟩ : SState) = ((36726740705505779255899443 : ℚ) / 212207101440105399533740733471) by norm_num [testHigh])
    (by norm_num) (by norm_num) (by norm_num) (by norm_num)
    (ratTrunc_eq (by norm_num) (by norm_num) (by norm_num))
    (by rw [mkFrac_coprime (by norm_num) (by norm_num)]; norm_num)
    (by rw [mkFrac_coprime (by norm_num) (by norm_num)]; norm_num)

/-- Iteration 10 of the C4 counterexample run. -/
theorem c4run9 : step 170141183460469231731687303715884105727 ((131151201344081895336534324866 : ℚ) / 212207101440105399533740733471) (1/10^60) (⟨⟨2584, 4181⟩, ⟨4181, 6765⟩⟩ : SState) = .next (⟨⟨6765, 10946⟩, ⟨10946, 17711⟩⟩ : SState) :=
  step_eval_next2 1
    (show testLow ((131151201344081895336534324866 : ℚ) / 212207101440105399533740733471) (⟨⟨2584, 4181⟩, ⟨4181, 6765⟩⟩ : SState) = ((22698374052006863956975682 : ℚ) / 212207101440105399533740733471) by norm_num [testLow])
    (show testHigh ((131151201344081895336534324866 : ℚ) / 212207101440105399533740733471) (⟨⟨2584, 4181⟩, ⟨4181, 6765⟩⟩ : SState) = ((14028366653498915298923761 : ℚ) / 212207101440105399533740733471) by norm_num [testHigh])
    (by norm_num) (by norm_num) (by norm_num) (by norm_num)
    (ratTrunc_eq (by norm_num) (by norm_num) (by norm_num))
    (by rw [mkFrac_coprime (by norm_num) (by norm_num)]; norm_num)
    (by rw [mkFrac_coprime (by norm_num) (by norm_num)]; norm_num)

/-- Iteration 11 of the C4 counterexample run. -/
theorem c4run10 : step 170141183460469231731687303715884105727 ((131151201344081895336534324866 : ℚ) / 212207101440105399533740733471) (1/10^60) (⟨⟨6765, 10946⟩, ⟨10946, 17711⟩⟩ : SState) = .next (⟨⟨17711, 28657⟩, ⟨28657, 46368⟩⟩ : SState) :=
  step_eval_next2 1
    (show testLow ((131151201344081895336534324866 : ℚ) / 212207101440105399533740733471) (⟨⟨6765, 10946⟩, ⟨10946, 17711⟩⟩ : SState) = ((8670007398507948658051921 : ℚ) / 212207101440105399533740733471) by norm_num [testLow])
    (show testHigh ((131151201344081895336534324866 : ℚ) / 212207101440105399533740733471) (⟨⟨6765, 10946⟩, ⟨10946, 17711⟩⟩ : SState) = ((5358359254990966640871840 : ℚ) / 212207101440105399533740733471) by norm_num [testHigh])
    (by norm_num) (by norm_num) (by norm_num) (by norm_num)
    (ratTrunc_eq (by norm_num) (by norm_num) (by norm_num))
    (by rw [mkFrac_coprime (by norm_num) (by norm_num)]; norm_num)
    (by rw [mkFrac_coprime (by norm_num) (by norm_num)]; norm_num)

/-- Iteration 12 of the C4 counterexample run. -/
theorem c4run11 : step 170141183460469231731687303715884105727 ((131151201344081895336534324866 : ℚ) / 212207101440105399533740733471) (1/10^60) (⟨⟨17711, 28657⟩, ⟨28657, 46368⟩⟩ : SState) = .next (⟨⟨46368, 75025⟩, ⟨75025, 121393⟩⟩ : SState) :=
  step_eval_next2 1
    (show testLow ((131151201344081895336534324866 : ℚ) / 212207101440105399533740733471) (⟨⟨17711, 28657⟩, ⟨28657, 46368⟩⟩ : SState) = ((3311648143516982017180081 : ℚ) / 212207101440105399533740733471) by norm_num [testLow])
    (show testHigh ((131151201344081895336534324866 : ℚ) / 212207101440105399533740733471) (⟨⟨17711, 28657⟩, ⟨28657, 46368⟩⟩ : SState) = ((2046711111473984623691759 : ℚ) / 212207101440105399533740733471) by norm_num [testHigh])
    (by norm_num) (by norm_num) (by norm_num) (by norm_num)
    (ratTrunc_eq (by norm_num) (by norm_num) (by norm_num))
    (by rw [mkFrac_coprime (by norm_num) (by norm_num)]; norm_num)
    (by rw [mkFrac_coprime (by norm_num) (by norm_num)]; norm_num)

/-- Iteration 13 of the C4 counterexample run. -/
theorem c4run12 : step 170141183460469231731687303715884105727 ((131151201344081895336534324866 : ℚ) / 212207101440105399533740733471) (1/10^60) (⟨⟨46368, 75025⟩, ⟨75025, 121393⟩⟩ : SState) = .next (⟨⟨121393, 196418⟩, ⟨196418, 317811⟩⟩ : SState) :=
  step_eval_next2 1
    (show testLow ((131151201344081895336534324866 : ℚ) / 212207101440105399533740733471) (⟨⟨46368, 75025⟩, ⟨75025, 121393⟩⟩ : SState) = ((1264937032042997393488322 : ℚ) / 212207101440105399533740733471) by norm_num [testLow])
    (show testHigh ((131151201344081895336534324866 : ℚ) / 212207101440105399533740733471) (⟨⟨46368, 75025⟩, ⟨75025, 121393⟩⟩ : SState) = ((781774079430987230203437 : ℚ) / 212207101440105399533740733471) by norm_num [testHigh])
    (by norm_num) (by norm_num) (by norm_num) (by norm_num)
    (ratTrunc_eq (by norm_num) (by norm_num) (by norm_num))
    (by rw [mkFrac_coprime (by norm_num) (by norm_num)]; norm_num)
    (by rw [mkFrac_coprime (by norm_num) (by norm_num)]; norm_num)

/-- Iteration 14 of the C4 counterexample run. -/
theorem c4run13 : step 170141183460469231731687303715884105727 ((131151201344081895336534324866 : ℚ) / 212207101440105399533740733471) (1/10^60) (⟨⟨121393, 196418⟩, ⟨196418, 317811⟩⟩ : SState) = .next (⟨⟨317811, 514229⟩, ⟨514229, 832040⟩⟩ : SState) :=
  step_eval_next2 1
    (show testLow ((131151201344081895336534324866 : ℚ) / 212207101440105399533740733471) (⟨⟨121393, 196418⟩, ⟨196418, 317811⟩⟩ : SState) = ((483162952612010163284885 : ℚ) / 212207101440105399533740733471) by norm_num [testLow])
    (show testHigh ((131151201344081895336534324866 : ℚ) / 212207101440105399533740733471) (⟨⟨121393, 196418⟩, ⟨196418, 317811⟩⟩ : SState) = ((298611126818977066918552 : ℚ) / 212207101440105399533740733471) by norm_num [testHigh])
    (by norm_num) (by norm_num) (by norm_num) (by norm_num)
    (ratTrunc_eq (by norm_num) (by norm_num) (by norm_num))
    (by rw [mkFrac_coprime (by norm_num) (by norm_num)]; norm_num)
    (by rw [mkFrac_coprime (by norm_num) (by norm_num)]; norm_num)

/-- Iteration 15 of the C4 counterexample run. -/
theorem c4run14 : step 170141183460469231731687303715884105727 ((131151201344081895336534324866 : ℚ) / 212207101440105399533740733471) (1/10^60) (⟨⟨317811, 514229⟩, ⟨514229, 832040⟩⟩ : SState) = .next (⟨⟨832040, 1346269⟩, ⟨1346269, 2178309⟩⟩ : SState) :=
  step_eval_next2 1
    (show testLow ((131151201344081895336534324866 : ℚ) / 212207101440105399533740733471) (⟨⟨317811, 514229⟩, ⟨514229, 832040⟩⟩ : SState) = ((184551825793033096366333 : ℚ) / 212207101440105399533740733471) by norm_num [testLow])
    (show testHigh ((131151201344081895336534324866 : ℚ) / 212207101440105399533740733471) (⟨⟨317811, 514229⟩, ⟨514229, 832040⟩⟩ : SState) = ((114059301025943970552219 : ℚ) / 212207101440105399533740733471) by norm_num [testHigh])
    (by norm_num) (by norm_num) (by norm_num) (by norm_num)
    (ratTrunc_eq (by norm_num) (by norm_num) (by norm_num))
    (by rw [mkFrac_coprime (by norm_num) (by norm_num)]; norm_num)
    (by rw [mkFrac_coprime (by norm_num) (by norm_num)]; norm_num)

/-- Iteration 16 of the C4 counterexample run. -/
theorem c4run15 : step 170141183460469231731687303715884105727 ((131151201344081895336534324866 : ℚ) / 212207101440105399533740733471) (1/10^60) (⟨⟨832040, 1346269⟩, ⟨1346269, 2178309⟩⟩ : SState) = .next (⟨⟨2178309, 3524578⟩, ⟨3524578, 5702887⟩⟩ : SState) :=
  step_eval_next2 1
    (show testLow ((131151201344081895336534324866 : ℚ) / 212207101440105399533740733471) (⟨⟨832040, 1346269⟩, ⟨1346269, 2178309⟩⟩ : SState) = ((70492524767089125814114 : ℚ) / 212207101440105399533740733471) by norm_num [testLow])
    (show testHigh ((131151201344081895336534324866 : ℚ) / 212207101440105399533740733471) (⟨⟨832040, 1346269⟩, ⟨1346269, 2178309⟩⟩ : SState) = ((43566776258854844738105 : ℚ) / 212207101440105399533740733471) by norm_num [testHigh])
    (by norm_num) (by norm_num) (by norm_num) (by norm_num)
    (ratTrunc_eq (by norm_num) (by norm_num) (by norm_num))
    (by rw [mkFrac_coprime (by norm_num) (by norm_num)]; norm_num)
    (by rw [mkFrac_coprime (by norm_num) (by norm_num)]; norm_num)

/-- Iteration 17 of the C4 counterexample run. -/
theorem c4run16 : step 170141183460469231731687303715884105727 ((131151201344081895336534324866 : ℚ) / 212207101440105399533740733471) (1/10^60) (⟨⟨2178309, 3524578⟩, ⟨3524578, 5702887⟩⟩ : SState) = .next (⟨⟨5702887, 9227465⟩, ⟨9227465, 14930352⟩⟩ : SState) :=
  step_eval_next2 1
    (show testLow ((131151201344081895336534324866 : ℚ) / 212207101440105399533740733471) (⟨⟨2178309, 3524578⟩, ⟨3524578, 5702887⟩⟩ : SState) = ((26925748508234281076009 : ℚ) / 212207101440105399533740733471) by norm_num [testLow])
    (show testHigh ((131151201344081895336534324866 : ℚ) / 212207101440105399533740733471) (⟨⟨2178309, 3524578⟩, ⟨3524578, 5702887⟩⟩ : SState) = ((16641027750620563662096 : ℚ) / 212207101440105399533740733471) by norm_num [testHigh])
    (by norm_num) (by norm_num) (by norm_num) (by norm_num)
    (ratTrunc_eq (by norm_num) (by norm_num) (by norm_num))
    (by rw [mkFrac_coprime (by norm_num) (by norm_num)]; norm_num)
    (by rw [mkFrac_coprime (by norm_num) (by norm_num)]; norm_num)

/-- Iteration 18 of the C4 counterexample run. -/
theorem c4run17 : step 170141183460469231731687303715884105727 ((131151201344081895336534324866 : ℚ) / 212207101440105399533740733471) (1/10^60) (⟨⟨5702887, 9227465⟩, ⟨9227465, 14930352⟩⟩ : SState) = .next (⟨⟨14930352, 24157817⟩, ⟨24157817, 39088169⟩⟩ : SState) :=
  step_eval_next2 1
    (show testLow ((131151201344081895336534324866 : ℚ) / 212207101440105399533740733471) (⟨⟨5702887, 9227465⟩, ⟨9227465, 14930352⟩⟩ : SState) = ((10284720757613717413913 : ℚ) / 212207101440105399533740733471) by norm_num [testLow])
    (show testHigh ((131151201344081895336534324866 : ℚ) / 212207101440105399533740733471) (⟨⟨5702887, 9227465⟩, ⟨9227465, 14930352⟩⟩ : SState) = ((6356306993006846248183 : ℚ) / 212207101440105399533740733471) by norm_num [testHigh])
    (by norm_num) (by norm_num) (by norm_num) (by norm_num)
    (ratTrunc_eq (by norm_num) (by norm_num) (by norm_num))
    (by rw [mkFrac_coprime (by norm_num) (by norm_num)]; norm_num)
    (by rw [mkFrac_coprime (by norm_num) (by norm_num)]; norm_num)

/-- Iteration 19 of the C4 counterexample run. -/
theorem c4run18 : step 170141183460469231731687303715884105727 ((131151201344081895336534324866 : ℚ) / 212207101440105399533740733471) (1/10^60) (⟨⟨14930352, 24157817⟩, ⟨24157817, 39088169⟩⟩ : SState) = .next (⟨⟨39088169, 63245986⟩, ⟨63245986, 102334155⟩⟩ : SState) :=
  step_eval_next2 1
    (show testLow ((131151201344081895336534324866 : ℚ) / 212207101440105399533740733471) (⟨⟨14930352, 24157817⟩, ⟨24157817, 39088169⟩⟩ : SState) = ((3928413764606871165730 : ℚ) / 212207101440105399533740733471) by norm_num [testLow])
    (show testHigh ((131151201344081895336534324866 : ℚ) / 212207101440105399533740733471) (⟨⟨14930352, 24157817⟩, ⟨24157817, 39088169⟩⟩ : SState) = ((2427893228399975082453 : ℚ) / 212207101440105399533740733471) by norm_num [testHigh])
    (by norm_num) (by norm_num) (by norm_num) (by norm_num)
    (ratTrunc_eq (by norm_num) (by norm_num) (by norm_num))
    (by rw [mkFrac_coprime (by norm_num) (by norm_num)]; norm_num)
    (by rw [mkFrac_coprime (by norm_num) (by norm_num)]; norm_num)

/-- Iteration 20 of the C4 counterexample run. -/
theorem c4run19 : step 170141183460469231731687303715884105727 ((131151201344081895336534324866 : ℚ) / 212207101440105399533740733471) (1/10^60) (⟨⟨39088169, 63245986⟩, ⟨63245986, 102334155⟩⟩ : SState) = .next (⟨⟨102334155, 165580141⟩, ⟨165580141, 267914296⟩⟩ : SState) :=
  step_eval_next2 1
    (show testLow ((131151201344081895336534324866 : ℚ) / 212207101440105399533740733471) (⟨⟨39088169, 63245986⟩, ⟨63245986, 102334155⟩⟩ : SState) = ((1500520536206896083277 : ℚ) / 212207101440105399533740733471) by norm_num [testLow])
    (show testHigh ((131151201344081895336534324866 : ℚ) / 212207101440105399533740733471) (⟨⟨39088169, 63245986⟩, ⟨63245986, 102334155⟩⟩ : SState) = ((927372692193078999176 : ℚ) / 212207101440105399533740733471) by norm_num [testHigh])
    (by norm_num) (by norm_num) (by norm_num) (by norm_num)
    (ratTrunc_eq (by norm_num) (by norm_num) (by norm_num))
    (by rw [mkFrac_coprime (by norm_num) (by norm_num)]; norm_num)
    (by rw [mkFrac_coprime (by norm_num) (by norm_num)]; norm_num)

/-- Iteration 21 of the C4 counterexample run. -/
theorem c4run20 : step 170141183460469231731687303715884105727 ((131151201344081895336534324866 : ℚ) / 212207101440105399533740733471) (1/10^60) (⟨⟨102334155, 165580141⟩, ⟨165580141, 267914296⟩⟩ : SState) = .next (⟨⟨267914296, 433494437⟩, ⟨433494437, 701408733⟩⟩ : SState) :=
  step_eval_next2 1
    (show testLow ((131151201344081895336534324866 : ℚ) / 212207101440105399533740733471) (⟨⟨102334155, 165580141⟩, ⟨165580141, 267914296⟩⟩ : SState) = ((573147844013817084101 : ℚ) / 212207101440105399533740733471) by norm_num [testLow])
    (show testHigh ((131151201344081895336534324866 : ℚ) / 212207101440105399533740733471) (⟨⟨102334155, 165580141⟩, ⟨165580141, 267914296⟩⟩ : SState) = ((354224848179261915075 : ℚ) / 212207101440105399533740733471) by norm_num [testHigh])
    (by norm_num) (by norm_num) (by norm_num) (by norm_num)
    (ratTrunc_eq (by norm_num) (by norm_num) (by norm_num))
    (by rw [mkFrac_coprime (by norm_num) (by norm_num)]; norm_num)
    (by rw [mkFrac_coprime (by norm_num) (by norm_num)]; norm_num)

/-- Iteration 22 of the C4 counterexample run. -/
theorem c4run21 : step 170141183460469231731687303715884105727 ((131151201344081895336534324866 : ℚ) / 212207101440105399533740733471) (1/10^60) (⟨⟨267914296, 433494437⟩, ⟨433494437, 701408733⟩⟩ : SState) = .next (⟨⟨701408733, 1134903170⟩, ⟨1134903170, 1836311903⟩⟩ : SState) :=
  step_eval_next2 1
    (show testLow ((131151201344081895336534324866 : ℚ) / 212207101440105399533740733471) (⟨⟨267914296, 433494437⟩, ⟨433494437, 701408733⟩⟩ : SState) = ((218922995834555169026 : ℚ) / 212207101440105399533740733471) by norm_num [testLow])
    (show testHigh ((131151201344081895336534324866 : ℚ) / 212207101440105399533740733471) (⟨⟨267914296, 433494437⟩, ⟨433494437, 701408733⟩⟩ : SState) = ((135301852344706746049 : ℚ) / 212207101440105399533740733471) by norm_num [testHigh])
    (by norm_num) (by norm_num) (by norm_num) (by norm_num)
    (ratTrunc_eq (by norm_num) (by norm_num) (by norm_num))
    (by rw [mkFrac_coprime (by norm_num) (by norm_num)]; norm_num)
    (by rw [mkFrac_coprime (by norm_num) (by norm_num)]; norm_num)

/-- Iteration 23 of the C4 counterexample run. -/
theorem c4run22 : step 170141183460469231731687303715884105727 ((131151201344081895336534324866 : ℚ) / 212207101440105399533740733471) (1/10^60) (⟨⟨701408733, 1134903170⟩, ⟨1134903170, 1836311903⟩⟩ : SState) = .next (⟨⟨1836311903, 2971215073⟩, ⟨2971215073, 4807526976⟩⟩ : SState) :=
  step_eval_next2 1
    (show testLow ((131151201344081895336534324866 : ℚ) / 212207101440105399533740733471) (⟨⟨701408733, 1134903170⟩, ⟨1134903170, 1836311903⟩⟩ : SState) = ((83621143489848422977 : ℚ) / 212207101440105399533740733471) by norm_num [testLow])
    (show testHigh ((131151201344081895336534324866 : ℚ) / 212207101440105399533740733471) (⟨⟨701408733, 1134903170⟩, ⟨1134903170, 1836311903⟩⟩ : SState) = ((51680708854858323072 : ℚ) / 212207101440105399533740733471) by norm_num [testHigh])
    (by norm_num) (by norm_num) (by norm_num) (by norm_num)
    (ratTrunc_eq (by norm_num) (by norm_num) (by norm_num))
    (by rw [mkFrac_coprime (by norm_num) (by norm_num)]; norm_num)
    (by rw [mkFrac_coprime (by norm_num) (by norm_num)]; norm_num)

/-- Iteration 24 of the C4 counterexample run. -/
theorem c4run23 : step 170141183460469231731687303715884105727 ((131151201344081895336534324866 : ℚ) / 212207101440105399533740733471) (1/10^60) (⟨⟨1836311903, 2971215073⟩, ⟨2971215073, 4807526976⟩⟩ : SState) = .next (⟨⟨4807526976, 7778742049⟩, ⟨7778742049, 12586269025⟩⟩ : SState) :=
  step_eval_next2 1
    (show testLow ((131151201344081895336534324866 : ℚ) / 212207101440105399533740733471) (⟨⟨1836311903, 2971215073⟩, ⟨2971215073, 4807526976⟩⟩ : SState) = ((31940434634990099905 : ℚ) / 212207101440105399533740733471) by norm_num [testLow])
    (show testHigh ((131151201344081895336534324866 : ℚ) / 212207101440105399533740733471) (⟨⟨1836311903, 2971215073⟩, ⟨2971215073, 4807526976⟩⟩ : SState) = ((19740274219868223167 : ℚ) / 212207101440105399533740733471) by norm_num [testHigh])
    (by norm_num) (by norm_num) (by norm_num) (by norm_num)
    (ratTrunc_eq (by norm_num) (by norm_num) (by norm_num))
    (by rw [mkFrac_coprime (by norm_num) (by norm_num)]; norm_num)
    (by rw [mkFrac_coprime (by norm_num) (by norm_num)]; norm_num)

/-- Iteration 25 of the C4 counterexample run. -/
theorem c4run24 : step 170141183460469231731687303715884105727 ((131151201344081895336534324866 : ℚ) / 212207101440105399533740733471) (1/10^60) (⟨⟨4807526976, 7778742049⟩, ⟨7778742049, 12586269025⟩⟩ : SState) = .next (⟨⟨12586269025, 20365011074⟩, ⟨20365011074, 32951280099⟩⟩ : SState) :=
  step_eval_next2 1
    (show testLow ((131151201344081895336534324866 : ℚ) / 212207101440105399533740733471) (⟨⟨4807526976, 7778742049⟩, ⟨7778742049, 12586269025⟩⟩ : SState) = ((12200160415121876738 : ℚ) / 212207101440105399533740733471) by norm_num [testLow])
    (show testHigh ((131151201344081895336534324866 : ℚ) / 212207101440105399533740733471) (⟨⟨4807526976, 7778742049⟩, ⟨7778742049, 12586269025⟩⟩ : SState) = ((7540113804746346429 : ℚ) / 212207101440105399533740733471) by norm_num [testHigh])
    (by norm_num) (by norm_num) (by norm_num) (by norm_num)
    (ratTrunc_eq (by norm_num) (by norm_num) (by norm_num))
    (by rw [mkFrac_coprime (by norm_num) (by norm_num)]; norm_num)
    (by rw [mkFrac_coprime (by norm_num) (by norm_num)]; norm_num)

/-- Iteration 26 of the C4 counterexample run. -/
theorem c4run25 : step 170141183460469231731687303715884105727 ((131151201344081895336534324866 : ℚ) / 212207101440105399533740733471) (1/10^60) (⟨⟨12586269025, 20365011074⟩, ⟨20365011074, 32951280099⟩⟩ : SState) = .next (⟨⟨32951280099, 53316291173⟩, ⟨53316291173, 86267571272⟩⟩ : SState) :=
  step_eval_next2 1
    (show testLow ((131151201344081895336534324866 : ℚ) / 212207101440105399533740733471) (⟨⟨12586269025, 20365011074⟩, ⟨20365011074, 32951280099⟩⟩ : SState) = ((4660046610375530309 : ℚ) / 212207101440105399533740733471) by norm_num [testLow])
    (show testHigh ((131151201344081895336534324866 : ℚ) / 212207101440105399533740733471) (⟨⟨12586269025, 20365011074⟩, ⟨20365011074, 32951280099⟩⟩ : SState) = ((2880067194370816120 : ℚ) / 212207101440105399533740733471) by norm_num [testHigh])
    (by norm_num) (by norm_num) (by norm_num) (by norm_num)
    (ratTrunc_eq (by norm_num) (by norm_num) (by norm_num))
    (by rw [mkFrac_coprime (by norm_num) (by norm_num)]; norm_num)
    (by rw [mkFrac_coprime (by norm_num) (by norm_num)]; norm_num)

/-- Iteration 27 of the C4 counterexample run. -/
theorem c4run26 : step 170141183460469231731687303715884105727 ((131151201344081895336534324866 : ℚ) / 212207101440105399533740733471) (1/10^60) (⟨⟨32951280099, 53316291173⟩, ⟨53316291173, 86267571272⟩⟩ : SState) = .next (⟨⟨86267571272, 139583862445⟩, ⟨139583862445, 225851433717⟩⟩ : SState) :=
  step_eval_next2 1
    (show testLow ((131151201344081895336534324866 : ℚ) / 212207101440105399533740733471) (⟨⟨32951280099, 53316291173⟩, ⟨53316291173, 86267571272⟩⟩ : SState) = ((1779979416004714189 : ℚ) / 212207101440105399533740733471) by norm_num [testLow])
    (show testHigh ((131151201344081895336534324866 : ℚ) / 212207101440105399533740733471) (⟨⟨32951280099, 53316291173⟩, ⟨53316291173, 86267571272⟩⟩ : SState) = ((1100087778366101931 : ℚ) / 212207101440105399533740733471) by norm_num [testHigh])
    (by norm_num) (by norm_num) (by norm_num) (by norm_num)
    (ratTrunc_eq (by norm_num) (by norm_num) (by norm_num))
    (by rw [mkFrac_coprime (by norm_num) (by norm_num)]; norm_num)
    (by rw [mkFrac_coprime (by norm_num) (by norm_num)]; norm_num)

/-- Iteration 28 of the C4 counterexample run. -/
theorem c4run27 : step 170141183460469231731687303715884105727 ((131151201344081895336534324866 : ℚ) / 212207101440105399533740733471) (1/10^60) (⟨⟨86267571272, 139583862445⟩, ⟨139583862445, 225851433717⟩⟩ : SState) = .next (⟨⟨225851433717, 365435296162⟩, ⟨365435296162, 591286729879⟩⟩ : SState) :=
  step_eval_next2 1
    (show testLow ((131151201344081895336534324866 : ℚ) / 212207101440105399533740733471) (⟨⟨86267571272, 139583862445⟩, ⟨139583862445, 225851433717⟩⟩ : SState) = ((679891637638612258 : ℚ) / 212207101440105399533740733471) by norm_num [testLow])
    (show testHigh ((131151201344081895336534324866 : ℚ) / 212207101440105399533740733471) (⟨⟨86267571272, 139583862445⟩, ⟨139583862445, 225851433717⟩⟩ : SState) = ((420196140727489673 : ℚ) / 212207101440105399533740733471) by norm_num [testHigh])
    (by norm_num) (by norm_num) (by norm_num) (by norm_num)
    (ratTrunc_eq (by norm_num) (by norm_num) (by norm_num))
    (by rw [mkFrac_coprime (by norm_num) (by norm_num)]; norm_num)
    (by rw [mkFrac_coprime (by norm_num) (by norm_num)]; norm_num)

/-- Iteration 29 of the C4 counterexample run. -/
theorem c4run28 : step 170141183460469231731687303715884105727 ((131151201344081895336534324866 : ℚ) / 212207101440105399533740733471) (1/10^60) (⟨⟨225851433717, 365435296162⟩, ⟨365435296162, 591286729879⟩⟩ : SState) = .next (⟨⟨591286729879, 956722026041⟩, ⟨956722026041, 1548008755920⟩⟩ : SState) :=
  step_eval_next2 1
    (show testLow ((131151201344081895336534324866 : ℚ) / 212207101440105399533740733471) (⟨⟨225851433717, 365435296162⟩, ⟨365435296162, 591286729879⟩⟩ : SState) = ((259695496911122585 : ℚ) / 212207101440105399533740733471) by norm_num [testLow])
    (show testHigh ((131151201344081895336534324866 : ℚ) / 212207101440105399533740733471) (⟨⟨225851433717, 365435296162⟩, ⟨365435296162, 591286729879⟩⟩ : SState) = ((160500643816367088 : ℚ) / 212207101440105399533740733471) by norm_num [testHigh])
    (by norm_num) (by norm_num) (by norm_num) (by norm_num)
    (ratTrunc_eq (by norm_num) (by norm_num) (by norm_num))
    (by rw [mkFrac_coprime (by norm_num) (by norm_num)]; norm_num)
    (by rw [mkFrac_coprime (by norm_num) (by norm_num)]; norm_num)

/-- Iteration 30 of the C4 counterexample run. -/
theorem c4run29 : step 170141183460469231731687303715884105727 ((131151201344081895336534324866 : ℚ) / 212207101440105399533740733471) (1/10^60) (⟨⟨591286729879, 956722026041⟩, ⟨956722026041, 1548008755920⟩⟩ : SState) = .next (⟨⟨1548008755920, 2504730781961⟩, ⟨2504730781961, 4052739537881⟩⟩ : SState) :=
  step_eval_next2 1
    (show testLow ((131151201344081895336534324866 : ℚ) / 212207101440105399533740733471) (⟨⟨591286729879, 956722026041⟩, ⟨956722026041, 1548008755920⟩⟩ : SState) = ((99194853094755497 : ℚ) / 212207101440105399533740733471) by norm_num [testLow])
    (show testHigh ((131151201344081895336534324866 : ℚ) / 212207101440105399533740733471) (⟨⟨591286729879, 956722026041⟩, ⟨956722026041, 1548008755920⟩⟩ : SState) = ((61305790721611591 : ℚ) / 212207101440105399533740733471) by norm_num [testHigh])
    (by norm_num) (by norm_num) (by norm_num) (by norm_num)
    (ratTrunc_eq (by norm_num) (by norm_num) (by norm_num))
    (by rw [mkFrac_coprime (by norm_num) (by norm_num)]; norm_num)
    (by rw [mkFrac_coprime (by norm_num) (by norm_num)]; norm_num)

/-- Iteration 31 of the C4 counterexample run. -/
theorem c4run30 : step 170141183460469231731687303715884105727 ((131151201344081895336534324866 : ℚ) / 212207101440105399533740733471) (1/10^60) (⟨⟨1548008755920, 2504730781961⟩, ⟨2504730781961, 4052739537881⟩⟩ : SState) = .next (⟨⟨4052739537881, 6557470319842⟩, ⟨6557470319842, 10610209857723⟩⟩ : SState) :=
  step_eval_next2 1
    (show testLow ((131151201344081895336534324866 : ℚ) / 212207101440105399533740733471) (⟨⟨1548008755920, 2504730781961⟩, ⟨2504730781961, 4052739537881⟩⟩ : SState) = ((37889062373143906 : ℚ) / 212207101440105399533740733471) by norm_num [testLow])
    (show testHigh ((131151201344081895336534324866 : ℚ) / 212207101440105399533740733471) (⟨⟨1548008755920, 2504730781961⟩, ⟨2504730781961, 4052739537881⟩⟩ : SState) = ((23416728348467685 : ℚ) / 212207101440105399533740733471) by norm_num [testHigh])
    (by norm_num) (by norm_num) (by norm_num) (by norm_num)
    (ratTrunc_eq (by norm_num) (by norm_num) (by norm_num))
    (by rw [mkFrac_coprime (by norm_num) (by norm_num)]; norm_num)
    (by rw [mkFrac_coprime (by norm_num) (by norm_num)]; norm_num)

/-- Iteration 32 of the C4 counterexample run. -/
theorem c4run31 : step 170141183460469231731687303715884105727 ((131151201344081895336534324866 : ℚ) / 212207101440105399533740733471) (1/10^60) (⟨⟨4052739537881, 6557470319842⟩, ⟨6557470319842, 10610209857723⟩⟩ : SState) = .next (⟨⟨10610209857723, 17167680177565⟩, ⟨17167680177565, 27777890035288⟩⟩ : SState) :=
  step_eval_next2 1
    (show testLow ((131151201344081895336534324866 : ℚ) / 212207101440105399533740733471) (⟨⟨4052739537881, 6557470319842⟩, ⟨6557470319842, 10610209857723⟩⟩ : SState) = ((14472334024676221 : ℚ) / 212207101440105399533740733471) by norm_num [testLow])
    (show testHigh ((131151201344081895336534324866 : ℚ) / 212207101440105399533740733471) (⟨⟨4052739537881, 6557470319842⟩, ⟨6557470319842, 10610209857723⟩⟩ : SState) = ((8944394323791464 : ℚ) / 212207101440105399533740733471) by norm_num [testHigh])
    (by norm_num) (by norm_num) (by norm_num) (by norm_num)
    (ratTrunc_eq (by norm_num) (by norm_num) (by norm_num))
    (by rw [mkFrac_coprime (by norm_num) (by norm_num)]; norm_num)
    (by rw [mkFrac_coprime (by norm_num) (by norm_num)]; norm_num)

/-- Iteration 33 of the C4 counterexample run. -/
theorem c4run32 : step 170141183460469231731687303715884105727 ((131151201344081895336534324866 : ℚ) / 212207101440105399533740733471) (1/10^60) (⟨⟨10610209857723, 17167680177565⟩, ⟨17167680177565, 27777890035288⟩⟩ : SState) = .next (⟨⟨27777890035288, 44945570212853⟩, ⟨44945570212853, 72723460248141⟩⟩ : SState) :=
  step_eval_next2 1
    (show testLow ((131151201344081895336534324866 : ℚ) / 212207101440105399533740733471) (⟨⟨10610209857723, 17167680177565⟩, ⟨17167680177565, 27777890035288⟩⟩ : SState) = ((5527939700884757 : ℚ) / 212207101440105399533740733471) by norm_num [testLow])
    (show testHigh ((131151201344081895336534324866 : ℚ) / 212207101440105399533740733471) (⟨⟨10610209857723, 17167680177565⟩, ⟨17167680177565, 27777890035288⟩⟩ : SState) = ((3416454622906707 : ℚ) / 212207101440105399533740733471) by norm_num [testHigh])
    (by norm_num) (by norm_num) (by norm_num) (by norm_num)
    (ratTrunc_eq (by norm_num) (by norm_num) (by norm_num))
    (by rw [mkFrac_coprime (by norm_num) (by norm_num)]; norm_num)
    (by rw [mkFrac_coprime (by norm_num) (by norm_num)]; norm_num)

/-- Iteration 34 of the C4 counterexample run. -/
theorem c4run33 : step 170141183460469231731687303715884105727 ((131151201344081895336534324866 : ℚ) / 212207101440105399533740733471) (1/10^60) (⟨⟨27777890035288, 44945570212853⟩, ⟨44945570212853, 72723460248141⟩⟩ : SState) = .next (⟨⟨72723460248141, 117669030460994⟩, ⟨117669030460994, 190392490709135⟩⟩ : SState) :=
  step_eval_next2 1
    (show testLow ((131151201344081895336534324866 : ℚ) / 212207101440105399533740733471) (⟨⟨27777890035288, 44945570212853⟩, ⟨44945570212853, 72723460248141⟩⟩ : SState) = ((2111485077978050 : ℚ) / 212207101440105399533740733471) by norm_num [testLow])
    (show testHigh ((131151201344081895336534324866 : ℚ) / 212207101440105399533740733471) (⟨⟨27777890035288, 44945570212853⟩, ⟨44945570212853, 72723460248141⟩⟩ : SState) = ((1304969544928657 : ℚ) / 212207101440105399533740733471) by norm_num [testHigh])
    (by norm_num) (by norm_num) (by norm_num) (by norm_num)
    (ratTrunc_eq (by norm_num) (by norm_num) (by norm_num))
    (by rw [mkFrac_coprime (by norm_num) (by norm_num)]; norm_num)
    (by rw [mkFrac_coprime (by norm_num) (by norm_num)]; norm_num)

/-- Iteration 35 of the C4 counterexample run. -/
theorem c4run34 : step 170141183460469231731687303715884105727 ((131151201344081895336534324866 : ℚ) / 212207101440105399533740733471) (1/10^60) (⟨⟨72723460248141, 117669030460994⟩, ⟨117669030460994, 190392490709135⟩⟩ : SState) = .next (⟨⟨190392490709135, 308061521170129⟩, ⟨308061521170129, 498454011879264⟩⟩ : SState) :=
  step_eval_next2 1
    (show testLow ((131151201344081895336534324866 : ℚ) / 212207101440105399533740733471) (⟨⟨72723460248141, 117669030460994⟩, ⟨117669030460994, 190392490709135⟩⟩ : SState) = ((806515533049393 : ℚ) / 212207101440105399533740733471) by norm_num [testLow])
    (show testHigh ((131151201344081895336534324866 : ℚ) / 212207101440105399533740733471) (⟨⟨72723460248141, 117669030460994⟩, ⟨117669030460994, 190392490709135⟩⟩ : SState) = ((498454011879264 : ℚ) / 212207101440105399533740733471) by norm_num [testHigh])
    (by norm_num) (by norm_num) (by norm_num) (by norm_num)
    (ratTrunc_eq (by norm_num) (by norm_num) (by norm_num))
    (by rw [mkFrac_coprime (by norm_num) (by norm_num)]; norm_num)
    (by rw [mkFrac_coprime (by norm_num) (by norm_num)]; norm_num)

/-- Iteration 36 of the C4 counterexample run. -/
theorem c4run35 : step 170141183460469231731687303715884105727 ((131151201344081895336534324866 : ℚ) / 212207101440105399533740733471) (1/10^60) (⟨⟨190392490709135, 308061521170129⟩, ⟨308061521170129, 498454011879264⟩⟩ : SState) = .next (⟨⟨498454011879264, 806515533049393⟩, ⟨806515533049393, 1304969544928657⟩⟩ : SState) :=
  step_eval_next2 1
    (show testLow ((131151201344081895336534324866 : ℚ) / 212207101440105399533740733471) (⟨⟨190392490709135, 308061521170129⟩, ⟨308061521170129, 498454011879264⟩⟩ : SState) = ((1 : ℚ) / 688846502588399) by norm_num [testLow])
    (show testHigh ((131151201344081895336534324866 : ℚ) / 212207101440105399533740733471) (⟨⟨190392490709135, 308061521170129⟩, ⟨308061521170129, 498454011879264⟩⟩ : SState) = ((190392490709135 : ℚ) / 212207101440105399533740733471) by norm_num [testHigh])
    (by norm_num) (by norm_num) (by norm_num) (by norm_num)
    (ratTrunc_eq (by norm_num) (by norm_num) (by norm_num))
    (by rw [mkFrac_coprime (by norm_num) (by norm_num)]; norm_num)
    (by rw [mkFrac_coprime (by norm_num) (by norm_num)]; norm_num)

/-- Iteration 37 of the C4 counterexample run. -/
theorem c4run36 : step 170141183460469231731687303715884105727 ((131151201344081895336534324866 : ℚ) / 212207101440105399533740733471) (1/10^60) (⟨⟨498454011879264, 806515533049393⟩, ⟨806515533049393, 1304969544928657⟩⟩ : SState) = .next (⟨⟨1304969544928657, 2111485077978050⟩, ⟨2111485077978050, 3416454622906707⟩⟩ : SState) :=
  step_eval_next2 1
    (show testLow ((131151201344081895336534324866 : ℚ) / 212207101440105399533740733471) (⟨⟨498454011879264, 806515533049393⟩, ⟨806515533049393, 1304969544928657⟩⟩ : SState) = ((117669030460994 : ℚ) / 212207101440105399533740733471) by norm_num [testLow])
    (show testHigh ((131151201344081895336534324866 : ℚ) / 212207101440105399533740733471) (⟨⟨498454011879264, 806515533049393⟩, ⟨806515533049393, 1304969544928657⟩⟩ : SState) = ((72723460248141 : ℚ) / 212207101440105399533740733471) by norm_num [testHigh])
    (by norm_num) (by norm_num) (by norm_num) (by norm_num)
    (ratTrunc_eq (by norm_num) (by norm_num) (by norm_num))
    (by rw [mkFrac_coprime (by norm_num) (by norm_num)]; norm_num)
    (by rw [mkFrac_coprime (by norm_num) (by norm_num)]; norm_num)

/-- Iteration 38 of the C4 counterexample run. -/
theorem c4run37 : step 170141183460469231731687303715884105727 ((131151201344081895336534324866 : ℚ) / 212207101440105399533740733471) (1/10^60) (⟨⟨1304969544928657, 2111485077978050⟩, ⟨2111485077978050, 3416454622906707⟩⟩ : SState) = .next (⟨⟨3416454622906707, 5527939700884757⟩, ⟨5527939700884757, 8944394323791464⟩⟩ : SState) :=
  step_eval_next2 1
    (show testLow ((131151201344081895336534324866 : ℚ) / 212207101440105399533740733471) (⟨⟨1304969544928657, 2111485077978050⟩, ⟨2111485077978050, 3416454622906707⟩⟩ : SState) = ((44945570212853 : ℚ) / 212207101440105399533740733471) by norm_num [testLow])
    (show testHigh ((131151201344081895336534324866 : ℚ) / 212207101440105399533740733471) (⟨⟨1304969544928657, 2111485077978050⟩, ⟨2111485077978050, 3416454622906707⟩⟩ : SState) = ((27777890035288 : ℚ) / 212207101440105399533740733471) by norm_num [testHigh])
    (by norm_num) (by norm_num) (by norm_num) (by norm_num)
    (ratTrunc_eq (by norm_num) (by norm_num) (by norm_num))
    (by rw [mkFrac_coprime (by norm_num) (by norm_num)]; norm_num)
    (by rw [mkFrac_coprime (by norm_num) (by norm_num)]; norm_num)

/-- Iteration 39 of the C4 counterexample run. -/
theorem c4run38 : step 170141183460469231731687303715884105727 ((131151201344081895336534324866 : ℚ) / 212207101440105399533740733471) (1/10^60) (⟨⟨3416454622906707, 5527939700884757⟩, ⟨5527939700884757, 8944394323791464⟩⟩ : SState) = .next (⟨⟨8944394323791464, 14472334024676221⟩, ⟨14472334024676221, 23416728348467685⟩⟩ : SState) :=
  step_eval_next2 1
    (show testLow ((131151201344081895336534324866 : ℚ) / 212207101440105399533740733471) (⟨⟨3416454622906707, 5527939700884757⟩, ⟨5527939700884757, 8944394323791464⟩⟩ : SState) = ((17167680177565 : ℚ) / 212207101440105399533740733471) by norm_num [testLow])
    (show testHigh ((131151201344081895336534324866 : ℚ) / 212207101440105399533740733471) (⟨⟨3416454622906707, 5527939700884757⟩, ⟨5527939700884757, 8944394323791464⟩⟩ : SState) = ((10610209857723 : ℚ) / 212207101440105399533740733471) by norm_num [testHigh])
    (by norm_num) (by norm_num) (by norm_num) (by norm_num)
    (ratTrunc_eq (by norm_num) (by norm_num) (by norm_num))
    (by rw [mkFrac_coprime (by norm_num) (by norm_num)]; norm_num)
    (by rw [mkFrac_coprime (by norm_num) (by norm_num)]; norm_num)

/-- Iteration 40 of the C4 counterexample run. -/
theorem c4run39 : step 170141183460469231731687303715884105727 ((131151201344081895336534324866 : ℚ) / 212207101440105399533740733471) (1/10^60) (⟨⟨8944394323791464, 14472334024676221⟩, ⟨14472334024676221, 23416728348467685⟩⟩ : SState) = .next (⟨⟨23416728348467685, 37889062373143906⟩, ⟨37889062373143906, 61305790721611591⟩⟩ : SState) :=
  step_eval_next2 1
    (show testLow ((131151201344081895336534324866 : ℚ) / 212207101440105399533740733471) (⟨⟨8944394323791464, 14472334024676221⟩, ⟨14472334024676221, 23416728348467685⟩⟩ : SState) = ((6557470319842 : ℚ) / 212207101440105399533740733471) by norm_num [testLow])
    (show testHigh ((131151201344081895336534324866 : ℚ) / 212207101440105399533740733471) (⟨⟨8944394323791464, 14472334024676221⟩, ⟨14472334024676221, 23416728348467685⟩⟩ : SState) = ((4052739537881 : ℚ) / 212207101440105399533740733471) by norm_num [testHigh])
    (by norm_num) (by norm_num) (by norm_num) (by norm_num)
    (ratTrunc_eq (by norm_num) (by norm_num) (by norm_num))
    (by rw [mkFrac_coprime (by norm_num) (by norm_num)]; norm_num)
    (by rw [mkFrac_coprime (by norm_num) (by norm_num)]; norm_num)

/-- Iteration 41 of the C4 counterexample run. -/
theorem c4run40 : step 170141183460469231731687303715884105727 ((131151201344081895336534324866 : ℚ) / 212207101440105399533740733471) (1/10^60) (⟨⟨23416728348467685, 37889062373143906⟩, ⟨37889062373143906, 61305790721611591⟩⟩ : SState) = .next (⟨⟨61305790721611591, 99194853094755497⟩, ⟨99194853094755497, 160500643816367088⟩⟩ : SState) :=
  step_eval_next2 1
    (show testLow ((131151201344081895336534324866 : ℚ) / 212207101440105399533740733471) (⟨⟨23416728348467685, 37889062373143906⟩, ⟨37889062373143906, 61305790721611591⟩⟩ : SState) = ((2504730781961 : ℚ) / 212207101440105399533740733471) by norm_num [testLow])
    (show testHigh ((131151201344081895336534324866 : ℚ) / 212207101440105399533740733471) (⟨⟨23416728348467685, 37889062373143906⟩, ⟨37889062373143906, 61305790721611591⟩⟩ : SState) = ((1548008755920 : ℚ) / 212207101440105399533740733471) by norm_num [testHigh])
    (by norm_num) (by norm_num) (by norm_num) (by norm_num)
    (ratTrunc_eq (by norm_num) (by norm_num) (by norm_num))
    (by rw [mkFrac_coprime (by norm_num) (by norm_num)]; norm_num)
    (by rw [mkFrac_coprime (by norm_num) (by norm_num)]; norm_num)

/-- Iteration 42 of the C4 counterexample run. -/
theorem c4run41 : step 170141183460469231731687303715884105727 ((131151201344081895336534324866 : ℚ) / 212207101440105399533740733471) (1/10^60) (⟨⟨61305790721611591, 99194853094755497⟩, ⟨99194853094755497, 160500643816367088⟩⟩ : SState) = .next (⟨⟨160500643816367088, 259695496911122585⟩, ⟨259695496911122585, 420196140727489673⟩⟩ : SState) :=
  step_eval_next2 1
    (show testLow ((131151201344081895336534324866 : ℚ) / 212207101440105399533740733471) (⟨⟨61305790721611591, 99194853094755497⟩, ⟨99194853094755497, 160500643816367088⟩⟩ : SState) = ((956722026041 : ℚ) / 212207101440105399533740733471) by norm_num [testLow])
    (show testHigh ((131151201344081895336534324866 : ℚ) / 212207101440105399533740733471) (⟨⟨61305790721611591, 99194853094755497⟩, ⟨99194853094755497, 160500643816367088⟩⟩ : SState) = ((591286729879 : ℚ) / 212207101440105399533740733471) by norm_num [testHigh])
    (by norm_num) (by norm_num) (by norm_num) (by norm_num)
    (ratTrunc_eq (by norm_num) (by norm_num) (by norm_num))
    (by rw [mkFrac_coprime (by norm_num) (by norm_num)]; norm_num)
    (by rw [mkFrac_coprime (by norm_num) (by norm_num)]; norm_num)

/-- Iteration 43 of the C4 counterexample run. -/
theorem c4run42 : step 170141183460469231731687303715884105727 ((131151201344081895336534324866 : ℚ) / 212207101440105399533740733471) (1/10^60) (⟨⟨160500643816367088, 259695496911122585⟩, ⟨259695496911122585, 420196140727489673⟩⟩ : SState) = .next (⟨⟨420196140727489673, 679891637638612258⟩, ⟨679891637638612258, 1100087778366101931⟩⟩ : SState) :=
  step_eval_next2 1
    (show testLow ((131151201344081895336534324866 : ℚ) / 212207101440105399533740733471) (⟨⟨160500643816367088, 259695496911122585⟩, ⟨259695496911122585, 420196140727489673⟩⟩ : SState) = ((365435296162 : ℚ) / 212207101440105399533740733471) by norm_num [testLow])
    (show testHigh ((131151201344081895336534324866 : ℚ) / 212207101440105399533740733471) (⟨⟨160500643816367088, 259695496911122585⟩, ⟨259695496911122585, 420196140727489673⟩⟩ : SState) = ((225851433717 : ℚ) / 212207101440105399533740733471) by norm_num [testHigh])
    (by norm_num) (by norm_num) (by norm_num) (by norm_num)
    (ratTrunc_eq (by norm_num) (by norm_num) (by norm_num))
    (by rw [mkFrac_coprime (by norm_num) (by norm_num)]; norm_num)
    (by rw [mkFrac_coprime (by norm_num) (by norm_num)]; norm_num)

/-- Iteration 44 of the C4 counterexample run. -/
theorem c4run43 : step 170141183460469231731687303715884105727 ((131151201344081895336534324866 : ℚ) / 212207101440105399533740733471) (1/10^60) (⟨⟨420196140727489673, 679891637638612258⟩, ⟨679891637638612258, 1100087778366101931⟩⟩ : SState) = .next (⟨⟨1100087778366101931, 1779979416004714189⟩, ⟨1779979416004714189, 2880067194370816120⟩⟩ : SState) :=
  step_eval_next2 1
    (show testLow ((131151201344081895336534324866 : ℚ) / 212207101440105399533740733471) (⟨⟨420196140727489673, 679891637638612258⟩, ⟨679891637638612258, 1100087778366101931⟩⟩ : SState) = ((139583862445 : ℚ) / 212207101440105399533740733471) by norm_num [testLow])
    (show testHigh ((131151201344081895336534324866 : ℚ) / 212207101440105399533740733471) (⟨⟨420196140727489673, 679891637638612258⟩, ⟨679891637638612258, 1100087778366101931⟩⟩ : SState) = ((86267571272 : ℚ) / 212207101440105399533740733471) by norm_num [testHigh])
    (by norm_num) (by norm_num) (by norm_num) (by norm_num)
    (ratTrunc_eq (by norm_num) (by norm_num) (by norm_num))
    (by rw [mkFrac_coprime (by norm_num) (by norm_num)]; norm_num)
    (by rw [mkFrac_coprime (by norm_num) (by norm_num)]; norm_num)

/-- Iteration 45 of the C4 counterexample run. -/
theorem c4run44 : step 170141183460469231731687303715884105727 ((131151201344081895336534324866 : ℚ) / 212207101440105399533740733471) (1/10^60) (⟨⟨1100087778366101931, 1779979416004714189⟩, ⟨1779979416004714189, 2880067194370816120⟩⟩ : SState) = .next (⟨⟨2880067194370816120, 4660046610375530309⟩, ⟨4660046610375530309, 7540113804746346429⟩⟩ : SState) :=
  step_eval_next2 1
    (show testLow ((131151201344081895336534324866 : ℚ) / 212207101440105399533740733471) (⟨⟨1100087778366101931, 1779979416004714189⟩, ⟨1779979416004714189, 2880067194370816120⟩⟩ : SState) = ((53316291173 : ℚ) / 212207101440105399533740733471) by norm_num [testLow])
    (show testHigh ((131151201344081895336534324866 : ℚ) / 212207101440105399533740733471) (⟨⟨1100087778366101931, 1779979416004714189⟩, ⟨1779979416004714189, 2880067194370816120⟩⟩ : SState) = ((32951280099 : ℚ) / 212207101440105399533740733471) by norm_num [testHigh])
    (by norm_num) (by norm_num) (by norm_num) (by norm_num)
    (ratTrunc_eq (by norm_num) (by norm_num) (by norm_num))
    (by rw [mkFrac_coprime (by norm_num) (by norm_num)]; norm_num)
    (by rw [mkFrac_coprime (by norm_num) (by norm_num)]; norm_num)

/-- Iteration 46 of the C4 counterexample run. -/
theorem c4run45 : step 170141183460469231731687303715884105727 ((131151201344081895336534324866 : ℚ) / 212207101440105399533740733471) (1/10^60) (⟨⟨2880067194370816120, 4660046610375530309⟩, ⟨4660046610375530309, 7540113804746346429⟩⟩ : SState) = .next (⟨⟨7540113804746346429, 12200160415121876738⟩, ⟨12200160415121876738, 19740274219868223167⟩⟩ : SState) :=
  step_eval_next2 1
    (show testLow ((131151201344081895336534324866 : ℚ) / 212207101440105399533740733471) (⟨⟨2880067194370816120, 4660046610375530309⟩, ⟨4660046610375530309, 7540113804746346429⟩⟩ : SState) = ((20365011074 : ℚ) / 212207101440105399533740733471) by norm_num [testLow])
    (show testHigh ((131151201344081895336534324866 : ℚ) / 212207101440105399533740733471) (⟨⟨2880067194370816120, 4660046610375530309⟩, ⟨4660046610375530309, 7540113804746346429⟩⟩ : SState) = ((12586269025 : ℚ) / 212207101440105399533740733471) by norm_num [testHigh])
    (by norm_num) (by norm_num) (by norm_num) (by norm_num)
    (ratTrunc_eq (by norm_num) (by norm_num) (by norm_num))
    (by rw [mkFrac_coprime (by norm_num) (by norm_num)]; norm_num)
    (by rw [mkFrac_coprime (by norm_num) (by norm_num)]; norm_num)

/-- Iteration 47 of the C4 counterexample run. -/
theorem c4run46 : step 170141183460469231731687303715884105727 ((131151201344081895336534324866 : ℚ) / 212207101440105399533740733471) (1/10^60) (⟨⟨7540113804746346429, 12200160415121876738⟩, ⟨12200160415121876738, 19740274219868223167⟩⟩ : SState) = .next (⟨⟨19740274219868223167, 31940434634990099905⟩, ⟨31940434634990099905, 51680708854858323072⟩⟩ : SState) :=
  step_eval_next2 1
    (show testLow ((131151201344081895336534324866 : ℚ) / 212207101440105399533740733471) (⟨⟨7540113804746346429, 12200160415121876738⟩, ⟨12200160415121876738, 19740274219868223167⟩⟩ : SState) = ((7778742049 : ℚ) / 212207101440105399533740733471) by norm_num [testLow])
    (show testHigh ((131151201344081895336534324866 : ℚ) / 212207101440105399533740733471) (⟨⟨7540113804746346429, 12200160415121876738⟩, ⟨12200160415121876738, 19740274219868223167⟩⟩ : SState) = ((4807526976 : ℚ) / 212207101440105399533740733471) by norm_num [testHigh])
    (by norm_num) (by norm_num) (by norm_num) (by norm_num)
    (ratTrunc_eq (by norm_num) (by norm_num) (by norm_num))
    (by rw [mkFrac_coprime (by norm_num) (by norm_num)]; norm_num)
    (by rw [mkFrac_coprime (by norm_num) (by norm_num)]; norm_num)

/-- Iteration 48 of the C4 counterexample run. -/
theorem c4run47 : step 170141183460469231731687303715884105727 ((131151201344081895336534324866 : ℚ) / 212207101440105399533740733471) (1/10^60) (⟨⟨19740274219868223167, 31940434634990099905⟩, ⟨31940434634990099905, 51680708854858323072⟩⟩ : SState) = .next (⟨⟨51680708854858323072, 83621143489848422977⟩, ⟨83621143489848422977, 135301852344706746049⟩⟩ : SState) :=
  step_eval_next2 1
    (show testLow ((131151201344081895336534324866 : ℚ) / 212207101440105399533740733471) (⟨⟨19740274219868223167, 31940434634990099905⟩, ⟨31940434634990099905, 51680708854858323072⟩⟩ : SState) = ((2971215073 : ℚ) / 212207101440105399533740733471) by norm_num [testLow])
    (show testHigh ((131151201344081895336534324866 : ℚ) / 212207101440105399533740733471) (⟨⟨19740274219868223167, 31940434634990099905⟩, ⟨31940434634990099905, 51680708854858323072⟩⟩ : SState) = ((1836311903 : ℚ) / 212207101440105399533740733471) by norm_num [testHigh])
    (by norm_num) (by norm_num) (by norm_num) (by norm_num)
    (ratTrunc_eq (by norm_num) (by norm_num) (by norm_num))
    (by rw [mkFrac_coprime (by norm_num) (by norm_num)]; norm_num)
    (by rw [mkFrac_coprime (by norm_num) (by norm_num)]; norm_num)

/-- Iteration 49 of the C4 counterexample run. -/
theorem c4run48 : step 170141183460469231731687303715884105727 ((131151201344081895336534324866 : ℚ) / 212207101440105399533740733471) (1/10^60) (⟨⟨51680708854858323072, 83621143489848422977⟩, ⟨83621143489848422977, 135301852344706746049⟩⟩ : SState) = .next (⟨⟨135301852344706746049, 218922995834555169026⟩, ⟨218922995834555169026, 354224848179261915075⟩⟩ : SState) :=
  step_eval_next2 1
    (show testLow ((131151201344081895336534324866 : ℚ) / 212207101440105399533740733471) (⟨⟨51680708854858323072, 83621143489848422977⟩, ⟨83621143489848422977, 135301852344706746049⟩⟩ : SState) = ((1134903170 : ℚ) / 212207101440105399533740733471) by norm_num [testLow])
    (show testHigh ((131151201344081895336534324866 : ℚ) / 212207101440105399533740733471) (⟨⟨51680708854858323072, 83621143489848422977⟩, ⟨83621143489848422977, 135301852344706746049⟩⟩ : SState) = ((701408733 : ℚ) / 212207101440105399533740733471) by norm_num [testHigh])
    (by norm_num) (by norm_num) (by norm_num) (by norm_num)
    (ratTrunc_eq (by norm_num) (by norm_num) (by norm_num))
    (by rw [mkFrac_coprime (by norm_num) (by norm_num)]; norm_num)
    (by rw [mkFrac_coprime (by norm_num) (by norm_num)]; norm_num)

/-- Iteration 50 of the C4 counterexample run. -/
theorem c4run49 : step 170141183460469231731687303715884105727 ((131151201344081895336534324866 : ℚ) / 212207101440105399533740733471) (1/10^60) (⟨⟨135301852344706746049, 218922995834555169026⟩, ⟨218922995834555169026, 354224848179261915075⟩⟩ : SState) = .next (⟨⟨354224848179261915075, 573147844013817084101⟩, ⟨573147844013817084101, 927372692193078999176⟩⟩ : SState) :=
  step_eval_next2 1
    (show testLow ((131151201344081895336534324866 : ℚ) / 212207101440105399533740733471) (⟨⟨135301852344706746049, 218922995834555169026⟩, ⟨218922995834555169026, 354224848179261915075⟩⟩ : SState) = ((433494437 : ℚ) / 212207101440105399533740733471) by norm_num [testLow])
    (show testHigh ((131151201344081895336534324866 : ℚ) / 212207101440105399533740733471) (⟨⟨135301852344706746049, 218922995834555169026⟩, ⟨218922995834555169026, 354224848179261915075⟩⟩ : SState) = ((267914296 : ℚ) / 212207101440105399533740733471) by norm_num [testHigh])
    (by norm_num) (by norm_num) (by norm_num) (by norm_num)
    (ratTrunc_eq (by norm_num) (by norm_num) (by norm_num))
    (by rw [mkFrac_coprime (by norm_num) (by norm_num)]; norm_num)
    (by rw [mkFrac_coprime (by norm_num) (by norm_num)]; norm_num)

/-- Iteration 51 of the C4 counterexample run. -/
theorem c4run50 : step 170141183460469231731687303715884105727 ((131151201344081895336534324866 : ℚ) / 212207101440105399533740733471) (1/10^60) (⟨⟨354224848179261915075, 573147844013817084101⟩, ⟨573147844013817084101, 927372692193078999176⟩⟩ : SState) = .next (⟨⟨927372692193078999176, 1500520536206896083277⟩, ⟨1500520536206896083277, 2427893228399975082453⟩⟩ : SState) :=
  step_eval_next2 1
    (show testLow ((131151201344081895336534324866 : ℚ) / 212207101440105399533740733471) (⟨⟨354224848179261915075, 573147844013817084101⟩, ⟨573147844013817084101, 927372692193078999176⟩⟩ : SState) = ((165580141 : ℚ) / 212207101440105399533740733471) by norm_num [testLow])
    (show testHigh ((131151201344081895336534324866 : ℚ) / 212207101440105399533740733471) (⟨⟨354224848179261915075, 573147844013817084101⟩, ⟨573147844013817084101, 927372692193078999176⟩⟩ : SState) = ((102334155 : ℚ) / 212207101440105399533740733471) by norm_num [testHigh])
    (by norm_num) (by norm_num) (by norm_num) (by norm_num)
    (ratTrunc_eq (by norm_num) (by norm_num) (by norm_num))
    (by rw [mkFrac_coprime (by norm_num) (by norm_num)]; norm_num)
    (by rw [mkFrac_coprime (by norm_num) (by norm_num)]; norm_num)

/-- Iteration 52 of the C4 counterexample run. -/
theorem c4run51 : step 170141183460469231731687303715884105727 ((131151201344081895336534324866 : ℚ) / 212207101440105399533740733471) (1/10^60) (⟨⟨927372692193078999176, 1500520536206896083277⟩, ⟨1500520536206896083277, 2427893228399975082453⟩⟩ : SState) = .next (⟨⟨2427893228399975082453, 3928413764606871165730⟩, ⟨3928413764606871165730, 6356306993006846248183⟩⟩ : SState) :=
  step_eval_next2 1
    (show testLow ((131151201344081895336534324866 : ℚ) / 212207101440105399533740733471) (⟨⟨927372692193078999176, 1500520536206896083277⟩, ⟨1500520536206896083277, 2427893228399975082453⟩⟩ : SState) = ((63245986 : ℚ) / 212207101440105399533740733471) by norm_num [testLow])
    (show testHigh ((131151201344081895336534324866 : ℚ) / 212207101440105399533740733471) (⟨⟨927372692193078999176, 1500520536206896083277⟩, ⟨1500520536206896083277, 2427893228399975082453⟩⟩ : SState) = ((39088169 : ℚ) / 212207101440105399533740733471) by norm_num [testHigh])
    (by norm_num) (by norm_num) (by norm_num) (by norm_num)
    (ratTrunc_eq (by norm_num) (by norm_num) (by norm_num))
    (by rw [mkFrac_coprime (by norm_num) (by norm_num)]; norm_num)
    (by rw [mkFrac_coprime (by norm_num) (by norm_num)]; norm_num)

/-- Iteration 53 of the C4 counterexample run. -/
theorem c4run52 : step 170141183460469231731687303715884105727 ((131151201344081895336534324866 : ℚ) / 212207101440105399533740733471) (1/10^60) (⟨⟨2427893228399975082453, 3928413764606871165730⟩, ⟨3928413764606871165730, 6356306993006846248183⟩⟩ : SState) = .next (⟨⟨6356306993006846248183, 10284720757613717413913⟩, ⟨10284720757613717413913, 16641027750620563662096⟩⟩ : SState) :=
  step_eval_next2 1
    (show testLow ((131151201344081895336534324866 : ℚ) / 212207101440105399533740733471) (⟨⟨2427893228399975082453, 3928413764606871165730⟩, ⟨3928413764606871165730, 6356306993006846248183⟩⟩ : SState) = ((24157817 : ℚ) / 212207101440105399533740733471) by norm_num [testLow])
    (show testHigh ((131151201344081895336534324866 : ℚ) / 212207101440105399533740733471) (⟨⟨2427893228399975082453, 3928413764606871165730⟩, ⟨3928413764606871165730, 6356306993006846248183⟩⟩ : SState) = ((14930352 : ℚ) / 212207101440105399533740733471) by norm_num [testHigh])
    (by norm_num) (by norm_num) (by norm_num) (by norm_num)
    (ratTrunc_eq (by norm_num) (by norm_num) (by norm_num))
    (by rw [mkFrac_coprime (by norm_num) (by norm_num)]; norm_num)
    (by rw [mkFrac_coprime (by norm_num) (by norm_num)]; norm_num)

/-- Iteration 54 of the C4 counterexample run. -/
theorem c4run53 : step 170141183460469231731687303715884105727 ((131151201344081895336534324866 : ℚ) / 212207101440105399533740733471) (1/10^60) (⟨⟨6356306993006846248183, 10284720757613717413913⟩, ⟨10284720757613717413913, 16641027750620563662096⟩⟩ : SState) = .next (⟨⟨16641027750620563662096, 26925748508234281076009⟩, ⟨26925748508234281076009, 43566776258854844738105⟩⟩ : SState) :=
  step_eval_next2 1
    (show testLow ((131151201344081895336534324866 : ℚ) / 212207101440105399533740733471) (⟨⟨6356306993006846248183, 10284720757613717413913⟩, ⟨10284720757613717413913, 16641027750620563662096⟩⟩ : SState) = ((9227465 : ℚ) / 212207101440105399533740733471) by norm_num [testLow])
    (show testHigh ((131151201344081895336534324866 : ℚ) / 212207101440105399533740733471) (⟨⟨6356306993006846248183, 10284720757613717413913⟩, ⟨10284720757613717413913, 16641027750620563662096⟩⟩ : SState) = ((5702887 : ℚ) / 212207101440105399533740733471) by norm_num [testHigh])
    (by norm_num) (by norm_num) (by norm_num) (by norm_num)
    (ratTrunc_eq (by norm_num) (by norm_num) (by norm_num))
    (by rw [mkFrac_coprime (by norm_num) (by norm_num)]; norm_num)
    (by rw [mkFrac_coprime (by norm_num) (by norm_num)]; norm_num)

/-- Iteration 55 of the C4 counterexample run. -/
theorem c4run54 : step 170141183460469231731687303715884105727 ((131151201344081895336534324866 : ℚ) / 212207101440105399533740733471) (1/10^60) (⟨⟨16641027750620563662096, 26925748508234281076009⟩, ⟨26925748508234281076009, 43566776258854844738105⟩⟩ : SState) = .next (⟨⟨43566776258854844738105, 70492524767089125814114⟩, ⟨70492524767089125814114, 114059301025943970552219⟩⟩ : SState) :=
  step_eval_next2 1
    (show testLow ((131151201344081895336534324866 : ℚ) / 212207101440105399533740733471) (⟨⟨16641027750620563662096, 26925748508234281076009⟩, ⟨26925748508234281076009, 43566776258854844738105⟩⟩ : SState) = ((3524578 : ℚ) / 212207101440105399533740733471) by norm_num [testLow])
    (show testHigh ((131151201344081895336534324866 : ℚ) / 212207101440105399533740733471) (⟨⟨16641027750620563662096, 26925748508234281076009⟩, ⟨26925748508234281076009, 43566776258854844738105⟩⟩ : SState) = ((2178309 : ℚ) / 212207101440105399533740733471) by norm_num [testHigh])
    (by norm_num) (by norm_num) (by norm_num) (by norm_num)
    (ratTrunc_eq (by norm_num) (by norm_num) (by norm_num))
    (by rw [mkFrac_coprime (by norm_num) (by norm_num)]; norm_num)
    (by rw [mkFrac_coprime (by norm_num) (by norm_num)]; norm_num)

/-- Iteration 56 of the C4 counterexample run. -/
theorem c4run55 : step 170141183460469231731687303715884105727 ((131151201344081895336534324866 : ℚ) / 212207101440105399533740733471) (1/10^60) (⟨⟨43566776258854844738105, 70492524767089125814114⟩, ⟨70492524767089125814114, 114059301025943970552219⟩⟩ : SState) = .next (⟨⟨114059301025943970552219, 184551825793033096366333⟩, ⟨184551825793033096366333, 298611126818977066918552⟩⟩ : SState) :=
  step_eval_next2 1
    (show testLow ((131151201344081895336534324866 : ℚ) / 212207101440105399533740733471) (⟨⟨43566776258854844738105, 70492524767089125814114⟩, ⟨70492524767089125814114, 114059301025943970552219⟩⟩ : SState) = ((1346269 : ℚ) / 212207101440105399533740733471) by norm_num [testLow])
    (show testHigh ((131151201344081895336534324866 : ℚ) / 212207101440105399533740733471) (⟨⟨43566776258854844738105, 70492524767089125814114⟩, ⟨70492524767089125814114, 114059301025943970552219⟩⟩ : SState) = ((832040 : ℚ) / 212207101440105399533740733471) by norm_num [testHigh])
    (by norm_num) (by norm_num) (by norm_num) (by norm_num)
    (ratTrunc_eq (by norm_num) (by norm_num) (by norm_num))
    (by rw [mkFrac_coprime (by norm_num) (by norm_num)]; norm_num)
    (by rw [mkFrac_coprime (by norm_num) (by norm_num)]; norm_num)

/-- Iteration 57 of the C4 counterexample run. -/
theorem c4run56 : step 170141183460469231731687303715884105727 ((131151201344081895336534324866 : ℚ) / 212207101440105399533740733471) (1/10^60) (⟨⟨114059301025943970552219, 184551825793033096366333⟩, ⟨184551825793033096366333, 298611126818977066918552⟩⟩ : SState) = .next (⟨⟨298611126818977066918552, 483162952612010163284885⟩, ⟨483162952612010163284885, 781774079430987230203437⟩⟩ : SState) :=
  step_eval_next2 1
    (show testLow ((131151201344081895336534324866 : ℚ) / 212207101440105399533740733471) (⟨⟨114059301025943970552219, 184551825793033096366333⟩, ⟨184551825793033096366333, 298611126818977066918552⟩⟩ : SState) = ((514229 : ℚ) / 212207101440105399533740733471) by norm_num [testLow])
    (show testHigh ((131151201344081895336534324866 : ℚ) / 212207101440105399533740733471) (⟨⟨114059301025943970552219, 184551825793033096366333⟩, ⟨184551825793033096366333, 298611126818977066918552⟩⟩ : SState) = ((317811 : ℚ) / 212207101440105399533740733471) by norm_num [testHigh])
    (by norm_num) (by norm_num) (by norm_num) (by norm_num)
    (ratTrunc_eq (by norm_num) (by norm_num) (by norm_num))
    (by rw [mkFrac_coprime (by norm_num) (by norm_num)]; norm_num)
    (by rw [mkFrac_coprime (by norm_num) (by norm_num)]; norm_num)

/-- Iteration 58 of the C4 counterexample run. -/
theorem c4run57 : step 170141183460469231731687303715884105727 ((131151201344081895336534324866 : ℚ) / 212207101440105399533740733471) (1/10^60) (⟨⟨298611126818977066918552, 483162952612010163284885⟩, ⟨483162952612010163284885, 781774079430987230203437⟩⟩ : SState) = .next (⟨⟨781774079430987230203437, 1264937032042997393488322⟩, ⟨1264937032042997393488322, 2046711111473984623691759⟩⟩ : SState) :=
  step_eval_next2 1
    (show testLow ((131151201344081895336534324866 : ℚ) / 212207101440105399533740733471) (⟨⟨298611126818977066918552, 483162952612010163284885⟩, ⟨483162952612010163284885, 781774079430987230203437⟩⟩ : SState) = ((196418 : ℚ) / 212207101440105399533740733471) by norm_num [testLow])
    (show testHigh ((131151201344081895336534324866 : ℚ) / 212207101440105399533740733471) (⟨⟨298611126818977066918552, 483162952612010163284885⟩, ⟨483162952612010163284885, 781774079430987230203437⟩⟩ : SState) = ((121393 : ℚ) / 212207101440105399533740733471) by norm_num [testHigh])
    (by norm_num) (by norm_num) (by norm_num) (by norm_num)
    (ratTrunc_eq (by norm_num) (by norm_num) (by norm_num))
    (by rw [mkFrac_coprime (by norm_num) (by norm_num)]; norm_num)
    (by rw [mkFrac_coprime (by norm_num) (by norm_num)]; norm_num)

/-- Iteration 59 of the C4 counterexample run. -/
theorem c4run58 : step 170141183460469231731687303715884105727 ((131151201344081895336534324866 : ℚ) / 212207101440105399533740733471) (1/10^60) (⟨⟨781774079430987230203437, 1264937032042997393488322⟩, ⟨1264937032042997393488322, 2046711111473984623691759⟩⟩ : SState) = .next (⟨⟨2046711111473984623691759, 3311648143516982017180081⟩, ⟨3311648143516982017180081, 5358359254990966640871840⟩⟩ : SState) :=
  step_eval_next2 1
    (show testLow ((131151201344081895336534324866 : ℚ) / 212207101440105399533740733471) (⟨⟨781774079430987230203437, 1264937032042997393488322⟩, ⟨1264937032042997393488322, 2046711111473984623691759⟩⟩ : SState) = ((75025 : ℚ) / 212207101440105399533740733471) by norm_num [testLow])
    (show testHigh ((131151201344081895336534324866 : ℚ) / 212207101440105399533740733471) (⟨⟨781774079430987230203437, 1264937032042997393488322⟩, ⟨1264937032042997393488322, 2046711111473984623691759⟩⟩ : SState) = ((46368 : ℚ) / 212207101440105399533740733471) by norm_num [testHigh])
    (by norm_num) (by norm_num) (by norm_num) (by norm_num)
    (ratTrunc_eq (by norm_num) (by norm_num) (by norm_num))
    (by rw [mkFrac_coprime (by norm_num) (by norm_num)]; norm_num)
    (by rw [mkFrac_coprime (by norm_num) (by norm_num)]; norm_num)

/-- Iteration 60 of the C4 counterexample run. -/
theorem c4run59 : step 170141183460469231731687303715884105727 ((131151201344081895336534324866 : ℚ) / 212207101440105399533740733471) (1/10^60) (⟨⟨2046711111473984623691759, 3311648143516982017180081⟩, ⟨3311648143516982017180081, 5358359254990966640871840⟩⟩ : SState) = .next (⟨⟨5358359254990966640871840, 8670007398507948658051921⟩, ⟨8670007398507948658051921, 14028366653498915298923761⟩⟩ : SState) :=
  step_eval_next2 1
    (show testLow ((131151201344081895336534324866 : ℚ) / 212207101440105399533740733471) (⟨⟨2046711111473984623691759, 3311648143516982017180081⟩, ⟨3311648143516982017180081, 5358359254990966640871840⟩⟩ : SState) = ((28657 : ℚ) / 212207101440105399533740733471) by norm_num [testLow])
    (show testHigh ((131151201344081895336534324866 : ℚ) / 212207101440105399533740733471) (⟨⟨2046711111473984623691759, 3311648143516982017180081⟩, ⟨3311648143516982017180081, 5358359254990966640871840⟩⟩ : SState) = ((17711 : ℚ) / 212207101440105399533740733471) by norm_num [testHigh])
    (by norm_num) (by norm_num) (by norm_num) (by norm_num)
    (ratTrunc_eq (by norm_num) (by norm_num) (by norm_num))
    (by rw [mkFrac_coprime (by norm_num) (by norm_num)]; norm_num)
    (by rw [mkFrac_coprime (by norm_num) (by norm_num)]; norm_num)

/-- Iteration 61 of the C4 counterexample run. -/
theorem c4run60 : step 170141183460469231731687303715884105727 ((131151201344081895336534324866 : ℚ) / 212207101440105399533740733471) (1/10^60) (⟨⟨5358359254990966640871840, 8670007398507948658051921⟩, ⟨8670007398507948658051921, 14028366653498915298923761⟩⟩ : SState) = .next (⟨⟨14028366653498915298923761, 22698374052006863956975682⟩, ⟨22698374052006863956975682, 36726740705505779255899443⟩⟩ : SState) :=
  step_eval_next2 1
    (show testLow ((131151201344081895336534324866 : ℚ) / 212207101440105399533740733471) (⟨⟨5358359254990966640871840, 8670007398507948658051921⟩, ⟨8670007398507948658051921, 14028366653498915298923761⟩⟩ : SState) = ((10946 : ℚ) / 212207101440105399533740733471) by norm_num [testLow])
    (show testHigh ((131151201344081895336534324866 : ℚ) / 212207101440105399533740733471) (⟨⟨5358359254990966640871840, 8670007398507948658051921⟩, ⟨8670007398507948658051921, 14028366653498915298923761⟩⟩ : SState) = ((6765 : ℚ) / 212207101440105399533740733471) by norm_num [testHigh])
    (by norm_num) (by norm_num) (by norm_num) (by norm_num)
    (ratTrunc_eq (by norm_num) (by norm_num) (by norm_num))
    (by rw [mkFrac_coprime (by norm_num) (by norm_num)]; norm_num)
    (by rw [mkFrac_coprime (by norm_num) (by norm_num)]; norm_num)

/-- Iteration 62 of the C4 counterexample run. -/
theorem c4run61 : step 170141183460469231731687303715884105727 ((131151201344081895336534324866 : ℚ) / 212207101440105399533740733471) (1/10^60) (⟨⟨14028366653498915298923761, 22698374052006863956975682⟩, ⟨22698374052006863956975682, 36726740705505779255899443⟩⟩ : SState) = .next (⟨⟨36726740705505779255899443, 59425114757512643212875125⟩, ⟨59425114757512643212875125, 96151855463018422468774568⟩⟩ : SState) :=
  step_eval_next2 1
    (show testLow ((131151201344081895336534324866 : ℚ) / 212207101440105399533740733471) (⟨⟨14028366653498915298923761, 22698374052006863956975682⟩, ⟨22698374052006863956975682, 36726740705505779255899443⟩⟩ : SState) = ((4181 : ℚ) / 212207101440105399533740733471) by norm_num [testLow])
    (show testHigh ((131151201344081895336534324866 : ℚ) / 212207101440105399533740733471) (⟨⟨14028366653498915298923761, 22698374052006863956975682⟩, ⟨22698374052006863956975682, 36726740705505779255899443⟩⟩ : SState) = ((2584 : ℚ) / 212207101440105399533740733471) by norm_num [testHigh])
    (by norm_num) (by norm_num) (by norm_num) (by norm_num)
    (ratTrunc_eq (by norm_num) (by norm_num) (by norm_num))
    (by rw [mkFrac_coprime (by norm_num) (by norm_num)]; norm_num)
    (by rw [mkFrac_coprime (by norm_num) (by norm_num)]; norm_num)

/-- Iteration 63 of the C4 counterexample run. -/
theorem c4run62 : step 170141183460469231731687303715884105727 ((131151201344081895336534324866 : ℚ) / 212207101440105399533740733471) (1/10^60) (⟨⟨36726740705505779255899443, 59425114757512643212875125⟩, ⟨59425114757512643212875125, 96151855463018422468774568⟩⟩ : SState) = .next (⟨⟨96151855463018422468774568, 155576970220531065681649693⟩, ⟨155576970220531065681649693, 251728825683549488150424261⟩⟩ : SState) :=
  step_eval_next2 1
    (show testLow ((131151201344081895336534324866 : ℚ) / 212207101440105399533740733471) (⟨⟨36726740705505779255899443, 59425114757512643212875125⟩, ⟨59425114757512643212875125, 96151855463018422468774568⟩⟩ : SState) = ((1597 : ℚ) / 212207101440105399533740733471) by norm_num [testLow])
    (show testHigh ((131151201344081895336534324866 : ℚ) / 212207101440105399533740733471) (⟨⟨36726740705505779255899443, 59425114757512643212875125⟩, ⟨59425114757512643212875125, 96151855463018422468774568⟩⟩ : SState) = ((987 : ℚ) / 212207101440105399533740733471) by norm_num [testHigh])
    (by norm_num) (by norm_num) (by norm_num) (by norm_num)
    (ratTrunc_eq (by norm_num) (by norm_num) (by norm_num))
    (by rw [mkFrac_coprime (by norm_num) (by norm_num)]; norm_num)
    (by rw [mkFrac_coprime (by norm_num) (by norm_num)]; norm_num)

/-- Iteration 64 of the C4 counterexample run. -/
theorem c4run63 : step 170141183460469231731687303715884105727 ((131151201344081895336534324866 : ℚ) / 212207101440105399533740733471) (1/10^60) (⟨⟨96151855463018422468774568, 155576970220531065681649693⟩, ⟨155576970220531065681649693, 251728825683549488150424261⟩⟩ : SState) = .next (⟨⟨251728825683549488150424261, 407305795904080553832073954⟩, ⟨407305795904080553832073954, 659034621587630041982498215⟩⟩ : SState) :=
  step_eval_next2 1
    (show testLow ((131151201344081895336534324866 : ℚ) / 212207101440105399533740733471) (⟨⟨96151855463018422468774568, 155576970220531065681649693⟩, ⟨155576970220531065681649693, 251728825683549488150424261⟩⟩ : SState) = ((610 : ℚ) / 212207101440105399533740733471) by norm_num [testLow])
    (show testHigh ((131151201344081895336534324866 : ℚ) / 212207101440105399533740733471) (⟨⟨96151855463018422468774568, 155576970220531065681649693⟩, ⟨155576970220531065681649693, 251728825683549488150424261⟩⟩ : SState) = ((377 : ℚ) / 212207101440105399533740733471) by norm_num [testHigh])
    (by norm_num) (by norm_num) (by norm_num) (by norm_num)
    (ratTrunc_eq (by norm_num) (by norm_num) (by norm_num))
    (by rw [mkFrac_coprime (by norm_num) (by norm_num)]; norm_num)
    (by rw [mkFrac_coprime (by norm_num) (by norm_num)]; norm_num)

/-- Iteration 65 of the C4 counterexample run. -/
theorem c4run64 : step 170141183460469231731687303715884105727 ((131151201344081895336534324866 : ℚ) / 212207101440105399533740733471) (1/10^60) (⟨⟨251728825683549488150424261, 407305795904080553832073954⟩, ⟨407305795904080553832073954, 659034621587630041982498215⟩⟩ : SState) = .next (⟨⟨659034621587630041982498215, 1066340417491710595814572169⟩, ⟨1066340417491710595814572169, 1725375039079340637797070384⟩⟩ : SState) :=
  step_eval_next2 1
    (show testLow ((131151201344081895336534324866 : ℚ) / 212207101440105399533740733471) (⟨⟨251728825683549488150424261, 407305795904080553832073954⟩, ⟨407305795904080553832073954, 659034621587630041982498215⟩⟩ : SState) = ((233 : ℚ) / 212207101440105399533740733471) by norm_num [testLow])
    (show testHigh ((131151201344081895336534324866 : ℚ) / 212207101440105399533740733471) (⟨⟨251728825683549488150424261, 407305795904080553832073954⟩, ⟨407305795904080553832073954, 659034621587630041982498215⟩⟩ : SState) = ((144 : ℚ) / 212207101440105399533740733471) by norm_num [testHigh])
    (by norm_num) (by norm_num) (by norm_num) (by norm_num)
    (ratTrunc_eq (by norm_num) (by norm_num) (by norm_num))
    (by rw [mkFrac_coprime (by norm_num) (by norm_num)]; norm_num)
    (by rw [mkFrac_coprime (by norm_num) (by norm_num)]; norm_num)

/-- Iteration 66 of the C4 counterexample run. -/
theorem c4run65 : step 170141183460469231731687303715884105727 ((131151201344081895336534324866 : ℚ) / 212207101440105399533740733471) (1/10^60) (⟨⟨659034621587630041982498215, 1066340417491710595814572169⟩, ⟨1066340417491710595814572169, 1725375039079340637797070384⟩⟩ : SState) = .next (⟨⟨1725375039079340637797070384, 2791715456571051233611642553⟩, ⟨2791715456571051233611642553, 4517090495650391871408712937⟩⟩ : SState) :=
  step_eval_next2 1
    (show testLow ((131151201344081895336534324866 : ℚ) / 212207101440105399533740733471) (⟨⟨659034621587630041982498215, 1066340417491710595814572169⟩, ⟨1066340417491710595814572169, 1725375039079340637797070384⟩⟩ : SState) = ((89 : ℚ) / 212207101440105399533740733471) by norm_num [testLow])
    (show testHigh ((131151201344081895336534324866 : ℚ) / 212207101440105399533740733471) (⟨⟨659034621587630041982498215, 1066340417491710595814572169⟩, ⟨1066340417491710595814572169, 1725375039079340637797070384⟩⟩ : SState) = ((55 : ℚ) / 212207101440105399533740733471) by norm_num [testHigh])
    (by norm_num) (by norm_num) (by norm_num) (by norm_num)
    (ratTrunc_eq (by norm_num) (by norm_num) (by norm_num))
    (by rw [mkFrac_coprime (by norm_num) (by norm_num)]; norm_num)
    (by rw [mkFrac_coprime (by norm_num) (by norm_num)]; norm_num)

/-- Iteration 67 of the C4 counterexample run. -/
theorem c4run66 : step 170141183460469231731687303715884105727 ((131151201344081895336534324866 : ℚ) / 212207101440105399533740733471) (1/10^60) (⟨⟨1725375039079340637797070384, 2791715456571051233611642553⟩, ⟨2791715456571051233611642553, 4517090495650391871408712937⟩⟩ : SState) = .next (⟨⟨4517090495650391871408712937, 7308805952221443105020355490⟩, ⟨7308805952221443105020355490, 11825896447871834976429068427⟩⟩ : SState) :=
  step_eval_next2 1
    (show testLow ((131151201344081895336534324866 : ℚ) / 212207101440105399533740733471) (⟨⟨1725375039079340637797070384, 2791715456571051233611642553⟩, ⟨2791715456571051233611642553, 4517090495650391871408712937⟩⟩ : SState) = ((34 : ℚ) / 212207101440105399533740733471) by norm_num [testLow])
    (show testHigh ((131151201344081895336534324866 : ℚ) / 212207101440105399533740733471) (⟨⟨1725375039079340637797070384, 2791715456571051233611642553⟩, ⟨2791715456571051233611642553, 4517090495650391871408712937⟩⟩ : SState) = ((21 : ℚ) / 212207101440105399533740733471) by norm_num [testHigh])
    (by norm_num) (by norm_num) (by norm_num) (by norm_num)
    (ratTrunc_eq (by norm_num) (by norm_num) (by norm_num))
    (by rw [mkFrac_coprime (by norm_num) (by norm_num)]; norm_num)
    (by rw [mkFrac_coprime (by norm_num) (by norm_num)]; norm_num)

/-- Iteration 68 of the C4 counterexample run. -/
theorem c4run67 : step 170141183460469231731687303715884105727 ((131151201344081895336534324866 : ℚ) / 212207101440105399533740733471) (1/10^60) (⟨⟨4517090495650391871408712937, 7308805952221443105020355490⟩, ⟨7308805952221443105020355490, 11825896447871834976429068427⟩⟩ : SState) = .next (⟨⟨11825896447871834976429068427, 19134702400093278081449423917⟩, ⟨19134702400093278081449423917, 30960598847965113057878492344⟩⟩ : SState) :=
  step_eval_next2 1
    (show testLow ((131151201344081895336534324866 : ℚ) / 212207101440105399533740733471) (⟨⟨4517090495650391871408712937, 7308805952221443105020355490⟩, ⟨7308805952221443105020355490, 11825896447871834976429068427⟩⟩ : SState) = ((13 : ℚ) / 212207101440105399533740733471) by norm_num [testLow])
    (show testHigh ((131151201344081895336534324866 : ℚ) / 212207101440105399533740733471) (⟨⟨4517090495650391871408712937, 7308805952221443105020355490⟩, ⟨7308805952221443105020355490, 11825896447871834976429068427⟩⟩ : SState) = ((8 : ℚ) / 212207101440105399533740733471) by norm_num [testHigh])
    (by norm_num) (by norm_num) (by norm_num) (by norm_num)
    (ratTrunc_eq (by norm_num) (by norm_num) (by norm_num))
    (by rw [mkFrac_coprime (by norm_num) (by norm_num)]; norm_num)
    (by rw [mkFrac_coprime (by norm_num) (by norm_num)]; norm_num)

/-- Iteration 69 of the C4 counterexample run. -/
theorem c4run68 : step 170141183460469231731687303715884105727 ((131151201344081895336534324866 : ℚ) / 212207101440105399533740733471) (1/10^60) (⟨⟨11825896447871834976429068427, 19134702400093278081449423917⟩, ⟨19134702400093278081449423917, 30960598847965113057878492344⟩⟩ : SState) = .next (⟨⟨30960598847965113057878492344, 50095301248058391139327916261⟩, ⟨50095301248058391139327916261, 81055900096023504197206408605⟩⟩ : SState) :=
  step_eval_next2 1
    (show testLow ((131151201344081895336534324866 : ℚ) / 212207101440105399533740733471) (⟨⟨11825896447871834976429068427, 19134702400093278081449423917⟩, ⟨19134702400093278081449423917, 30960598847965113057878492344⟩⟩ : SState) = ((5 : ℚ) / 212207101440105399533740733471) by norm_num [testLow])
    (show testHigh ((131151201344081895336534324866 : ℚ) / 212207101440105399533740733471) (⟨⟨11825896447871834976429068427, 19134702400093278081449423917⟩, ⟨19134702400093278081449423917, 30960598847965113057878492344⟩⟩ : SState) = ((3 : ℚ) / 212207101440105399533740733471) by norm_num [testHigh])
    (by norm_num) (by norm_num) (by norm_num) (by norm_num)
    (ratTrunc_eq (by norm_num) (by norm_num) (by norm_num))
    (by rw [mkFrac_coprime (by norm_num) (by norm_num)]; norm_num)
    (by rw [mkFrac_coprime (by norm_num) (by norm_num)]; norm_num)

/-- Iteration 70 of the C4 counterexample run. -/
theorem c4run69 : step 170141183460469231731687303715884105727 ((131151201344081895336534324866 : ℚ) / 212207101440105399533740733471) (1/10^60) (⟨⟨30960598847965113057878492344, 50095301248058391139327916261⟩, ⟨50095301248058391139327916261, 81055900096023504197206408605⟩⟩ : SState) = .next (⟨⟨131151201344081895336534324866, 212207101440105399533740733471⟩, ⟨181246502592140286475862241127, 293263001536128903730947142076⟩⟩ : SState) :=
  step_eval_next2 2
    (show testLow ((131151201344081895336534324866 : ℚ) / 212207101440105399533740733471) (⟨⟨30960598847965113057878492344, 50095301248058391139327916261⟩, ⟨50095301248058391139327916261, 81055900096023504197206408605⟩⟩ : SState) = ((2 : ℚ) / 212207101440105399533740733471) by norm_num [testLow])
    (show testHigh ((131151201344081895336534324866 : ℚ) / 212207101440105399533740733471) (⟨⟨30960598847965113057878492344, 50095301248058391139327916261⟩, ⟨50095301248058391139327916261, 81055900096023504197206408605⟩⟩ : SState) = ((1 : ℚ) / 212207101440105399533740733471) by norm_num [testHigh])
    (by norm_num) (by norm_num) (by norm_num) (by norm_num)
    (ratTrunc_eq (by norm_num) (by norm_num) (by norm_num))
    (by rw [mkFrac_coprime (by norm_num) (by norm_num)]; norm_num)
    (by rw [mkFrac_coprime (by norm_num) (by norm_num)]; norm_num)

/-- Iteration 71 of the C4 counterexample run: the `testLow` exit fires
with `testLow = 0`, returning the exact input fraction. -/
theorem c4run70 : step 170141183460469231731687303715884105727 ((131151201344081895336534324866 : ℚ) / 212207101440105399533740733471) (1/10^60) (⟨⟨131151201344081895336534324866, 212207101440105399533740733471⟩, ⟨181246502592140286475862241127, 293263001536128903730947142076⟩⟩ : SState) =
    .done ⟨131151201344081895336534324866, 212207101440105399533740733471⟩ .converged :=
  step_eval_done_low
    (show testLow ((131151201344081895336534324866 : ℚ) / 212207101440105399533740733471) (⟨⟨131151201344081895336534324866, 212207101440105399533740733471⟩, ⟨181246502592140286475862241127, 293263001536128903730947142076⟩⟩ : SState) = (0 : ℚ) by norm_num [testLow])
    (show testHigh ((131151201344081895336534324866 : ℚ) / 212207101440105399533740733471) (⟨⟨131151201344081895336534324866, 212207101440105399533740733471⟩, ⟨181246502592140286475862241127, 293263001536128903730947142076⟩⟩ : SState) = ((1 : ℚ) / 212207101440105399533740733471) by norm_num [testHigh])
    (by norm_num) (by norm_num)

/-- Claim C4, counterexample: the loop at line 286 is `for (;;)` — the
code has no iteration cap.  With `W` a 128-bit signed width
(`maxV = 2^127 - 1`) and the value the Fibonacci ratio `F(141)/F(142)`
(the all-ones continued fraction, the slowest input for mediant descent)
at precision `10^-60`, the loop is still running after 64 iterations
(first conjunct: with fuel 64 the model reports the loop unfinished,
where a cap of 64 would have returned the then-current high bound), and
it converges only at iteration 71, returning the exact input fraction —
a different result from the iteration-64 high bound `155576970220531065681649693/251728825683549488150424261`. -/
theorem c4_counterexample :
    toFract 170141183460469231731687303715884105727 64 ((131151201344081895336534324866 : ℚ) / 212207101440105399533740733471) (1/10^60) = none ∧
    toFract 170141183460469231731687303715884105727 100 ((131151201344081895336534324866 : ℚ) / 212207101440105399533740733471) (1/10^60) =
      some (.ok ⟨131151201344081895336534324866, 212207101440105399533740733471⟩
        .converged) := by
  have k1 : stepN 170141183460469231731687303715884105727 ((131151201344081895336534324866 : ℚ) / 212207101440105399533740733471) (1/10^60) 1 (⟨⟨96151855463018422468774568, 155576970220531065681649693⟩, ⟨155576970220531065681649693, 251728825683549488150424261⟩⟩ : SState) = some (⟨⟨251728825683549488150424261, 407305795904080553832073954⟩, ⟨407305795904080553832073954, 659034621587630041982498215⟩⟩ : SState) :=
    stepN_succ_of_step c4run63 rfl
  have k2 : stepN 170141183460469231731687303715884105727 ((131151201344081895336534324866 : ℚ) / 212207101440105399533740733471) (1/10^60) 2 (⟨⟨36726740705505779255899443, 59425114757512643212875125⟩, ⟨59425114757512643212875125, 96151855463018422468774568⟩⟩ : SState) = some (⟨⟨251728825683549488150424261, 407305795904080553832073954⟩, ⟨407305795904080553832073954, 659034621587630041982498215⟩⟩ : SState) :=
    stepN_succ_of_step c4run62 k1
  have k3 : stepN 170141183460469231731687303715884105727 ((131151201344081895336534324866 : ℚ) / 212207101440105399533740733471) (1/10^60) 3 (⟨⟨14028366653498915298923761, 22698374052006863956975682⟩, ⟨22698374052006863956975682, 36726740705505779255899443⟩⟩ : SState) = some (⟨⟨251728825683549488150424261, 407305795904080553832073954⟩, ⟨407305795904080553832073954, 659034621587630041982498215⟩⟩ : SState) :=
    stepN_succ_of_step c4run61 k2
  have k4 : stepN 170141183460469231731687303715884105727 ((131151201344081895336534324866 : ℚ) / 212207101440105399533740733471) (1/10^60) 4 (⟨⟨5358359254990966640871840, 8670007398507948658051921⟩, ⟨8670007398507948658051921, 14028366653498915298923761⟩⟩ : SState) = some (⟨⟨251728825683549488150424261, 407305795904080553832073954⟩, ⟨407305795904080553832073954, 659034621587630041982498215⟩⟩ : SState) :=
    stepN_succ_of_step c4run60 k3
  have k5 : stepN 170141183460469231731687303715884105727 ((131151201344081895336534324866 : ℚ) / 212207101440105399533740733471) (1/10^60) 5 (⟨⟨2046711111473984623691759, 3311648143516982017180081⟩, ⟨3311648143516982017180081, 5358359254990966640871840⟩⟩ : SState) = some (⟨⟨251728825683549488150424261, 407305795904080553832073954⟩, ⟨407305795904080553832073954, 659034621587630041982498215⟩⟩ : SState) :=
    stepN_succ_of_step c4run59 k4
  have k6 : stepN 170141183460469231731687303715884105727 ((131151201344081895336534324866 : ℚ) / 212207101440105399533740733471) (1/10^60) 6 (⟨⟨781774079430987230203437, 1264937032042997393488322⟩, ⟨1264937032042997393488322, 2046711111473984623691759⟩⟩ : SState) = some (⟨⟨251728825683549488150424261, 407305795904080553832073954⟩, ⟨407305795904080553832073954, 659034621587630041982498215⟩⟩ : SState) :=
    stepN_succ_of_step c4run58 k5
  have k7 : stepN 170141183460469231731687303715884105727 ((131151201344081895336534324866 : ℚ) / 212207101440105399533740733471) (1/10^60) 7 (⟨⟨298611126818977066918552, 483162952612010163284885⟩, ⟨483162952612010163284885, 781774079430987230203437⟩⟩ : SState) = some (⟨⟨251728825683549488150424261, 407305795904080553832073954⟩, ⟨407305795904080553832073954, 659034621587630041982498215⟩⟩ : SState) :=
    stepN_succ_of_step c4run57 k6
  have k8 : stepN 170141183460469231731687303715884105727 ((131151201344081895336534324866 : ℚ) / 212207101440105399533740733471) (1/10^60) 8 (⟨⟨114059301025943970552219, 184551825793033096366333⟩, ⟨184551825793033096366333, 298611126818977066918552⟩⟩ : SState) = some (⟨⟨251728825683549488150424261, 407305795904080553832073954⟩, ⟨407305795904080553832073954, 659034621587630041982498215⟩⟩ : SState) :=
    stepN_succ_of_step c4run56 k7
  have k9 : stepN 170141183460469231731687303715884105727 ((131151201344081895336534324866 : ℚ) / 212207101440105399533740733471) (1/10^60) 9 (⟨⟨43566776258854844738105, 70492524767089125814114⟩, ⟨70492524767089125814114, 114059301025943970552219⟩⟩ : SState) = some (⟨⟨251728825683549488150424261, 407305795904080553832073954⟩, ⟨407305795904080553832073954, 659034621587630041982498215⟩⟩ : SState) :=
    stepN_succ_of_step c4run55 k8
  have k10 : stepN 170141183460469231731687303715884105727 ((131151201344081895336534324866 : ℚ) / 212207101440105399533740733471) (1/10^60) 10 (⟨⟨16641027750620563662096, 26925748508234281076009⟩, ⟨26925748508234281076009, 43566776258854844738105⟩⟩ : SState) = some (⟨⟨251728825683549488150424261, 407305795904080553832073954⟩, ⟨407305795904080553832073954, 659034621587630041982498215⟩⟩ : SState) :=
    stepN_succ_of_step c4run54 k9
  have k11 : stepN 170141183460469231731687303715884105727 ((131151201344081895336534324866 : ℚ) / 212207101440105399533740733471) (1/10^60) 11 (⟨⟨6356306993006846248183, 10284720757613717413913⟩, ⟨10284720757613717413913, 16641027750620563662096⟩⟩ : SState) = some (⟨⟨251728825683549488150424261, 407305795904080553832073954⟩, ⟨407305795904080553832073954, 659034621587630041982498215⟩⟩ : SState) :=
    stepN_succ_of_step c4run53 k10
  have k12 : stepN 170141183460469231731687303715884105727 ((131151201344081895336534324866 : ℚ) / 212207101440105399533740733471) (1/10^60) 12 (⟨⟨2427893228399975082453, 3928413764606871165730⟩, ⟨3928413764606871165730, 6356306993006846248183⟩⟩ : SState) = some (⟨⟨251728825683549488150424261, 407305795904080553832073954⟩, ⟨407305795904080553832073954, 659034621587630041982498215⟩⟩ : SState) :=
    stepN_succ_of_step c4run52 k11
  have k13 : stepN 170141183460469231731687303715884105727 ((131151201344081895336534324866 : ℚ) / 212207101440105399533740733471) (1/10^60) 13 (⟨⟨927372692193078999176, 1500520536206896083277⟩, ⟨1500520536206896083277, 2427893228399975082453⟩⟩ : SState) = some (⟨⟨251728825683549488150424261, 407305795904080553832073954⟩, ⟨407305795904080553832073954, 659034621587630041982498215⟩⟩ : SState) :=
    stepN_succ_of_step c4run51 k12
  have k14 : stepN 170141183460469231731687303715884105727 ((131151201344081895336534324866 : ℚ) / 212207101440105399533740733471) (1/10^60) 14 (⟨⟨354224848179261915075, 573147844013817084101⟩, ⟨573147844013817084101, 927372692193078999176⟩⟩ : SState) = some (⟨⟨251728825683549488150424261, 407305795904080553832073954⟩, ⟨407305795904080553832073954, 659034621587630041982498215⟩⟩ : SState) :=
    stepN_succ_of_step c4run50 k13
  have k15 : stepN 170141183460469231731687303715884105727 ((131151201344081895336534324866 : ℚ) / 212207101440105399533740733471) (1/10^60) 15 (⟨⟨135301852344706746049, 218922995834555169026⟩, ⟨218922995834555169026, 354224848179261915075⟩⟩ : SState) = some (⟨⟨251728825683549488150424261, 407305795904080553832073954⟩, ⟨407305795904080553832073954, 659034621587630041982498215⟩⟩ : SState) :=
    stepN_succ_of_step c4run49 k14
  have k16 : stepN 170141183460469231731687303715884105727 ((131151201344081895336534324866 : ℚ) / 212207101440105399533740733471) (1/10^60) 16 (⟨⟨51680708854858323072, 83621143489848422977⟩, ⟨83621143489848422977, 135301852344706746049⟩⟩ : SState) = some (⟨⟨251728825683549488150424261, 407305795904080553832073954⟩, ⟨407305795904080553832073954, 659034621587630041982498215⟩⟩ : SState) :=
    stepN_succ_of_step c4run48 k15
  have k17 : stepN 170141183460469231731687303715884105727 ((131151201344081895336534324866 : ℚ) / 212207101440105399533740733471) (1/10^60) 17 (⟨⟨19740274219868223167, 31940434634990099905⟩, ⟨31940434634990099905, 51680708854858323072⟩⟩ : SState) = some (⟨⟨251728825683549488150424261, 407305795904080553832073954⟩, ⟨407305795904080553832073954, 659034621587630041982498215⟩⟩ : SState) :=
    stepN_succ_of_step c4run47 k16
  have k18 : stepN 170141183460469231731687303715884105727 ((131151201344081895336534324866 : ℚ) / 212207101440105399533740733471) (1/10^60) 18 (⟨⟨7540113804746346429, 12200160415121876738⟩, ⟨12200160415121876738, 19740274219868223167⟩⟩ : SState) = some (⟨⟨251728825683549488150424261, 407305795904080553832073954⟩, ⟨407305795904080553832073954, 659034621587630041982498215⟩⟩ : SState) :=
    stepN_succ_of_step c4run46 k17
  have k19 : stepN 170141183460469231731687303715884105727 ((131151201344081895336534324866 : ℚ) / 212207101440105399533740733471) (1/10^60) 19 (⟨⟨2880067194370816120, 4660046610375530309⟩, ⟨4660046610375530309, 7540113804746346429⟩⟩ : SState) = some (⟨⟨251728825683549488150424261, 407305795904080553832073954⟩, ⟨407305795904080553832073954, 659034621587630041982498215⟩⟩ : SState) :=
    stepN_succ_of_step c4run45 k18
  have k20 : stepN 170141183460469231731687303715884105727 ((131151201344081895336534324866 : ℚ) / 212207101440105399533740733471) (1/10^60) 20 (⟨⟨1100087778366101931, 1779979416004714189⟩, ⟨1779979416004714189, 2880067194370816120⟩⟩ : SState) = some (⟨⟨251728825683549488150424261, 407305795904080553832073954⟩, ⟨407305795904080553832073954, 659034621587630041982498215⟩⟩ : SState) :=
    stepN_succ_of_step c4run44 k19
  have k21 : stepN 170141183460469231731687303715884105727 ((131151201344081895336534324866 : ℚ) / 212207101440105399533740733471) (1/10^60) 21 (⟨⟨420196140727489673, 679891637638612258⟩, ⟨679891637638612258, 1100087778366101931⟩⟩ : SState) = some (⟨⟨251728825683549488150424261, 407305795904080553832073954⟩, ⟨407305795904080553832073954, 659034621587630041982498215⟩⟩ : SState) :=
    stepN_succ_of_step c4run43 k20
  have k22 : stepN 170141183460469231731687303715884105727 ((131151201344081895336534324866 : ℚ) / 212207101440105399533740733471) (1/10^60) 22 (⟨⟨160500643816367088, 259695496911122585⟩, ⟨259695496911122585, 420196140727489673⟩⟩ : SState) = some (⟨⟨251728825683549488150424261, 407305795904080553832073954⟩, ⟨407305795904080553832073954, 659034621587630041982498215⟩⟩ : SState) :=
    stepN_succ_of_step c4run42 k21
  have k23 : stepN 170141183460469231731687303715884105727 ((131151201344081895336534324866 : ℚ) / 212207101440105399533740733471) (1/10^60) 23 (⟨⟨61305790721611591, 99194853094755497⟩, ⟨99194853094755497, 160500643816367088⟩⟩ : SState) = some (⟨⟨251728825683549488150424261, 407305795904080553832073954⟩, ⟨407305795904080553832073954, 659034621587630041982498215⟩⟩ : SState) :=
    stepN_succ_of_step c4run41 k22
  have k24 : stepN 170141183460469231731687303715884105727 ((131151201344081895336534324866 : ℚ) / 212207101440105399533740733471) (1/10^60) 24 (⟨⟨23416728348467685, 37889062373143906⟩, ⟨37889062373143906, 61305790721611591⟩⟩ : SState) = some (⟨⟨251728825683549488150424261, 407305795904080553832073954⟩, ⟨407305795904080553832073954, 659034621587630041982498215⟩⟩ : SState) :=
    stepN_succ_of_step c4run40 k23
  have k25 : stepN 170141183460469231731687303715884105727 ((131151201344081895336534324866 : ℚ) / 212207101440105399533740733471) (1/10^60) 25 (⟨⟨8944394323791464, 14472334024676221⟩, ⟨14472334024676221, 23416728348467685⟩⟩ : SState) = some (⟨⟨251728825683549488150424261, 407305795904080553832073954⟩, ⟨407305795904080553832073954, 659034621587630041982498215⟩⟩ : SState) :=
    stepN_succ_of_step c4run39 k24
  have k26 : stepN 170141183460469231731687303715884105727 ((131151201344081895336534324866 : ℚ) / 212207101440105399533740733471) (1/10^60) 26 (⟨⟨3416454622906707, 5527939700884757⟩, ⟨5527939700884757, 8944394323791464⟩⟩ : SState) = some (⟨⟨251728825683549488150424261, 407305795904080553832073954⟩, ⟨407305795904080553832073954, 659034621587630041982498215⟩⟩ : SState) :=
    stepN_succ_of_step c4run38 k25
  have k27 : stepN 170141183460469231731687303715884105727 ((131151201344081895336534324866 : ℚ) / 212207101440105399533740733471) (1/10^60) 27 (⟨⟨1304969544928657, 2111485077978050⟩, ⟨2111485077978050, 3416454622906707⟩⟩ : SState) = some (⟨⟨251728825683549488150424261, 407305795904080553832073954⟩, ⟨407305795904080553832073954, 659034621587630041982498215⟩⟩ : SState) :=
    stepN_succ_of_step c4run37 k26
  have k28 : stepN 170141183460469231731687303715884105727 ((131151201344081895336534324866 : ℚ) / 212207101440105399533740733471) (1/10^60) 28 (⟨⟨498454011879264, 806515533049393⟩, ⟨806515533049393, 1304969544928657⟩⟩ : SState) = some (⟨⟨251728825683549488150424261, 407305795904080553832073954⟩, ⟨407305795904080553832073954, 659034621587630041982498215⟩⟩ : SState) :=
    stepN_succ_of_step c4run36 k27
  have k29 : stepN 170141183460469231731687303715884105727 ((131151201344081895336534324866 : ℚ) / 212207101440105399533740733471) (1/10^60) 29 (⟨⟨190392490709135, 308061521170129⟩, ⟨308061521170129, 498454011879264⟩⟩ : SState) = some (⟨⟨251728825683549488150424261, 407305795904080553832073954⟩, ⟨407305795904080553832073954, 659034621587630041982498215⟩⟩ : SState) :=
    stepN_succ_of_step c4run35 k28
  have k30 : stepN 170141183460469231731687303715884105727 ((131151201344081895336534324866 : ℚ) / 212207101440105399533740733471) (1/10^60) 30 (⟨⟨72723460248141, 117669030460994⟩, ⟨117669030460994, 190392490709135⟩⟩ : SState) = some (⟨⟨251728825683549488150424261, 407305795904080553832073954⟩, ⟨407305795904080553832073954, 659034621587630041982498215⟩⟩ : SState) :=
    stepN_succ_of_step c4run34 k29
  have k31 : stepN 170141183460469231731687303715884105727 ((131151201344081895336534324866 : ℚ) / 212207101440105399533740733471) (1/10^60) 31 (⟨⟨27777890035288, 44945570212853⟩, ⟨44945570212853, 72723460248141⟩⟩ : SState) = some (⟨⟨251728825683549488150424261, 407305795904080553832073954⟩, ⟨407305795904080553832073954, 659034621587630041982498215⟩⟩ : SState) :=
    stepN_succ_of_step c4run33 k30
  have k32 : stepN 170141183460469231731687303715884105727 ((131151201344081895336534324866 : ℚ) / 212207101440105399533740733471) (1/10^60) 32 (⟨⟨10610209857723, 17167680177565⟩, ⟨17167680177565, 27777890035288⟩⟩ : SState) = some (⟨⟨251728825683549488150424261, 407305795904080553832073954⟩, ⟨407305795904080553832073954, 659034621587630041982498215⟩⟩ : SState) :=
    stepN_succ_of_step c4run32 k31
  have k33 : stepN 170141183460469231731687303715884105727 ((131151201344081895336534324866 : ℚ) / 212207101440105399533740733471) (1/10^60) 33 (⟨⟨4052739537881, 6557470319842⟩, ⟨6557470319842, 10610209857723⟩⟩ : SState) = some (⟨⟨251728825683549488150424261, 407305795904080553832073954⟩, ⟨407305795904080553832073954, 659034621587630041982498215⟩⟩ : SState) :=
    stepN_succ_of_step c4run31 k32
  have k34 : stepN 170141183460469231731687303715884105727 ((131151201344081895336534324866 : ℚ) / 212207101440105399533740733471) (1/10^60) 34 (⟨⟨1548008755920, 2504730781961⟩, ⟨2504730781961, 4052739537881⟩⟩ : SState) = some (⟨⟨251728825683549488150424261, 407305795904080553832073954⟩, ⟨407305795904080553832073954, 659034621587630041982498215⟩⟩ : SState) :=
    stepN_succ_of_step c4run30 k33
  have k35 : stepN 170141183460469231731687303715884105727 ((131151201344081895336534324866 : ℚ) / 212207101440105399533740733471) (1/10^60) 35 (⟨⟨591286729879, 956722026041⟩, ⟨956722026041, 1548008755920⟩⟩ : SState) = some (⟨⟨251728825683549488150424261, 407305795904080553832073954⟩, ⟨407305795904080553832073954, 659034621587630041982498215⟩⟩ : SState) :=
    stepN_succ_of_step c4run29 k34
  have k36 : stepN 170141183460469231731687303715884105727 ((131151201344081895336534324866 : ℚ) / 212207101440105399533740733471) (1/10^60) 36 (⟨⟨225851433717, 365435296162⟩, ⟨365435296162, 591286729879⟩⟩ : SState) = some (⟨⟨251728825683549488150424261, 407305795904080553832073954⟩, ⟨407305795904080553832073954, 659034621587630041982498215⟩⟩ : SState) :=
    stepN_succ_of_step c4run28 k35
  have k37 : stepN 170141183460469231731687303715884105727 ((131151201344081895336534324866 : ℚ) / 212207101440105399533740733471) (1/10^60) 37 (⟨⟨86267571272, 139583862445⟩, ⟨139583862445, 225851433717⟩⟩ : SState) = some (⟨⟨251728825683549488150424261, 407305795904080553832073954⟩, ⟨407305795904080553832073954, 659034621587630041982498215⟩⟩ : SState) :=
    stepN_succ_of_step c4run27 k36
  have k38 : stepN 170141183460469231731687303715884105727 ((131151201344081895336534324866 : ℚ) / 212207101440105399533740733471) (1/10^60) 38 (⟨⟨32951280099, 53316291173⟩, ⟨53316291173, 86267571272⟩⟩ : SState) = some (⟨⟨251728825683549488150424261, 407305795904080553832073954⟩, ⟨407305795904080553832073954, 659034621587630041982498215⟩⟩ : SState) :=
    stepN_succ_of_step c4run26 k37
  have k39 : stepN 170141183460469231731687303715884105727 ((131151201344081895336534324866 : ℚ) / 212207101440105399533740733471) (1/10^60) 39 (⟨⟨12586269025, 20365011074⟩, ⟨20365011074, 32951280099⟩⟩ : SState) = some (⟨⟨251728825683549488150424261, 407305795904080553832073954⟩, ⟨407305795904080553832073954, 659034621587630041982498215⟩⟩ : SState) :=
    stepN_succ_of_step c4run25 k38
  have k40 : stepN 170141183460469231731687303715884105727 ((131151201344081895336534324866 : ℚ) / 212207101440105399533740733471) (1/10^60) 40 (⟨⟨4807526976, 7778742049⟩, ⟨7778742049, 12586269025⟩⟩ : SState) = some (⟨⟨251728825683549488150424261, 407305795904080553832073954⟩, ⟨407305795904080553832073954, 659034621587630041982498215⟩⟩ : SState) :=
    stepN_succ_of_step c4run24 k39
  have k41 : stepN 170141183460469231731687303715884105727 ((131151201344081895336534324866 : ℚ) / 212207101440105399533740733471) (1/10^60) 41 (⟨⟨1836311903, 2971215073⟩, ⟨2971215073, 4807526976⟩⟩ : SState) = some (⟨⟨251728825683549488150424261, 407305795904080553832073954⟩, ⟨407305795904080553832073954, 659034621587630041982498215⟩⟩ : SState) :=
    stepN_succ_of_step c4run23 k40
  have k42 : stepN 170141183460469231731687303715884105727 ((131151201344081895336534324866 : ℚ) / 212207101440105399533740733471) (1/10^60) 42 (⟨⟨701408733, 1134903170⟩, ⟨1134903170, 1836311903⟩⟩ : SState) = some (⟨⟨251728825683549488150424261, 407305795904080553832073954⟩, ⟨407305795904080553832073954, 659034621587630041982498215⟩⟩ : SState) :=
    stepN_succ_of_step c4run22 k41
  have k43 : stepN 170141183460469231731687303715884105727 ((131151201344081895336534324866 : ℚ) / 212207101440105399533740733471) (1/10^60) 43 (⟨⟨267914296, 433494437⟩, ⟨433494437, 701408733⟩⟩ : SState) = some (⟨⟨251728825683549488150424261, 407305795904080553832073954⟩, ⟨407305795904080553832073954, 659034621587630041982498215⟩⟩ : SState) :=
    stepN_succ_of_step c4run21 k42
  have k44 : stepN 170141183460469231731687303715884105727 ((131151201344081895336534324866 : ℚ) / 212207101440105399533740733471) (1/10^60) 44 (⟨⟨102334155, 165580141⟩, ⟨165580141, 267914296⟩⟩ : SState) = some (⟨⟨251728825683549488150424261, 407305795904080553832073954⟩, ⟨407305795904080553832073954, 659034621587630041982498215⟩⟩ : SState) :=
    stepN_succ_of_step c4run20 k43
  have k45 : stepN 170141183460469231731687303715884105727 ((131151201344081895336534324866 : ℚ) / 212207101440105399533740733471) (1/10^60) 45 (⟨⟨39088169, 63245986⟩, ⟨63245986, 102334155⟩⟩ : SState) = some (⟨⟨251728825683549488150424261, 407305795904080553832073954⟩, ⟨407305795904080553832073954, 659034621587630041982498215⟩⟩ : SState) :=
    stepN_succ_of_step c4run19 k44
  have k46 : stepN 170141183460469231731687303715884105727 ((131151201344081895336534324866 : ℚ) / 212207101440105399533740733471) (1/10^60) 46 (⟨⟨14930352, 24157817⟩, ⟨24157817, 39088169⟩⟩ : SState) = some (⟨⟨251728825683549488150424261, 407305795904080553832073954⟩, ⟨407305795904080553832073954, 659034621587630041982498215⟩⟩ : SState) :=
    stepN_succ_of_step c4run18 k45
  have k47 : stepN 170141183460469231731687303715884105727 ((131151201344081895336534324866 : ℚ) / 212207101440105399533740733471) (1/10^60) 47 (⟨⟨5702887, 9227465⟩, ⟨9227465, 14930352⟩⟩ : SState) = some (⟨⟨251728825683549488150424261, 407305795904080553832073954⟩, ⟨407305795904080553832073954, 659034621587630041982498215⟩⟩ : SState) :=
    stepN_succ_of_step c4run17 k46
  have k48 : stepN 170141183460469231731687303715884105727 ((131151201344081895336534324866 : ℚ) / 212207101440105399533740733471) (1/10^60) 48 (⟨⟨2178309, 3524578⟩, ⟨3524578, 5702887⟩⟩ : SState) = some (⟨⟨251728825683549488150424261, 407305795904080553832073954⟩, ⟨407305795904080553832073954, 659034621587630041982498215⟩⟩ : SState) :=
    stepN_succ_of_step c4run16 k47
  have k49 : stepN 170141183460469231731687303715884105727 ((131151201344081895336534324866 : ℚ) / 212207101440105399533740733471) (1/10^60) 49 (⟨⟨832040, 1346269⟩, ⟨1346269, 2178309⟩⟩ : SState) = some (⟨⟨251728825683549488150424261, 407305795904080553832073954⟩, ⟨407305795904080553832073954, 659034621587630041982498215⟩⟩ : SState) :=
    stepN_succ_of_step c4run15 k48
  have k50 : stepN 170141183460469231731687303715884105727 ((131151201344081895336534324866 : ℚ) / 212207101440105399533740733471) (1/10^60) 50 (⟨⟨317811, 514229⟩, ⟨514229, 832040⟩⟩ : SState) = some (⟨⟨251728825683549488150424261, 407305795904080553832073954⟩, ⟨407305795904080553832073954, 659034621587630041982498215⟩⟩ : SState) :=
    stepN_succ_of_step c4run14 k49
  have k51 : stepN 170141183460469231731687303715884105727 ((131151201344081895336534324866 : ℚ) / 212207101440105399533740733471) (1/10^60) 51 (⟨⟨121393, 196418⟩, ⟨196418, 317811⟩⟩ : SState) = some (⟨⟨251728825683549488150424261, 407305795904080553832073954⟩, ⟨407305795904080553832073954, 659034621587630041982498215⟩⟩ : SState) :=
    stepN_succ_of_step c4run13 k50
  have k52 : stepN 170141183460469231731687303715884105727 ((131151201344081895336534324866 : ℚ) / 212207101440105399533740733471) (1/10^60) 52 (⟨⟨46368, 75025⟩, ⟨75025, 121393⟩⟩ : SState) = some (⟨⟨251728825683549488150424261, 407305795904080553832073954⟩, ⟨407305795904080553832073954, 659034621587630041982498215⟩⟩ : SState) :=
    stepN_succ_of_step c4run12 k51
  have k53 : stepN 170141183460469231731687303715884105727 ((131151201344081895336534324866 : ℚ) / 212207101440105399533740733471) (1/10^60) 53 (⟨⟨17711, 28657⟩, ⟨28657, 46368⟩⟩ : SState) = some (⟨⟨251728825683549488150424261, 407305795904080553832073954⟩, ⟨407305795904080553832073954, 659034621587630041982498215⟩⟩ : SState) :=
    stepN_succ_of_step c4run11 k52
  have k54 : stepN 170141183460469231731687303715884105727 ((131151201344081895336534324866 : ℚ) / 212207101440105399533740733471) (1/10^60) 54 (⟨⟨6765, 10946⟩, ⟨10946, 17711⟩⟩ : SState) = some (⟨⟨251728825683549488150424261, 407305795904080553832073954⟩, ⟨407305795904080553832073954, 659034621587630041982498215⟩⟩ : SState) :=
    stepN_succ_of_step c4run10 k53
  have k55 : stepN 170141183460469231731687303715884105727 ((131151201344081895336534324866 : ℚ) / 212207101440105399533740733471) (1/10^60) 55 (⟨⟨2584, 4181⟩, ⟨4181, 6765⟩⟩ : SState) = some (⟨⟨251728825683549488150424261, 407305795904080553832073954⟩, ⟨407305795904080553832073954, 659034621587630041982498215⟩⟩ : SState) :=
    stepN_succ_of_step c4run9 k54
  have k56 : stepN 170141183460469231731687303715884105727 ((131151201344081895336534324866 : ℚ) / 212207101440105399533740733471) (1/10^60) 56 (⟨⟨987, 1597⟩, ⟨1597, 2584⟩⟩ : SState) = some (⟨⟨251728825683549488150424261, 407305795904080553832073954⟩, ⟨407305795904080553832073954, 659034621587630041982498215⟩⟩ : SState) :=
    stepN_succ_of_step c4run8 k55
  have k57 : stepN 170141183460469231731687303715884105727 ((131151201344081895336534324866 : ℚ) / 212207101440105399533740733471) (1/10^60) 57 (⟨⟨377, 610⟩, ⟨610, 987⟩⟩ : SState) = some (⟨⟨251728825683549488150424261, 407305795904080553832073954⟩, ⟨407305795904080553832073954, 659034621587630041982498215⟩⟩ : SState) :=
    stepN_succ_of_step c4run7 k56
  have k58 : stepN 170141183460469231731687303715884105727 ((131151201344081895336534324866 : ℚ) / 212207101440105399533740733471) (1/10^60) 58 (⟨⟨144, 233⟩, ⟨233, 377⟩⟩ : SState) = some (⟨⟨251728825683549488150424261, 407305795904080553832073954⟩, ⟨407305795904080553832073954, 659034621587630041982498215⟩⟩ : SState) :=
    stepN_succ_of_step c4run6 k57
  have k59 : stepN 170141183460469231731687303715884105727 ((131151201344081895336534324866 : ℚ) / 212207101440105399533740733471) (1/10^60) 59 (⟨⟨55, 89⟩, ⟨89, 144⟩⟩ : SState) = some (⟨⟨251728825683549488150424261, 407305795904080553832073954⟩, ⟨407305795904080553832073954, 659034621587630041982498215⟩⟩ : SState) :=
    stepN_succ_of_step c4run5 k58
  have k60 : stepN 170141183460469231731687303715884105727 ((131151201344081895336534324866 : ℚ) / 212207101440105399533740733471) (1/10^60) 60 (⟨⟨21, 34⟩, ⟨34, 55⟩⟩ : SState) = some (⟨⟨251728825683549488150424261, 407305795904080553832073954⟩, ⟨407305795904080553832073954, 659034621587630041982498215⟩⟩ : SState) :=
    stepN_succ_of_step c4run4 k59
  have k61 : stepN 170141183460469231731687303715884105727 ((131151201344081895336534324866 : ℚ) / 212207101440105399533740733471) (1/10^60) 61 (⟨⟨8, 13⟩, ⟨13, 21⟩⟩ : SState) = some (⟨⟨251728825683549488150424261, 407305795904080553832073954⟩, ⟨407305795904080553832073954, 659034621587630041982498215⟩⟩ : SState) :=
    stepN_succ_of_step c4run3 k60
  have k62 : stepN 170141183460469231731687303715884105727 ((131151201344081895336534324866 : ℚ) / 212207101440105399533740733471) (1/10^60) 62 (⟨⟨3, 5⟩, ⟨5, 8⟩⟩ : SState) = some (⟨⟨251728825683549488150424261, 407305795904080553832073954⟩, ⟨407305795904080553832073954, 659034621587630041982498215⟩⟩ : SState) :=
    stepN_succ_of_step c4run2 k61
  have k63 : stepN 170141183460469231731687303715884105727 ((131151201344081895336534324866 : ℚ) / 212207101440105399533740733471) (1/10^60) 63 (⟨⟨1, 2⟩, ⟨2, 3⟩⟩ : SState) = some (⟨⟨251728825683549488150424261, 407305795904080553832073954⟩, ⟨407305795904080553832073954, 659034621587630041982498215⟩⟩ : SState) :=
    stepN_succ_of_step c4run1 k62
  have k64 : stepN 170141183460469231731687303715884105727 ((131151201344081895336534324866 : ℚ) / 212207101440105399533740733471) (1/10^60) 64 (⟨⟨0, 1⟩, ⟨1, 1⟩⟩ : SState) = some (⟨⟨251728825683549488150424261, 407305795904080553832073954⟩, ⟨407305795904080553832073954, 659034621587630041982498215⟩⟩ : SState) :=
    stepN_succ_of_step c4run0 k63
  have c64 : stepN 170141183460469231731687303715884105727 ((131151201344081895336534324866 : ℚ) / 212207101440105399533740733471) (1/10^60) 64 initState = some (⟨⟨251728825683549488150424261, 407305795904080553832073954⟩, ⟨407305795904080553832073954, 659034621587630041982498215⟩⟩ : SState) := k64
  have m1 : stepN 170141183460469231731687303715884105727 ((131151201344081895336534324866 : ℚ) / 212207101440105399533740733471) (1/10^60) 1 (⟨⟨30960598847965113057878492344, 50095301248058391139327916261⟩, ⟨50095301248058391139327916261, 81055900096023504197206408605⟩⟩ : SState) = some (⟨⟨131151201344081895336534324866, 212207101440105399533740733471⟩, ⟨181246502592140286475862241127, 293263001536128903730947142076⟩⟩ : SState) :=
    stepN_succ_of_step c4run69 rfl
  have m2 : stepN 170141183460469231731687303715884105727 ((131151201344081895336534324866 : ℚ) / 212207101440105399533740733471) (1/10^60) 2 (⟨⟨11825896447871834976429068427, 19134702400093278081449423917⟩, ⟨19134702400093278081449423917, 30960598847965113057878492344⟩⟩ : SState) = some (⟨⟨131151201344081895336534324866, 212207101440105399533740733471⟩, ⟨181246502592140286475862241127, 293263001536128903730947142076⟩⟩ : SState) :=
    stepN_succ_of_step c4run68 m1
  have m3 : stepN 170141183460469231731687303715884105727 ((131151201344081895336534324866 : ℚ) / 212207101440105399533740733471) (1/10^60) 3 (⟨⟨4517090495650391871408712937, 7308805952221443105020355490⟩, ⟨7308805952221443105020355490, 11825896447871834976429068427⟩⟩ : SState) = some (⟨⟨131151201344081895336534324866, 212207101440105399533740733471⟩, ⟨181246502592140286475862241127, 293263001536128903730947142076⟩⟩ : SState) :=
    stepN_succ_of_step c4run67 m2
  have m4 : stepN 170141183460469231731687303715884105727 ((131151201344081895336534324866 : ℚ) / 212207101440105399533740733471) (1/10^60) 4 (⟨⟨1725375039079340637797070384, 2791715456571051233611642553⟩, ⟨2791715456571051233611642553, 4517090495650391871408712937⟩⟩ : SState) = some (⟨⟨131151201344081895336534324866, 212207101440105399533740733471⟩, ⟨181246502592140286475862241127, 293263001536128903730947142076⟩⟩ : SState) :=
    stepN_succ_of_step c4run66 m3
  have m5 : stepN 170141183460469231731687303715884105727 ((131151201344081895336534324866 : ℚ) / 212207101440105399533740733471) (1/10^60) 5 (⟨⟨659034621587630041982498215, 1066340417491710595814572169⟩, ⟨1066340417491710595814572169, 1725375039079340637797070384⟩⟩ : SState) = some (⟨⟨131151201344081895336534324866, 212207101440105399533740733471⟩, ⟨181246502592140286475862241127, 293263001536128903730947142076⟩⟩ : SState) :=
    stepN_succ_of_step c4run65 m4
  have m6 : stepN 170141183460469231731687303715884105727 ((131151201344081895336534324866 : ℚ) / 212207101440105399533740733471) (1/10^60) 6 (⟨⟨251728825683549488150424261, 407305795904080553832073954⟩, ⟨407305795904080553832073954, 659034621587630041982498215⟩⟩ : SState) = some (⟨⟨131151201344081895336534324866, 212207101440105399533740733471⟩, ⟨181246502592140286475862241127, 293263001536128903730947142076⟩⟩ : SState) :=
    stepN_succ_of_step c4run64 m5
  have c70 : stepN 170141183460469231731687303715884105727 ((131151201344081895336534324866 : ℚ) / 212207101440105399533740733471) (1/10^60) 70 initState = some (⟨⟨131151201344081895336534324866, 212207101440105399533740733471⟩, ⟨181246502592140286475862241127, 293263001536128903730947142076⟩⟩ : SState) :=
    (stepN_chunk 64 6 c64).trans m6
  have hrt : ratTrunc ((131151201344081895336534324866 : ℚ) / 212207101440105399533740733471) = 0 := ratTrunc_eq (by norm_num) (by norm_num) (by norm_num)
  have hrem : ((131151201344081895336534324866 : ℚ) / 212207101440105399533740733471) - ((ratTrunc ((131151201344081895336534324866 : ℚ) / 212207101440105399533740733471) : ℤ) : ℚ) = ((131151201344081895336534324866 : ℚ) / 212207101440105399533740733471) := by
    rw [hrt]
    norm_num
  constructor
  · have hl : loop 170141183460469231731687303715884105727 ((131151201344081895336534324866 : ℚ) / 212207101440105399533740733471) (1/10^60) 64 initState = none :=
      (loop_chunk 64 0 c64).trans rfl
    rw [toFract_eq_loop, hrem, hl]
  · have hd30 : loop 170141183460469231731687303715884105727 ((131151201344081895336534324866 : ℚ) / 212207101440105399533740733471) (1/10^60) 30 (⟨⟨131151201344081895336534324866, 212207101440105399533740733471⟩, ⟨181246502592140286475862241127, 293263001536128903730947142076⟩⟩ : SState) =
        some (⟨131151201344081895336534324866, 212207101440105399533740733471⟩,
          .converged) :=
      loop_succ_done c4run70
    have hl100 : loop 170141183460469231731687303715884105727 ((131151201344081895336534324866 : ℚ) / 212207101440105399533740733471) (1/10^60) 100 initState =
        some (⟨131151201344081895336534324866, 212207101440105399533740733471⟩,
          .converged) :=
      (loop_chunk 70 30 c70).trans hd30
    rw [toFract_eq_loop, hrem, hl100, hrt]
    simp only [addInt]
    norm_num

/-- Claim C4 (amended): the search loop has **no** iteration cap — it is
an unconditional `for (;;)` — yet no input can make it iterate
indefinitely: each committed update strictly grows both denominators
while the pre-update guards keep them below `W`'s maximum, so for every
non-negative value, positive precision and width bound above 1 the loop
exits within `2 * maxV` iterations (via a precision test or an overflow
guard, whichever fires first). -/
theorem c4_no_cap_terminates (maxV : ℤ) (fuel : ℕ) (v prec : ℚ)
    (hmax : 1 < maxV) (hv : 0 ≤ v) (hp : 0 < prec)
    (hfuel : (2 * maxV).toNat ≤ fuel) :
    (toFract maxV fuel v prec).isSome = true := by
  rw [toFract_eq_loop]
  obtain ⟨hr0, hr1⟩ := sub_ratTrunc_mem_Ico hv
  have hl1 : initState.low.den < maxV := hmax
  have hh1 : initState.high.den < maxV := hmax
  have hbound : (2 * maxV - (initState.low.den + initState.high.den)).toNat ≤ fuel := by
    have e1 : initState.low.den = 1 := rfl
    have e2 : initState.high.den = 1 := rfl
    rw [e1, e2]
    omega
  have h := loop_isSome fuel (brInv_init hr0 hr1.le) hp hl1 hh1 hbound
  cases hl : loop maxV (v - (ratTrunc v : ℤ)) prec fuel initState with
  | none => rw [hl] at h; exact Bool.noConfusion h
  | some pr =>
    obtain ⟨g, r⟩ := pr
    rfl

/-- Witness for the amended C4 at `value = 1/2`, precision `1/4`,
`maxV = 3`: six iterations of fuel suffice and the call returns. -/
theorem c4_no_cap_terminates_witness : (toFract 3 6 (1/2) (1/4)).isSome = true :=
  c4_no_cap_terminates 3 6 (1/2) (1/4) (by decide)
    (by with_unfolding_all decide) (by with_unfolding_all decide) (by decide)

/-- Claim C5: throughout the search loop, given that the fractional
remainder lies in `[0, 1]` (and the precision is positive, the spec's
standing precondition), the bracketing invariant
`low.toFloat() <= remainder <= high.toFloat()` holds on entry to every
iteration — and hence is re-established after every mediant update,
since the state on entry to iteration `k + 1` is the updated state of
iteration `k`.  Exact in the exact-arithmetic model ("up to floating
slack" in the spec's words). -/
theorem c5_bracketing_invariant (maxV : ℤ) (rem prec : ℚ) (k : ℕ) (s : SState)
    (h0 : 0 ≤ rem) (h1 : rem ≤ 1) (hp : 0 < prec)
    (h : iter maxV rem prec k = some s) :
    toFloat s.low ≤ rem ∧ rem ≤ toFloat s.high := by
  obtain ⟨_, _, _, hv1, hv2, _, _⟩ := iter_brInv h0 h1 hp k h
  exact ⟨hv1, hv2⟩

/-- Witness for C5 after one committed update at `rem = 2/5`:
`1/3 ≤ 2/5 ≤ 1/2`. -/
theorem c5_bracketing_invariant_witness :
    toFloat ⟨1, 3⟩ ≤ (2/5 : ℚ) ∧ (2/5 : ℚ) ≤ toFloat ⟨1, 2⟩ :=
  c5_bracketing_invariant 100 (2/5) (1/100) 1 ⟨⟨1, 3⟩, ⟨1, 2⟩⟩
    (by with_unfolding_all decide) (by with_unfolding_all decide)
    (by with_unfolding_all decide) (by with_unfolding_all decide)

/-- Claim C6: each iteration computes
`testLow = low.denominator*remainder - low.numerator` and
`testHigh = high.numerator - high.denominator*remainder`; the `testHigh`
test is evaluated first — if `testHigh < precision` the result is the
high bound, and only otherwise, if `testLow < precision`, the result is
the low bound (`high` is set to `low` before stopping, so the broken
loop hands `low` back through `high`). -/
theorem c6_convergence_test_order (maxV : ℤ) (rem prec : ℚ) (s : SState) :
    ((s.high.num : ℚ) - (s.high.den : ℚ) * rem < prec →
      step maxV rem prec s = .done s.high .converged) ∧
    (¬ ((s.high.num : ℚ) - (s.high.den : ℚ) * rem < prec) →
      (s.low.den : ℚ) * rem - (s.low.num : ℚ) < prec →
      step maxV rem prec s = .done s.low .converged) := by
  constructor
  · intro h
    unfold step
    rw [if_pos (show testHigh rem s < prec from h)]
  · intro h1 h2
    unfold step
    rw [if_neg (show ¬ testHigh rem s < prec from h1),
      if_pos (show testLow rem s < prec from h2)]

/-- Witness for C6.  First part at `rem = 1/2`, `precision = 2`: *both*
tests pass (`testHigh = testLow = 1/2 < 2`), and the result is the high
bound `1/1` — demonstrating the evaluation order.  Second part at
`rem = 1/8`, `precision = 1/4`: only `testLow` passes and the low bound
`0/1` is returned. -/
theorem c6_convergence_test_order_witness :
    step 100 (1/2) 2 initState = .done ⟨1, 1⟩ .converged ∧
    step 100 (1/8) (1/4) initState = .done ⟨0, 1⟩ .converged :=
  ⟨(c6_convergence_test_order 100 (1/2) 2 initState).1 (by with_unfolding_all decide),
   (c6_convergence_test_order 100 (1/8) (1/4) initState).2
     (by with_unfolding_all decide) (by with_unfolding_all decide)⟩

/-- Claim C7: in a non-terminating iteration with `x1 = testHigh/testLow`
and `x2 = testLow/testHigh`, the step uses `n = floor(max(x1, x2))`
(always the floor of the branch's own ratio, which is the larger one):
when `x1 > x2` the new bounds are
`high := (n*low.num + high.num)/(n*low.den + high.den)` and
`low := (that numerator + low.num)/(that denominator + low.den)`, and
when `x2 >= x1` the symmetric construction with the roles of `low` and
`high` swapped is applied.  (Because the constructed pairs are coprime,
`boost`'s normalisation leaves exactly these components.) -/
theorem c7_mediant_step (maxV : ℤ) (rem prec : ℚ) (s : SState)
    (hI : brInv rem s) (hp : 0 < prec)
    (hH : ¬ testHigh rem s < prec) (hL : ¬ testLow rem s < prec) :
    (testLow rem s / testHigh rem s < testHigh rem s / testLow rem s →
      ¬ (testHigh rem s / testLow rem s + 1) * (s.low.den : ℚ) + (s.high.den : ℚ) ≥
        (maxV : ℚ) →
      step maxV rem prec s =
        .next ⟨⟨⌊testHigh rem s / testLow rem s⌋ * s.low.num + s.high.num + s.low.num,
                ⌊testHigh rem s / testLow rem s⌋ * s.low.den + s.high.den + s.low.den⟩,
               ⟨⌊testHigh rem s / testLow rem s⌋ * s.low.num + s.high.num,
                ⌊testHigh rem s / testLow rem s⌋ * s.low.den + s.high.den⟩⟩) ∧
    (¬ (testLow rem s / testHigh rem s < testHigh rem s / testLow rem s) →
      ¬ (s.low.den : ℚ) + (testLow rem s / testHigh rem s + 1) * (s.high.den : ℚ) ≥
        (maxV : ℚ) →
      step maxV rem prec s =
        .next ⟨⟨s.low.num + ⌊testLow rem s / testHigh rem s⌋ * s.high.num,
                s.low.den + ⌊testLow rem s / testHigh rem s⌋ * s.high.den⟩,
               ⟨s.low.num + ⌊testLow rem s / testHigh rem s⌋ * s.high.num + s.high.num,
                s.low.den + ⌊testLow rem s / testHigh rem s⌋ * s.high.den + s.high.den⟩⟩) := by
  obtain ⟨hb, hd, h0, hlr, hrh, hh1, hdet⟩ := hI
  have htL : 0 < testLow rem s := lt_of_lt_of_le hp (not_lt.mp hL)
  have htH : 0 < testHigh rem s := lt_of_lt_of_le hp (not_lt.mp hH)
  constructor
  · intro hx hg
    obtain ⟨hn1, ⟨hgrow1, hgrow2⟩, _, ⟨hgcd1, hgcd2⟩, _, _, _, _, _⟩ :=
      update_high_side (n := ⌊testHigh rem s / testLow rem s⌋)
        hb hd h0 hlr hrh hh1 hdet hp hH hL hx (not_le.mp hg) rfl
    unfold step
    rw [if_neg hH, if_neg hL,
      if_pos (show testHigh rem s / testLow rem s > testLow rem s / testHigh rem s from hx),
      if_neg hg, ratTrunc_eq_floor (div_nonneg htH.le htL.le),
      mkFrac_coprime hgcd2 (hb.trans hgrow2), mkFrac_coprime hgcd1 (hd.trans hgrow1)]
  · intro hx hg
    obtain ⟨hn1, ⟨hgrow1, hgrow2⟩, _, ⟨hgcd1, hgcd2⟩, _, _, _, _, _⟩ :=
      update_low_side (n := ⌊testLow rem s / testHigh rem s⌋)
        hb hd h0 hlr hrh hh1 hdet hp hH hL hx (not_le.mp hg) rfl
    unfold step
    rw [if_neg hH, if_neg hL,
      if_neg (show ¬ testHigh rem s / testLow rem s > testLow rem s / testHigh rem s from hx),
      if_neg hg, ratTrunc_eq_floor (div_nonneg htL.le htH.le),
      mkFrac_coprime hgcd1 (hb.trans hgrow1), mkFrac_coprime hgcd2 (hd.trans hgrow2)]

/-- Witness for C7 at `rem = 2/5`: `x1 = 3/2 > x2 = 2/3`, `n = 1`, the
new high is the mediant `1/2` and the new low `1/3`. -/
theorem c7_mediant_step_witness :
    step 100 (2/5) (1/100) initState = .next ⟨⟨1, 3⟩, ⟨1, 2⟩⟩ := by
  rw [(c7_mediant_step 100 (2/5) (1/100) initState
      (by with_unfolding_all decide) (by with_unfolding_all decide)
      (by with_unfolding_all decide) (by with_unfolding_all decide)).1
    (by with_unfolding_all decide) (by with_unfolding_all decide)]
  with_unfolding_all decide

/-- Claim C8: across the iterations of one `toFract` call (remainder in
`[0, 1]`, positive precision), `high.denominator` and `low.denominator`
are non-decreasing, and at least one strictly increases on every
iteration that performs a mediant update.  (In fact both strictly
increase, which implies the claimed progress guarantee.) -/
theorem c8_denominator_monotone (maxV : ℤ) (rem prec : ℚ) (k : ℕ) (s s' : SState)
    (h0 : 0 ≤ rem) (h1 : rem ≤ 1) (hp : 0 < prec)
    (hk : iter maxV rem prec k = some s) (hk1 : iter maxV rem prec (k + 1) = some s') :
    s.low.den ≤ s'.low.den ∧ s.high.den ≤ s'.high.den ∧
    (s.low.den < s'.low.den ∨ s.high.den < s'.high.den) := by
  rw [iter, hk] at hk1
  simp only [] at hk1
  cases hstep : step maxV rem prec s with
  | done f r => rw [hstep] at hk1; exact Option.noConfusion hk1
  | next t =>
    rw [hstep] at hk1
    injection hk1 with h
    subst h
    obtain ⟨_, hd1, hd2, _, _⟩ := step_next_strong (iter_brInv h0 h1 hp k hk) hp hstep
    exact ⟨hd1.le, hd2.le, Or.inl hd1⟩

/-- Witness for C8 on the first committed update at `rem = 2/5`:
denominators go from `(1, 1)` to `(3, 2)`. -/
theorem c8_denominator_monotone_witness :
    (1 : ℤ) ≤ 3 ∧ (1 : ℤ) ≤ 2 ∧ ((1 : ℤ) < 3 ∨ (1 : ℤ) < 2) :=
  c8_denominator_monotone 100 (2/5) (1/100) 0 initState ⟨⟨1, 3⟩, ⟨1, 2⟩⟩
    (by with_unfolding_all decide) (by with_unfolding_all decide)
    (by with_unfolding_all decide) (by with_unfolding_all decide)
    (by with_unfolding_all decide)

/-- Claim C9: every fraction `toFract` returns (and every intermediate
`low`/`high` bound it constructs) is stored in lowest terms with a
strictly positive denominator — `gcd(|numerator|, denominator) = 1` and
`denominator >= 1` — because the underlying `boost::rational` type
normalises on every construction (and, by the unimodularity of the bound
pair, the constructed pairs are already coprime). -/
theorem c9_lowest_terms (maxV : ℤ) (fuel : ℕ) (v prec : ℚ)
    (hv : 0 ≤ v) (hp : 0 < prec) :
    (∀ f r, toFract maxV fuel v prec = some (.ok f r) →
      1 ≤ f.den ∧ Int.gcd f.num f.den = 1) ∧
    (∀ k s, iter maxV (v - (ratTrunc v : ℤ)) prec k = some s →
      1 ≤ s.low.den ∧ Int.gcd s.low.num s.low.den = 1 ∧
      1 ≤ s.high.den ∧ Int.gcd s.high.num s.high.den = 1) := by
  obtain ⟨hr0, hr1⟩ := sub_ratTrunc_mem_Ico hv
  constructor
  · intro f r h
    rw [toFract_eq_loop] at h
    cases hl : loop maxV (v - (ratTrunc v : ℤ)) prec fuel initState with
    | none => rw [hl] at h; exact Option.noConfusion h
    | some pr =>
      obtain ⟨g, r'⟩ := pr
      rw [hl] at h
      simp only [] at h
      injection h with h
      injection h with hf hr
      obtain ⟨hgden, hggcd, _⟩ := loop_props fuel (brInv_init hr0 hr1.le) hp hl
      rw [← hf]
      exact ⟨hgden, by rw [gcd_addInt]; exact hggcd⟩
  · intro k s h
    obtain ⟨hb, hd, _, _, _, _, hdet⟩ := iter_brInv hr0 hr1.le hp k h
    have hco := coprime_of_det hdet
    exact ⟨hb, hco.1, hd, hco.2⟩

/-- Witness for C9 at `value = 2/5`, precision `1/100`: the returned
fraction `2/5` is in lowest terms with positive denominator. -/
theorem c9_lowest_terms_witness : (1 : ℤ) ≤ 5 ∧ Int.gcd 2 5 = 1 :=
  (c9_lowest_terms 100 10 (2/5) (1/100)
      (by with_unfolding_all decide) (by with_unfolding_all decide)).1
    ⟨2, 5⟩ .converged (by with_unfolding_all decide)

/-- Claim C10: for every value whose fractional remainder
`value - trunc(value)` is strictly negative, and every precision with
`0 < precision <= 1`, `toFract` returns the fraction `intPart/1`: in the
first iteration `testHigh = 1 - remainder ≥ precision` fails the first
test but `testLow = remainder < 0 < precision` passes the second, so the
low bound `0/1` is selected and the negative fractional part is silently
discarded. -/
theorem c10_negative_remainder (maxV : ℤ) (fuel : ℕ) (v prec : ℚ)
    (hfuel : 1 ≤ fuel) (hneg : v - (ratTrunc v : ℤ) < 0)
    (hp : 0 < prec) (hp1 : prec ≤ 1) :
    toFract maxV fuel v prec = some (.ok ⟨ratTrunc v, 1⟩ .converged) := by
  rw [toFract_eq_loop]
  obtain ⟨m, rfl⟩ : ∃ m, fuel = m + 1 := ⟨fuel - 1, by omega⟩
  have hA : ¬ testHigh (v - (ratTrunc v : ℤ)) initState < prec := by
    unfold testHigh
    simp only [initState]
    push_cast
    linarith
  have hB : testLow (v - (ratTrunc v : ℤ)) initState < prec := by
    unfold testLow
    simp only [initState]
    push_cast
    linarith
  have hstep : step maxV (v - (ratTrunc v : ℤ)) prec initState = .done ⟨0, 1⟩ .converged := by
    unfold step
    rw [if_neg hA, if_pos hB]
    rfl
  rw [loop, hstep]
  simp only [addInt]
  norm_num

/-- Witness for C10 at `value = -3/2`, precision `1/2`: the fractional
remainder `-1/2` is discarded and `-1/1` is returned. -/
theorem c10_negative_remainder_witness :
    toFract 100 5 (-3/2 : ℚ) (1/2) = some (.ok ⟨-1, 1⟩ .converged) := by
  have h := c10_negative_remainder 100 5 (-3/2) (1/2)
    (by decide) (by with_unfolding_all decide)
    (by with_unfolding_all decide) (by with_unfolding_all decide)
  rw [h]
  with_unfolding_all decide

end Cvt2Fraction
